import Mathlib

/-!
# EcoTrails admin console: a verification development

A shallow embedding of the list-manager logic of the admin screens
(`BookingsAdminScreen.js`, `UsersAdminScreen.js`, `ItinerariesAdminScreen.js`,
`ItineraryRequestsAdminScreen.js`, `PartnersAdminScreen.js`,
`LocationAdminScreen.js`, `FeedbackManagementScreen.js`, `AdminLoginScreen.js`).

Conventions of the embedding

* A JavaScript value is a `JVal`.  Numbers are integers (a JSON number that is
  not an integer behaves like a non-zero integer in all the code embedded here).
* An exception is a `Thrown`; code that can throw returns `Except Thrown _`.
* A handler with an `await` is split at the await: the part after it is a
  function of the state at that moment and of the `Outcome` of the request.
  State writes made after one await are committed together.
* `Alert.alert` calls are returned as a list of `Alert` next to the new state.
* A mutation handler is given as the sequence of its effects in program order (`Effect`):
  alerts, state writes, requests.  The state after the handler is the state with the writes
  applied in that order.  Values the handler reads from its closure are its parameters.
-/

namespace EcoTrails

/-! ## JavaScript values -/

/-- A JavaScript value as the screens see it: what `JSON.parse` can return, plus `undefined`. -/
inductive JVal where
  | undefined : JVal
  | null : JVal
  | bool (b : Bool) : JVal
  | num (n : Int) : JVal
  | str (s : String) : JVal
  | arr (items : List JVal) : JVal
  | obj (fields : List (String × JVal)) : JVal

/-- An exception value: `name` is the constructor, the argument is its `message`. -/
inductive Thrown where
  | error (message : String) : Thrown
  | typeError (message : String) : Thrown
  | syntaxError (message : String) : Thrown
  | referenceError (message : String) : Thrown
  deriving DecidableEq

/-- The `message` property of an exception value. -/
def Thrown.message : Thrown → String
  | .error m => m
  | .typeError m => m
  | .syntaxError m => m
  | .referenceError m => m

/-- JavaScript truthiness (`ToBoolean`). -/
def JVal.truthy : JVal → Bool
  | .undefined => false
  | .null => false
  | .bool b => b
  | .num n => n != 0
  | .str s => s != ""
  | .arr _ => true
  | .obj _ => true

/-- The expression `a || b`. -/
def JVal.or (a b : JVal) : JVal :=
  if a.truthy then a else b

/-- Lookup of an own property in the field list of an object; the first entry for a key is the
one that counts. -/
def lookupField (key : String) : List (String × JVal) → JVal
  | [] => .undefined
  | (k, v) :: rest => if k = key then v else lookupField key rest

/-- The TypeError raised by reading property `key` of `null` or `undefined` (the wording is the
engine's). -/
def nullPropertyError (key : String) : Thrown :=
  .typeError ("Cannot read property " ++ key ++ " of null or undefined")

/-- The TypeError raised by calling a method the receiver does not have. -/
def notAFunctionError (method : String) : Thrown :=
  .typeError (method ++ " is not a function")

/-- The expression `v.key` for the data keys the screens read (`status`, `message`, `id`,
`locations`, ...): it throws on `null` and `undefined`, gives the own property of an object, and
`undefined` on every other value (none of those keys is a built-in property of a string, number,
boolean or array). -/
def JVal.getProp (v : JVal) (key : String) : Except Thrown JVal :=
  match v with
  | .undefined => .error (nullPropertyError key)
  | .null => .error (nullPropertyError key)
  | .obj fields => .ok (lookupField key fields)
  | _ => .ok .undefined

/-- Lower-casing of a string (`String.prototype.toLowerCase`), on the ASCII letters; the
theorems use no property of it beyond its being a function. -/
def lowerString (s : String) : String :=
  String.mk (s.data.map Char.toLower)

/-- The call `v.toLowerCase()`: defined on strings only; on any other (truthy) value the method
is missing and the call throws. -/
def JVal.toLowerCase (v : JVal) : Except Thrown String :=
  match v with
  | .str s => .ok (lowerString s)
  | .undefined => .error (nullPropertyError "toLowerCase")
  | .null => .error (nullPropertyError "toLowerCase")
  | _ => .error (notAFunctionError "toLowerCase")

/-- The method `Array.prototype.filter` with a callback that may throw: the first exception ends the
call. -/
def filterE (p : JVal → Except Thrown Bool) : List JVal → Except Thrown (List JVal)
  | [] => .ok []
  | x :: xs =>
    match p x with
    | .error e => .error e
    | .ok keep =>
      match filterE p xs with
      | .error e => .error e
      | .ok rest => .ok (if keep then x :: rest else rest)

/-- The comparison `(r.status || '').toLowerCase() === key.toLowerCase()` used by the Users and
Bookings filters. -/
def statusMatches (key : String) (r : JVal) : Except Thrown Bool :=
  match r.getProp "status" with
  | .error e => .error e
  | .ok s =>
    match (s.or (.str "")).toLowerCase with
    | .error e => .error e
    | .ok l => .ok (l == lowerString key)

/-! ## UsersAdminScreen: the filter -/

/-- The list `filteredUsers` of `UsersAdminScreen.js`: `users.filter(user => statusFilter === "All" ? true :
(user.status || "").toLowerCase() === statusFilter.toLowerCase())`. -/
def filteredUsers (users : List JVal) (statusFilter : String) : Except Thrown (List JVal) :=
  filterE (fun user => if statusFilter = "All" then .ok true else statusMatches statusFilter user)
    users

/-! ## BookingsAdminScreen: the filter effect -/

/-- The value the filter effect of `BookingsAdminScreen.js` passes to `setFilteredBookings`. -/
def filterEffectValue (bookings : List JVal) (currentFilter : String) :
    Except Thrown (List JVal) :=
  if bookings.length > 0 then
    if currentFilter = "All" then .ok bookings
    else filterE (statusMatches currentFilter) bookings
  else .ok []

/-! ## More of JavaScript: string conversion, object spread -/

mutual
/-- The conversion `String(v)` (`ToString`), used by `new Error(v)`; an integer prints in
decimal. -/
def JVal.toStr : JVal → String
  | .undefined => "undefined"
  | .null => "null"
  | .bool b => if b then "true" else "false"
  | .num n => toString n
  | .str s => s
  | .arr items => joinItems items
  | .obj _ => "[object Object]"
/-- The method `Array.prototype.join` with the separator `,`: `null` and `undefined` items give
the empty string. -/
def joinItems : List JVal → String
  | [] => ""
  | [x] => itemStr x
  | x :: y :: rest => itemStr x ++ "," ++ joinItems (y :: rest)
/-- One item of a joined array. -/
def itemStr : JVal → String
  | .undefined => ""
  | .null => ""
  | .bool b => if b then "true" else "false"
  | .num n => toString n
  | .str s => s
  | .arr items => joinItems items
  | .obj _ => "[object Object]"
end

/-- Own enumerable properties copied by an object spread `{...v}`: the fields of an object, the
indexed items of an array, the indexed characters of a string, nothing for any other value
(`null` and `undefined` included). -/
def JVal.ownFields : JVal → List (String × JVal)
  | .obj fields => fields
  | .arr items => (List.range items.length).zip items |>.map (fun p => (toString p.1, p.2))
  | .str s => (List.range s.data.length).zip s.data |>.map
      (fun p => (toString p.1, JVal.str (String.mk [p.2])))
  | _ => []

/-- Writing a property in an object literal after a spread: an existing key keeps its place and
takes the new value, a new key goes last. -/
def setField (key : String) (v : JVal) : List (String × JVal) → List (String × JVal)
  | [] => [(key, v)]
  | (k, w) :: rest => if k = key then (k, v) :: rest else (k, w) :: setField key v rest

/-! ## HTTP -/

/-- A response of `fetch`.  `parsed` is what `JSON.parse(text)` does on the body: the value, or
the message of the SyntaxError it throws. -/
structure Response where
  status : Nat
  statusText : String
  text : String
  parsed : Except String JVal

/-- The flag `res.ok`: the status is in 200..299. -/
def Response.ok (res : Response) : Bool :=
  200 ≤ res.status && res.status ≤ 299

/-- The call `await res.json()`. -/
def Response.json (res : Response) : Except Thrown JVal :=
  match res.parsed with
  | .ok v => .ok v
  | .error m => .error (.syntaxError m)

/-- What `await fetch(...)` gives: a rejection (network failure) or a response. -/
inductive Outcome where
  | rejected (e : Thrown) : Outcome
  | responded (res : Response) : Outcome

/-- One call of `Alert.alert(title, message)`. -/
structure Alert where
  title : String
  message : String
  deriving DecidableEq

/-- The expression `s || fallback` on strings. -/
def strOr (s fallback : String) : String :=
  if s = "" then fallback else s

/-- The idiom `await res.json().catch(() => ({ message: res.statusText }))` followed by
`throw new Error(errorData.message || generic)`: the exception that reaches the handler. -/
def errorFromBody (res : Response) (generic : String) : Thrown :=
  let errorData : JVal :=
    match res.parsed with
    | .ok v => v
    | .error _ => .obj [("message", .str res.statusText)]
  match errorData.getProp "message" with
  | .error e => e
  | .ok m => .error ((m.or (.str generic)).toStr)

/-! ## BookingsAdminScreen -/

/-- The state of `BookingsAdminScreen` (its eight `useState` cells). -/
structure BookingsState where
  bookings : List JVal
  filteredBookings : List JVal
  currentFilter : String
  view : JVal
  editBooking : JVal
  loading : Bool
  refreshing : Bool
  error : Option String

/-- The initial values of the `useState` cells. -/
def BookingsState.initial : BookingsState :=
  { bookings := [], filteredBookings := [], currentFilter := "All", view := .null,
    editBooking := .null, loading := false, refreshing := false, error := none }

/-- The part of `fetchBookings` up to its `await fetch(...)`: `setLoading(true); setError(null)`. -/
def fetchBookingsStart (s : BookingsState) : BookingsState :=
  { s with loading := true, error := none }

/-- The `try` block of `fetchBookings` after the response arrived: the pair
(bookings, filteredBookings) it writes, or the exception that reaches `catch`.  `currentFilter`
is the filter key captured by this `fetchBookings` closure. -/
def fetchBookingsTry (currentFilter : String) (o : Outcome) :
    Except Thrown (List JVal × List JVal) :=
  match o with
  | .rejected e => .error e
  | .responded res =>
    if !res.ok then
      .error (errorFromBody res ("Failed to fetch bookings: " ++ toString res.status))
    else
      match res.json with
      | .error e => .error e
      | .ok (.arr data) =>
        match filterE (fun b => if currentFilter = "All" then .ok true
            else statusMatches currentFilter b) data with
        | .error e => .error e
        | .ok initialFiltered => .ok (data, initialFiltered)
      | .ok _ => .ok ([], [])

/-- The part of `fetchBookings` from the response on: the `try` block, `catch` and `finally`. -/
def fetchBookingsDone (currentFilter : String) (o : Outcome) (s : BookingsState) :
    BookingsState :=
  match fetchBookingsTry currentFilter o with
  | .ok (data, initialFiltered) =>
    { s with bookings := data, filteredBookings := initialFiltered,
             loading := false, refreshing := false }
  | .error err =>
    { s with error := some (strOr err.message "Failed to fetch bookings. Please try again."),
             bookings := [], filteredBookings := [], loading := false, refreshing := false }

/-- The filter effect (`useEffect(..., [bookings, currentFilter])`): it throws when the filter
callback throws. -/
def runFilterEffect (s : BookingsState) : Except Thrown BookingsState :=
  match filterEffectValue s.bookings s.currentFilter with
  | .error e => .error e
  | .ok newFilteredBookings => .ok { s with filteredBookings := newFilteredBookings }

/-- The handler `handleFilterChange(status)`: `setCurrentFilter(status)`. -/
def handleFilterChange (status : String) (s : BookingsState) : BookingsState :=
  { s with currentFilter := status }

/-- The part of `handleView` up to its await: `setLoading(true)`. -/
def handleViewStart (s : BookingsState) : BookingsState :=
  { s with loading := true }

/-- The `try` block of `handleView` after the response arrived: the detail record it passes to
`setView`, or the exception that reaches `catch`. -/
def handleViewTry (o : Outcome) : Except Thrown JVal :=
  match o with
  | .rejected e => .error e
  | .responded res =>
    if !res.ok then
      .error (errorFromBody res ("Failed to load details: " ++ toString res.status))
    else res.json

/-- The part of `handleView` from the response on. -/
def handleViewDone (o : Outcome) (s : BookingsState) : BookingsState × List Alert :=
  match handleViewTry o with
  | .ok detail => ({ s with view := detail, loading := false }, [])
  | .error e =>
    ({ s with loading := false },
     [{ title := "Error", message := strOr e.message "Failed to load booking details." }])

/-- The handler `handleEdit(item)`: `setEditBooking({ ...item, newStatus: item.status })`. -/
def handleEdit (item : JVal) (s : BookingsState) : Except Thrown BookingsState :=
  match item.getProp "status" with
  | .error e => .error e
  | .ok st => .ok { s with editBooking := .obj (setField "newStatus" st item.ownFields) }

/-- The edit input: `setEditBooking(prev => ({ ...prev, newStatus: text }))`. -/
def changeNewStatus (text : String) (s : BookingsState) : BookingsState :=
  { s with editBooking := .obj (setField "newStatus" (.str text) s.editBooking.ownFields) }

/-- The handler `cancelEdit`: `setEditBooking(null)`. -/
def cancelEdit (s : BookingsState) : BookingsState :=
  { s with editBooking := .null }

/-- Closing the view modal: `setView(null)`. -/
def closeView (s : BookingsState) : BookingsState :=
  { s with view := .null }

/-- The guard of `saveEditBooking`: `!editBooking || !editBooking.id`. -/
def saveEditBookingSkips (s : BookingsState) : Bool :=
  !s.editBooking.truthy ||
    (match s.editBooking.getProp "id" with
     | .ok id => !id.truthy
     | .error _ => true)

/-- The part of `saveEditBooking` up to its await: nothing when the guard returns, else `setLoading(true)`. -/
def saveEditBookingStart (s : BookingsState) : BookingsState :=
  if saveEditBookingSkips s then s else { s with loading := true }

/-- The `try` block of `saveEditBooking` after the response arrived: the exception that reaches
`catch`, if any. -/
def saveEditBookingTry (o : Outcome) : Option Thrown :=
  match o with
  | .rejected e => some e
  | .responded res =>
    if !res.ok then
      some (errorFromBody res ("Status update failed: " ++ toString res.status))
    else none

/-- The part of `saveEditBooking` from the response on.  On success it alerts, clears the draft and calls
`fetchBookings()`, whose part before the await runs at once; `finally` then clears `loading`. -/
def saveEditBookingDone (o : Outcome) (s : BookingsState) : BookingsState × List Alert :=
  match saveEditBookingTry o with
  | none =>
    ({ fetchBookingsStart { s with editBooking := .null } with loading := false },
     [{ title := "Success", message := "Booking status updated successfully!" }])
  | some e =>
    ({ s with loading := false },
     [{ title := "Error", message := strOr e.message "Could not update booking status." }])

/-- The handler `onRefresh`: `setRefreshing(true)` and the start of `fetchBookings`. -/
def onRefresh (s : BookingsState) : BookingsState :=
  fetchBookingsStart { s with refreshing := true }

/-- The things that happen to a mounted `BookingsAdminScreen`. -/
inductive BookingsEvent where
  | fetchStart : BookingsEvent
  | refresh : BookingsEvent
  | fetchDone (capturedFilter : String) (o : Outcome) : BookingsEvent
  | filterChange (status : String) : BookingsEvent
  | viewStart : BookingsEvent
  | viewDone (o : Outcome) : BookingsEvent
  | closeView : BookingsEvent
  | edit (item : JVal) : BookingsEvent
  | changeNewStatus (text : String) : BookingsEvent
  | cancelEdit : BookingsEvent
  | saveStart : BookingsEvent
  | saveDone (o : Outcome) : BookingsEvent

/-- One event, followed by the render it causes: React runs the filter effect after a render in
which `bookings` or `currentFilter` changed.  A completed fetch always writes a fresh array to
`bookings`; a filter change writes `currentFilter` only when the key differs.  The result is an
exception when one escapes a handler or the effect. -/
def BookingsState.step (s : BookingsState) : BookingsEvent → Except Thrown BookingsState
  | .fetchStart => .ok (fetchBookingsStart s)
  | .refresh => .ok (onRefresh s)
  | .fetchDone capturedFilter o => runFilterEffect (fetchBookingsDone capturedFilter o s)
  | .filterChange status =>
    if status = s.currentFilter then .ok s else runFilterEffect (handleFilterChange status s)
  | .viewStart => .ok (handleViewStart s)
  | .viewDone o => .ok (handleViewDone o s).1
  | .closeView => .ok (closeView s)
  | .edit item => handleEdit item s
  | .changeNewStatus text => .ok (changeNewStatus text s)
  | .cancelEdit => .ok (cancelEdit s)
  | .saveStart => .ok (saveEditBookingStart s)
  | .saveDone o => .ok (saveEditBookingDone o s).1

/-- A sequence of events, from a given state. -/
def BookingsState.run (s : BookingsState) : List BookingsEvent → Except Thrown BookingsState
  | [] => .ok s
  | ev :: rest =>
    match s.step ev with
    | .error e => .error e
    | .ok t => t.run rest

/-- The screen right after mounting: the initial cells, then the two mount effects (the fetch
effect starts `fetchBookings`, the filter effect writes the empty list). -/
def BookingsState.mounted : Except Thrown BookingsState :=
  runFilterEffect (fetchBookingsStart BookingsState.initial)

/-! ## UsersAdminScreen -/

/-- The state of `UsersAdminScreen`. -/
structure UsersState where
  users : List JVal
  statusFilter : String
  loading : Bool
  view : JVal
  edit : JVal

/-- The initial values of the `useState` cells. -/
def UsersState.initial : UsersState :=
  { users := [], statusFilter := "All", loading := false, view := .null, edit := .null }

/-- The `try` block of `fetchUsers` after the response arrived. -/
def fetchUsersTry (o : Outcome) : Except Thrown (List JVal) :=
  match o with
  | .rejected e => .error e
  | .responded res =>
    if !res.ok then .error (.error "Failed to fetch users")
    else
      match res.json with
      | .error e => .error e
      | .ok (.arr data) => .ok data
      | .ok _ => .ok []

/-- The part of `fetchUsers` from the response on. -/
def fetchUsersDone (o : Outcome) (s : UsersState) : UsersState × List Alert :=
  match fetchUsersTry o with
  | .ok data => ({ s with users := data, loading := false }, [])
  | .error _ =>
    ({ s with loading := false }, [{ title := "Error", message := "Failed to fetch users" }])

/-! ## ItinerariesAdminScreen -/

/-- The state of `ItinerariesAdminScreen`. -/
structure ItinerariesState where
  itineraries : List JVal
  view : JVal
  edit : JVal
  add : JVal
  loading : Bool

/-- The initial values of the `useState` cells. -/
def ItinerariesState.initial : ItinerariesState :=
  { itineraries := [], view := .null, edit := .null, add := .null, loading := false }

/-- The `try` block of `fetchItineraries` after the response arrived; `res.ok` is not read. -/
def fetchItinerariesTry (o : Outcome) : Except Thrown (List JVal) :=
  match o with
  | .rejected e => .error e
  | .responded res =>
    match res.json with
    | .error e => .error e
    | .ok (.arr data) => .ok data
    | .ok _ => .ok []

/-- The part of `fetchItineraries` from the response on. -/
def fetchItinerariesDone (o : Outcome) (s : ItinerariesState) : ItinerariesState × List Alert :=
  match fetchItinerariesTry o with
  | .ok data => ({ s with itineraries := data, loading := false }, [])
  | .error err =>
    ({ s with loading := false },
     [{ title := "Error", message := "Could not load itineraries. " ++ strOr err.message "" }])

/-! ## ItineraryRequestsAdminScreen -/

/-- The state of `ItineraryRequestsAdminScreen`. -/
structure RequestsState where
  requests : List JVal
  view : JVal
  loading : Bool
  updating : Bool
  updateModalVisible : Bool
  updateStatus : JVal

/-- The initial values of the `useState` cells. -/
def RequestsState.initial : RequestsState :=
  { requests := [], view := .null, loading := false, updating := false,
    updateModalVisible := false, updateStatus := .str "" }

/-- The `try` block of `fetchRequests` after the response arrived. -/
def fetchRequestsTry (o : Outcome) : Except Thrown (List JVal) :=
  match o with
  | .rejected e => .error e
  | .responded res =>
    if !res.ok then .error (.error ("HTTP error! status: " ++ toString res.status))
    else
      match res.json with
      | .error e => .error e
      | .ok (.arr data) => .ok data
      | .ok _ => .ok []

/-- The part of `fetchRequests` from the response on. -/
def fetchRequestsDone (o : Outcome) (s : RequestsState) : RequestsState × List Alert :=
  match fetchRequestsTry o with
  | .ok data => ({ s with requests := data, loading := false }, [])
  | .error _ =>
    ({ s with requests := [], loading := false },
     [{ title := "Error", message := "Could not load itinerary requests." }])

/-- The `try` block of `fetchRequestDetails` after the response arrived: the record passed to
`setView` and the value passed to `setUpdateStatus`, or the exception that reaches `catch`. -/
def fetchRequestDetailsTry (o : Outcome) : Except Thrown (JVal × JVal) :=
  match o with
  | .rejected e => .error e
  | .responded res =>
    if !res.ok then .error (.error ("HTTP error! status: " ++ toString res.status))
    else
      match res.json with
      | .error e => .error e
      | .ok data =>
        match data.getProp "status" with
        | .error e => .error e
        | .ok st => .ok (data, st.or (.str ""))

/-- The part of `fetchRequestDetails` from the response on; `catch` alerts and calls `setView(null)`. -/
def fetchRequestDetailsDone (o : Outcome) (s : RequestsState) : RequestsState × List Alert :=
  match fetchRequestDetailsTry o with
  | .ok (data, st) => ({ s with view := data, updateStatus := st, loading := false }, [])
  | .error _ =>
    ({ s with view := .null, loading := false },
     [{ title := "Error", message := "Could not fetch details for this request." }])

/-! ## PartnersAdminScreen -/

/-- The edit form of `PartnersAdminScreen`. -/
structure PartnerForm where
  FullName : JVal
  EmailAddress : JVal
  BusinessName : JVal
  TypeOfBusiness : JVal
  Location : JVal
  BriefDescription : JVal
  Status : JVal

/-- The state of `PartnersAdminScreen`. -/
structure PartnersState where
  partners : List JVal
  loading : Bool
  viewPartner : JVal
  detailsLoading : Bool
  editPartner : JVal
  editForm : PartnerForm
  editSaving : Bool
  statusUpdating : Bool

/-- The initial values of the `useState` cells. -/
def PartnersState.initial : PartnersState :=
  { partners := [], loading := true, viewPartner := .null, detailsLoading := false,
    editPartner := .null,
    editForm := { FullName := .str "", EmailAddress := .str "", BusinessName := .str "",
                  TypeOfBusiness := .str "", Location := .str "", BriefDescription := .str "",
                  Status := .str "" },
    editSaving := false, statusUpdating := false }

/-- The `try` block of `fetchAllPartners` after the response arrived. -/
def fetchAllPartnersTry (o : Outcome) : Except Thrown (List JVal) :=
  match o with
  | .rejected e => .error e
  | .responded res =>
    if !res.ok then .error (.error "Failed to fetch partners")
    else
      match res.json with
      | .error e => .error e
      | .ok (.arr data) => .ok data
      | .ok _ => .ok []

/-- The part of `fetchAllPartners` from the response on. -/
def fetchAllPartnersDone (o : Outcome) (s : PartnersState) : PartnersState × List Alert :=
  match fetchAllPartnersTry o with
  | .ok data => ({ s with partners := data, loading := false }, [])
  | .error _ =>
    ({ s with partners := [], loading := false },
     [{ title := "Error", message := "Failed to load partner applications" }])

/-- The `try` block of `fetchPartnerDetails` after the response arrived. -/
def fetchPartnerDetailsTry (o : Outcome) : Except Thrown JVal :=
  match o with
  | .rejected e => .error e
  | .responded res =>
    if !res.ok then .error (.error "Failed to fetch partner details") else res.json

/-- The part of `fetchPartnerDetails` from the response on; `catch` alerts and calls `setViewPartner(null)`. -/
def fetchPartnerDetailsDone (o : Outcome) (s : PartnersState) : PartnersState × List Alert :=
  match fetchPartnerDetailsTry o with
  | .ok details => ({ s with viewPartner := details, detailsLoading := false }, [])
  | .error _ =>
    ({ s with viewPartner := .null, detailsLoading := false },
     [{ title := "Error", message := "Failed to load details" }])

/-! ## LocationAdminScreen -/

/-- The add/edit form of `LocationAdminScreen`. -/
structure LocationForm where
  Id : JVal
  Name : JVal
  Description : JVal

/-- The state of `LocationAdminScreen`.  `locations` is a plain value: `fetchLocations` can
write something that is not an array. -/
structure LocationsState where
  locations : JVal
  loading : Bool
  modalVisible : Bool
  isEditing : Bool
  form : LocationForm
  saving : Bool
  deleting : Bool

/-- The initial values of the `useState` cells. -/
def LocationsState.initial : LocationsState :=
  { locations := .arr [], loading := false, modalVisible := false, isEditing := false,
    form := { Id := .null, Name := .str "", Description := .str "" },
    saving := false, deleting := false }

/-- The `try` block of `fetchLocations` after the response arrived: the value passed to
`setLocations`, `Array.isArray(data) ? data : (data.locations || [])`. -/
def fetchLocationsTry (o : Outcome) : Except Thrown JVal :=
  match o with
  | .rejected e => .error e
  | .responded res =>
    if !res.ok then .error (.error (strOr res.text "Failed to fetch locations"))
    else
      match res.json with
      | .error e => .error e
      | .ok (.arr data) => .ok (.arr data)
      | .ok data =>
        match data.getProp "locations" with
        | .error e => .error e
        | .ok l => .ok (l.or (.arr []))

/-- The part of `fetchLocations` from the response on. -/
def fetchLocationsDone (o : Outcome) (s : LocationsState) : LocationsState × List Alert :=
  match fetchLocationsTry o with
  | .ok v => ({ s with locations := v, loading := false }, [])
  | .error err =>
    ({ s with locations := .arr [], loading := false },
     [{ title := "Error", message := strOr err.message "Failed to load locations" }])

/-! ## FeedbackManagementScreen -/

/-- The state of `FeedbackManagementScreen`. -/
structure FeedbackState where
  feedbackList : List JVal
  loading : Bool
  refreshing : Bool

/-- The initial values of the `useState` cells. -/
def FeedbackState.initial : FeedbackState :=
  { feedbackList := [], loading := false, refreshing := false }

/-- The value `fetchFeedback` passes to `setFeedbackList`: `JSON.parse(text)`, replaced by `[]`
when the parse throws or the value is not an array.  `response.ok` is not read. -/
def feedbackData (res : Response) : List JVal :=
  match res.parsed with
  | .ok (.arr data) => data
  | .ok _ => []
  | .error _ => []

/-- The part of `fetchFeedback` from the response on. -/
def fetchFeedbackDone (o : Outcome) (s : FeedbackState) : FeedbackState × List Alert :=
  match o with
  | .responded res =>
    ({ s with feedbackList := feedbackData res, loading := false, refreshing := false }, [])
  | .rejected _ =>
    ({ s with loading := false, refreshing := false },
     [{ title := "Error", message := "Failed to load feedback data." }])

/-! ## AdminLoginScreen -/

/-- The value of `json` in `handleLogin` after the inner `try`: `JSON.parse(text)`, or
`{ message: text, raw: text }` when the parse throws. -/
def handleLoginJson (res : Response) : JVal :=
  match res.parsed with
  | .ok v => v
  | .error _ => .obj [("message", .str res.text), ("raw", .str res.text)]

/-! ## The filter as the specification words it -/

/-- The status of a record read as text: the `status` field when it is a string, the empty string
when the record has no such field (or a falsy one). -/
def statusText (r : JVal) : String :=
  match r with
  | .obj fields =>
    match lookupField "status" fields with
    | .str st => st
    | _ => ""
  | _ => ""

/-- The filter of the specification: the records of `C`, in order, whose status lower-cased equals
the key lower-cased. -/
def applyFilterSpec (C : List JVal) (K : String) : List JVal :=
  C.filter (fun r => lowerString (statusText r) == lowerString K)

/-- A record on which the status comparison of the filters does not throw: it is neither `null`
nor `undefined`, and its `status` is a string or a falsy value (missing, `null`, `false`, `0`). -/
def statusReadable (r : JVal) : Bool :=
  match r.getProp "status" with
  | .error _ => false
  | .ok (.str _) => true
  | .ok v => !v.truthy

/-- The events that write `bookings` or `currentFilter`: a completed fetch and a filter change. -/
def BookingsEvent.writesFilterInputs : BookingsEvent → Bool
  | .fetchDone _ _ => true
  | .filterChange _ => true
  | _ => false

/-- A session of the Bookings screen: mounting, then a sequence of events. -/
def BookingsState.session (evs : List BookingsEvent) : Except Thrown BookingsState :=
  match BookingsState.mounted with
  | .error e => .error e
  | .ok s => s.run evs

/-- The filtered list is the filter of (bookings, currentFilter). -/
def filterInSync (s : BookingsState) : Prop :=
  filterEffectValue s.bookings s.currentFilter = .ok s.filteredBookings


/-- A failed load: the request was rejected, the status is not a success, or the body does not
parse. -/
def Outcome.failed : Outcome → Bool
  | .rejected _ => true
  | .responded res =>
    !res.ok ||
      (match res.parsed with
       | .ok _ => false
       | .error _ => true)

/-! ## Sample data -/

/-- A booking with status "Pending". -/
def pendingBooking : JVal := .obj [("id", .num 1), ("status", .str "Pending")]

/-- A booking with status "Confirmed". -/
def confirmedBooking : JVal := .obj [("id", .num 2), ("status", .str "Confirmed")]

/-- A record whose status is a number. -/
def numericStatusRecord : JVal := .obj [("id", .num 1), ("status", .num 2)]

/-- A successful response whose body is the array of the two sample bookings. -/
def twoBookingsResponse : Response :=
  { status := 200, statusText := "OK",
    text := "[\x7b\"id\":1,\"status\":\"Pending\"\x7d,\x7b\"id\":2,\"status\":\"Confirmed\"\x7d]",
    parsed := .ok (.arr [pendingBooking, confirmedBooking]) }

/-- A successful response whose body is an array with one record of numeric status. -/
def numericStatusResponse : Response :=
  { status := 200, statusText := "OK", text := "[\x7b\"id\":1,\"status\":2\x7d]",
    parsed := .ok (.arr [numericStatusRecord]) }

/-- A successful response whose body is one object, not an array. -/
def singleObjectResponse : Response :=
  { status := 200, statusText := "OK", text := "\x7b\"id\":1,\"status\":\"Pending\"\x7d",
    parsed := .ok pendingBooking }

/-- A successful response whose body wraps an array in a `locations` field. -/
def wrappedLocationsResponse : Response :=
  { status := 200, statusText := "OK",
    text := "\x7b\"locations\":[\x7b\"LocationId\":1,\"Name\":\"Ella\"\x7d]\x7d",
    parsed := .ok (.obj [("locations",
      .arr [.obj [("LocationId", .num 1), ("Name", .str "Ella")]])]) }

/-- A response with status 500 whose body is a JSON array. -/
def errorArrayResponse : Response :=
  { status := 500, statusText := "Internal Server Error",
    text := "[\x7b\"id\":1,\"status\":\"Pending\"\x7d]",
    parsed := .ok (.arr [pendingBooking]) }

/-- A response with status 404 whose JSON body carries a message. -/
def notFoundResponse : Response :=
  { status := 404, statusText := "Not Found", text := "\x7b\"message\":\"No bookings\"\x7d",
    parsed := .ok (.obj [("message", .str "No bookings")]) }

/-- A response with status 500 whose JSON body is an empty object. -/
def emptyObjectErrorResponse : Response :=
  { status := 500, statusText := "Internal Server Error", text := "\x7b\x7d",
    parsed := .ok (.obj []) }

/-- A response with status 500 whose JSON body is `null`. -/
def nullBodyErrorResponse : Response :=
  { status := 500, statusText := "Internal Server Error", text := "null", parsed := .ok .null }

/-- A response with status 500 whose JSON body has an empty array as `message`. -/
def arrayMessageErrorResponse : Response :=
  { status := 500, statusText := "Internal Server Error", text := "\x7b\"message\":[]\x7d",
    parsed := .ok (.obj [("message", .arr [])]) }

/-- A response whose body is the plain text `text`, which `JSON.parse` rejects. -/
def textResponse (status : Nat) (statusText text : String) : Response :=
  { status := status, statusText := statusText, text := text,
    parsed := .error ("JSON Parse error: Unexpected token: " ++ text) }

/-- A viewed itinerary request. -/
def viewedRequest : JVal := .obj [("id", .num 7), ("status", .str "Pending")]

/-- A rejected request: the network is down. -/
def networkFailure : Outcome := .rejected (.typeError "Network request failed")


/-! ## Handlers as sequences of effects -/

/-- A request handed to `fetch`: method, URL, and the value given to `JSON.stringify` for the
body (headers are not modelled). -/
structure Request where
  method : String
  url : String
  body : Option JVal

/-- One effect of a handler.  `confirm` is an `Alert.alert` with a 'Cancel' and a 'Delete'
button; `throw` is an exception that escapes the handler and ends it. -/
inductive Effect (W : Type) where
  | alert (a : Alert) : Effect W
  | confirm (title message : String) : Effect W
  | write (w : W) : Effect W
  | request (r : Request) : Effect W
  | throw (e : Thrown) : Effect W

/-- The effect is a request. -/
def Effect.isRequest {W : Type} : Effect W → Bool
  | .request _ => true
  | _ => false

/-- The state after the writes of a sequence of effects, applied in order. -/
def applyWrites {W σ : Type} (apply : W → σ → σ) : List (Effect W) → σ → σ
  | [], s => s
  | e :: rest, s =>
    applyWrites apply rest
      (match e with
       | .write w => apply w s
       | _ => s)

/-- The requests of a sequence of effects, in order. -/
def requestsOf {W : Type} : List (Effect W) → List Request
  | [] => []
  | e :: rest =>
    match e with
    | .request r => r :: requestsOf rest
    | _ => requestsOf rest

/-- The alerts of a sequence of effects, in order. -/
def alertsOf {W : Type} : List (Effect W) → List Alert
  | [] => []
  | e :: rest =>
    match e with
    | .alert a => a :: alertsOf rest
    | _ => alertsOf rest

/-- The effects that come before the first request. -/
def beforeFirstRequest {W : Type} : List (Effect W) → List (Effect W)
  | [] => []
  | e :: rest => if e.isRequest then [] else e :: beforeFirstRequest rest

/-- The button pressed in a delete confirmation. -/
inductive DeleteChoice where
  | cancel : DeleteChoice
  | delete : DeleteChoice

/-- A mutation failed: the request was rejected or the status is not a success. -/
def Outcome.mutationFailed : Outcome → Bool
  | .rejected _ => true
  | .responded res => !res.ok

/-- A mutation succeeded: a response with a success status. -/
def Outcome.succeeded : Outcome → Bool
  | .rejected _ => false
  | .responded res => res.ok

/-- The exception that reaches `catch` in a handler that throws `new Error(message)` on a
non-success status, if any. -/
def failureOf (message : String) (o : Outcome) : Option Thrown :=
  match o with
  | .rejected e => some e
  | .responded res => if !res.ok then some (.error message) else none

/-- The exception that reaches `catch` in a handler that throws
`new Error((await res.text()) || fallback)` on a non-success status, if any. -/
def failureOfText (fallback : String) (o : Outcome) : Option Thrown :=
  match o with
  | .rejected e => some e
  | .responded res => if !res.ok then some (.error (strOr res.text fallback)) else none

/-- Strict equality `a === b`.  Two arrays or objects are equal only when they are the same
object, which a value does not show: the answer on them is `false` (the ids compared by the
screens are numbers or strings). -/
def JVal.strictEq : JVal → JVal → Bool
  | .undefined, .undefined => true
  | .null, .null => true
  | .bool a, .bool b => a == b
  | .num a, .num b => a == b
  | .str a, .str b => a == b
  | _, _ => false

/-- The expression `v?.key`: `undefined` on `null` and `undefined`, else `v.key`. -/
def JVal.getOpt (v : JVal) (key : String) : JVal :=
  match v with
  | .obj fields => lookupField key fields
  | _ => .undefined

/-- The method `Array.prototype.find` with a callback that may throw: the first item for which
the callback holds, `undefined` when there is none. -/
def findE (p : JVal → Except Thrown Bool) : List JVal → Except Thrown JVal
  | [] => .ok .undefined
  | x :: xs =>
    match p x with
    | .error e => .error e
    | .ok true => .ok x
    | .ok false => findE p xs

/-- A white-space character of `String.prototype.trim` (WhiteSpace and LineTerminator). -/
def isJsWhitespace (c : Char) : Bool :=
  c.val = 0x09 || c.val = 0x0A || c.val = 0x0B || c.val = 0x0C || c.val = 0x0D ||
  c.val = 0x20 || c.val = 0xA0 || c.val = 0x1680 || (0x2000 ≤ c.val && c.val ≤ 0x200A) ||
  c.val = 0x2028 || c.val = 0x2029 || c.val = 0x202F || c.val = 0x205F || c.val = 0x3000 ||
  c.val = 0xFEFF

/-- The method `s.trim()`. -/
def jsTrim (s : String) : String :=
  String.mk ((s.data.dropWhile isJsWhitespace).reverse.dropWhile isJsWhitespace).reverse

/-- The test `!v.trim()` of the validations: it throws when `v` is not a string. -/
def trimIsEmpty (v : JVal) : Except Thrown Bool :=
  match v with
  | .str s => .ok (jsTrim s == "")
  | .undefined => .error (nullPropertyError "trim")
  | .null => .error (nullPropertyError "trim")
  | _ => .error (notAFunctionError "trim")


/-! ## UsersAdminScreen: the handlers -/

namespace Users

/-- The URL constant `GET_ALL_USERS_API`. -/
def GET_ALL_USERS_API : String :=
  "https://ecotrails-dev-users-func20250717225342.azurewebsites.net/api/api/admin/users"

/-- The URL builders `UPDATE_USER_API(id)` and `DELETE_USER_API(id)` (the same URL). -/
def UPDATE_USER_API (id : JVal) : String :=
  GET_ALL_USERS_API ++ "/" ++ id.toStr

/-- A state write of `UsersAdminScreen`. -/
inductive Write where
  | setUsers (v : List JVal) : Write
  | setStatusFilter (k : String) : Write
  | setLoading (b : Bool) : Write
  | setView (v : JVal) : Write
  | setEdit (v : JVal) : Write

/-- The effect of one write on the state. -/
def Write.apply : Write → UsersState → UsersState
  | .setUsers v, s => { s with users := v }
  | .setStatusFilter k, s => { s with statusFilter := k }
  | .setLoading b, s => { s with loading := b }
  | .setView v, s => { s with view := v }
  | .setEdit v, s => { s with edit := v }

/-- The request of `fetchUsers`. -/
def listRequest : Request :=
  { method := "GET", url := GET_ALL_USERS_API, body := none }

/-- The part of `fetchUsers` up to its await: `setLoading(true)` and the GET. -/
def fetchUsersStart : List (Effect Write) :=
  [.write (.setLoading true), .request listRequest]

/-- The handler `handleEdit(userId)`: `setEdit({...users.find(u => u.id === userId)})`. -/
def handleEdit (userId : JVal) (s : UsersState) : List (Effect Write) :=
  match findE (fun u =>
      match u.getProp "id" with
      | .error e => .error e
      | .ok id => .ok (id.strictEq userId)) s.users with
  | .error e => [.throw e]
  | .ok user => [.write (.setEdit (.obj user.ownFields))]

/-- A change in the edit modal: `setEdit({...edit, [key]: value})`, for the keys `role` and
`status`. -/
def changeEdit (key : String) (value : JVal) (s : UsersState) : List (Effect Write) :=
  [.write (.setEdit (.obj (setField key value s.edit.ownFields)))]

/-- The handler `handleCancel`: `setEdit(null)`. -/
def handleCancel : List (Effect Write) :=
  [.write (.setEdit .null)]

/-- The handler `handleView(user)`: `setView(user)`. -/
def handleView (user : JVal) : List (Effect Write) :=
  [.write (.setView user)]

/-- The 'Close' button of the view modal: `setView(null)`. -/
def closeView : List (Effect Write) :=
  [.write (.setView .null)]

/-- The part of `handleSave` up to its await: nothing when there is no draft, else the PUT. -/
def handleSave (s : UsersState) : List (Effect Write) :=
  if !s.edit.truthy then []
  else
    [.request { method := "PUT", url := UPDATE_USER_API (s.edit.getOpt "id"),
                body := some (.obj [("role", s.edit.getOpt "role"),
                                    ("status", s.edit.getOpt "status")]) }]

/-- The part of `handleSave` from the response on. -/
def handleSaveDone (o : Outcome) : List (Effect Write) :=
  match failureOf "Update failed" o with
  | none =>
    [.alert { title := "Success", message := "User updated" }, .write (.setEdit .null)]
      ++ fetchUsersStart
  | some e =>
    [.alert { title := "Update Failed", message := strOr e.message "Could not update user" }]

/-- The handler `handleDelete(userId)`: the confirmation dialog, nothing else. -/
def handleDelete : List (Effect Write) :=
  [.confirm "Confirm Delete" "Delete this user? This cannot be undone."]

/-- A button of the confirmation dialog of `handleDelete(userId)`: 'Cancel' has no handler,
'Delete' issues the DELETE. -/
def handleDeleteChoice (choice : DeleteChoice) (userId : JVal) : List (Effect Write) :=
  match choice with
  | .cancel => []
  | .delete => [.request { method := "DELETE", url := UPDATE_USER_API userId, body := none }]

/-- The 'Delete' button of the dialog from the response on. -/
def handleDeleteDone (o : Outcome) : List (Effect Write) :=
  match failureOf "Delete failed" o with
  | none => [.alert { title := "Deleted", message := "User deleted" }] ++ fetchUsersStart
  | some e =>
    [.alert { title := "Delete Failed", message := strOr e.message "Could not delete user" }]

/-- The things that happen to a mounted `UsersAdminScreen`. -/
inductive Event where
  | fetchStart : Event
  | fetchDone (o : Outcome) : Event
  | setStatusFilter (k : String) : Event
  | handleView (user : JVal) : Event
  | closeView : Event
  | handleEdit (userId : JVal) : Event
  | changeEdit (key : String) (value : JVal) : Event
  | handleCancel : Event
  | handleSave : Event
  | handleSaveDone (o : Outcome) : Event
  | handleDelete : Event
  | handleDeleteChoice (choice : DeleteChoice) (userId : JVal) : Event
  | handleDeleteDone (o : Outcome) : Event

/-- The effects of a handler event (a completed list fetch is given by `fetchUsersDone`). -/
def effects (s : UsersState) : Event → List (Effect Write)
  | .fetchStart => fetchUsersStart
  | .fetchDone _ => []
  | .setStatusFilter k => [.write (.setStatusFilter k)]
  | .handleView user => handleView user
  | .closeView => closeView
  | .handleEdit userId => handleEdit userId s
  | .changeEdit key value => changeEdit key value s
  | .handleCancel => handleCancel
  | .handleSave => handleSave s
  | .handleSaveDone o => handleSaveDone o
  | .handleDelete => handleDelete
  | .handleDeleteChoice choice userId => handleDeleteChoice choice userId
  | .handleDeleteDone o => handleDeleteDone o

/-- The state after an event. -/
def step (s : UsersState) (ev : Event) : UsersState :=
  match ev with
  | .fetchDone o => (fetchUsersDone o s).1
  | _ => applyWrites Write.apply (effects s ev) s

/-- The event is the completion of a list fetch. -/
def Event.isFetchDone : Event → Bool
  | .fetchDone _ => true
  | _ => false

end Users


/-! ## ItinerariesAdminScreen: the handlers -/

namespace Itineraries

/-- The URL constant `API_BASE` of `ItinerariesAdminScreen.js`. -/
def API_BASE : String :=
  "https://ecotrails-dev-itineraries-func.azurewebsites.net/api/api/admin"

/-- The URL of the collection. -/
def listUrl : String := API_BASE ++ "/itineraries?"

/-- The URL of one itinerary. -/
def itemUrl (id : JVal) : String := API_BASE ++ "/itineraries/" ++ id.toStr ++ "?"

/-- A state write of `ItinerariesAdminScreen`. -/
inductive Write where
  | setItineraries (v : List JVal) : Write
  | setView (v : JVal) : Write
  | setEdit (v : JVal) : Write
  | setAdd (v : JVal) : Write
  | setLoading (b : Bool) : Write

/-- The effect of one write on the state. -/
def Write.apply : Write → ItinerariesState → ItinerariesState
  | .setItineraries v, s => { s with itineraries := v }
  | .setView v, s => { s with view := v }
  | .setEdit v, s => { s with edit := v }
  | .setAdd v, s => { s with add := v }
  | .setLoading b, s => { s with loading := b }

/-- The request of `fetchItineraries`. -/
def listRequest : Request :=
  { method := "GET", url := listUrl, body := none }

/-- The part of `fetchItineraries` up to its await. -/
def fetchItinerariesStart : List (Effect Write) :=
  [.write (.setLoading true), .request listRequest]

/-- The alert of the two validations. -/
def validationAlert : Alert :=
  { title := "Error", message := "Please fill all fields: Name, Duration Days, and Status." }

/-- The part of `handleAddNewItinerary` up to its await: the validation alert when `name`,
`durationDays` or `status` of the add draft is falsy, else the POST.  `number` stands for the
built-in `Number`. -/
def handleAddNewItinerary (number : JVal → JVal) (s : ItinerariesState) : List (Effect Write) :=
  if !(s.add.getOpt "name").truthy || !(s.add.getOpt "durationDays").truthy
      || !(s.add.getOpt "status").truthy then
    [.alert validationAlert]
  else
    [.request { method := "POST", url := listUrl,
                body := some (.obj [("Name", s.add.getOpt "name"),
                  ("DurationDays", number (s.add.getOpt "durationDays")),
                  ("Status", s.add.getOpt "status"),
                  ("Description", (s.add.getOpt "description").or .null),
                  ("ItineraryJson", (s.add.getOpt "itineraryJson").or .null)]) }]

/-- The part of `handleAddNewItinerary` from the response on. -/
def handleAddNewItineraryDone (o : Outcome) : List (Effect Write) :=
  match failureOf "Failed to create itinerary." o with
  | none =>
    [.alert { title := "Success", message := "Itinerary created." }, .write (.setAdd .null)]
      ++ fetchItinerariesStart
  | some e =>
    [.alert { title := "Error", message := strOr e.message "Failed to create itinerary." }]

/-- The part of `handleSaveEdit` up to its await.  The draft is read without `?.`: reading a
field of a `null` draft throws. -/
def handleSaveEdit (number : JVal → JVal) (s : ItinerariesState) : List (Effect Write) :=
  match s.edit.getProp "name" with
  | .error e => [.throw e]
  | .ok _ =>
    if !(s.edit.getOpt "name").truthy || !(s.edit.getOpt "durationDays").truthy
        || !(s.edit.getOpt "status").truthy then
      [.alert validationAlert]
    else
      [.request { method := "PUT", url := itemUrl (s.edit.getOpt "id"),
                  body := some (.obj [("Id", s.edit.getOpt "id"),
                    ("Name", s.edit.getOpt "name"),
                    ("DurationDays", number (s.edit.getOpt "durationDays")),
                    ("Status", s.edit.getOpt "status"),
                    ("Description", (s.edit.getOpt "description").or .null)]) }]

/-- The part of `handleSaveEdit` from the response on. -/
def handleSaveEditDone (o : Outcome) : List (Effect Write) :=
  match failureOf "Failed to save itinerary." o with
  | none =>
    [.alert { title := "Success", message := "Itinerary updated." }, .write (.setEdit .null)]
      ++ fetchItinerariesStart
  | some e =>
    [.alert { title := "Error", message := strOr e.message "Failed to save itinerary." }]

/-- The record `handleEdit(id)` looks up: `itineraries.find(item => item.id === id ||
item.Id === id)`. -/
def findItinerary (id : JVal) (itineraries : List JVal) : Except Thrown JVal :=
  findE (fun item =>
    match item.getProp "id" with
    | .error e => .error e
    | .ok v => .ok (v.strictEq id || (item.getOpt "Id").strictEq id)) itineraries

/-- The handler `handleEdit(id)`: nothing when no itinerary is found, else the edit draft with
the fields `id`, `name`, `durationDays`, `status`, `description`, each read under its lower-case
key when that is truthy and under its capitalised key otherwise. -/
def handleEdit (id : JVal) (s : ItinerariesState) : List (Effect Write) :=
  match findItinerary id s.itineraries with
  | .error e => [.throw e]
  | .ok itinerary =>
    if !itinerary.truthy then []
    else
      [.write (.setEdit (.obj [
        ("id", (itinerary.getOpt "id").or (itinerary.getOpt "Id")),
        ("name", (itinerary.getOpt "name").or (itinerary.getOpt "Name")),
        ("durationDays", (itinerary.getOpt "durationDays").or (itinerary.getOpt "DurationDays")),
        ("status", (itinerary.getOpt "status").or (itinerary.getOpt "Status")),
        ("description",
          (itinerary.getOpt "description").or (itinerary.getOpt "Description"))]))]

/-- The 'Add New Itinerary' button: `setAdd({ status: 'Draft' })`. -/
def openAdd : List (Effect Write) :=
  [.write (.setAdd (.obj [("status", .str "Draft")]))]

/-- A change in the edit modal: `setEdit(e => ({ ...e, [key]: value }))`. -/
def changeEdit (key : String) (value : JVal) (s : ItinerariesState) : List (Effect Write) :=
  [.write (.setEdit (.obj (setField key value s.edit.ownFields)))]

/-- A change in the add modal: `setAdd(a => ({ ...a, [key]: value }))`. -/
def changeAdd (key : String) (value : JVal) (s : ItinerariesState) : List (Effect Write) :=
  [.write (.setAdd (.obj (setField key value s.add.ownFields)))]

/-- The 'Cancel' button of the edit modal: `setEdit(null)`. -/
def cancelEdit : List (Effect Write) :=
  [.write (.setEdit .null)]

/-- The 'Cancel' button of the add modal: `setAdd(null)`. -/
def cancelAdd : List (Effect Write) :=
  [.write (.setAdd .null)]

/-- The handler `handleDelete(id)`: the confirmation dialog, nothing else. -/
def handleDelete (id : JVal) : List (Effect Write) :=
  [.confirm "Confirm Delete"
    ("Delete itinerary with ID: " ++ id.toStr ++ "? This cannot be undone.")]

/-- A button of the confirmation dialog of `handleDelete(id)`. -/
def handleDeleteChoice (choice : DeleteChoice) (id : JVal) : List (Effect Write) :=
  match choice with
  | .cancel => []
  | .delete => [.request { method := "DELETE", url := itemUrl id, body := none }]

/-- The 'Delete' button of the dialog from the response on.  `edit` and `view` are the cells as
the `handleDelete` closure captured them.  On success: the alert, `fetchItineraries()`, then
`if (edit?.id === id) setEdit(null); if (view?.id === id) setView(null)`. -/
def handleDeleteDone (id edit view : JVal) (o : Outcome) : List (Effect Write) :=
  match failureOf "Failed to delete itinerary." o with
  | none =>
    [.alert { title := "Success", message := "Itinerary deleted." }]
      ++ fetchItinerariesStart
      ++ (if (edit.getOpt "id").strictEq id then [.write (.setEdit .null)] else [])
      ++ (if (view.getOpt "id").strictEq id then [.write (.setView .null)] else [])
  | some e =>
    [.alert { title := "Error", message := strOr e.message "Failed to delete itinerary." }]

/-- The things that happen to a mounted `ItinerariesAdminScreen`. -/
inductive Event where
  | fetchStart : Event
  | fetchDone (o : Outcome) : Event
  | handleEdit (id : JVal) : Event
  | changeEdit (key : String) (value : JVal) : Event
  | cancelEdit : Event
  | openAdd : Event
  | changeAdd (key : String) (value : JVal) : Event
  | cancelAdd : Event
  | handleAddNewItinerary : Event
  | handleAddNewItineraryDone (o : Outcome) : Event
  | handleSaveEdit : Event
  | handleSaveEditDone (o : Outcome) : Event
  | handleDelete (id : JVal) : Event
  | handleDeleteChoice (choice : DeleteChoice) (id : JVal) : Event
  | handleDeleteDone (id edit view : JVal) (o : Outcome) : Event

/-- The effects of a handler event (a completed list fetch is given by
`fetchItinerariesDone`). -/
def effects (number : JVal → JVal) (s : ItinerariesState) : Event → List (Effect Write)
  | .fetchStart => fetchItinerariesStart
  | .fetchDone _ => []
  | .handleEdit id => handleEdit id s
  | .changeEdit key value => changeEdit key value s
  | .cancelEdit => cancelEdit
  | .openAdd => openAdd
  | .changeAdd key value => changeAdd key value s
  | .cancelAdd => cancelAdd
  | .handleAddNewItinerary => handleAddNewItinerary number s
  | .handleAddNewItineraryDone o => handleAddNewItineraryDone o
  | .handleSaveEdit => handleSaveEdit number s
  | .handleSaveEditDone o => handleSaveEditDone o
  | .handleDelete id => handleDelete id
  | .handleDeleteChoice choice id => handleDeleteChoice choice id
  | .handleDeleteDone id edit view o => handleDeleteDone id edit view o

/-- The state after an event. -/
def step (number : JVal → JVal) (s : ItinerariesState) (ev : Event) : ItinerariesState :=
  match ev with
  | .fetchDone o => (fetchItinerariesDone o s).1
  | _ => applyWrites Write.apply (effects number s ev) s

/-- The event is the completion of a list fetch. -/
def Event.isFetchDone : Event → Bool
  | .fetchDone _ => true
  | _ => false

end Itineraries


/-! ## LocationAdminScreen: the handlers -/

namespace Locations

/-- The URL constant `CREATE_LOCATION_API`. -/
def CREATE_LOCATION_API : String :=
  "https://ecotrails-dev-users-func20250717225342.azurewebsites.net/api/api/admin/locations?"

/-- The URL builders `UPDATE_LOCATION_API(id)` and `DELETE_LOCATION_API(id)` (the same URL). -/
def UPDATE_LOCATION_API (id : JVal) : String :=
  "https://ecotrails-dev-users-func20250717225342.azurewebsites.net/api/api/admin/locations/"
    ++ id.toStr

/-- The URL constant `GET_PUBLIC_LOCATIONS_API`. -/
def GET_PUBLIC_LOCATIONS_API : String :=
  "https://ecotrails-dev-users-func20250717225342.azurewebsites.net/api/api/locations?"

/-- A state write of `LocationAdminScreen`. -/
inductive Write where
  | setLocations (v : JVal) : Write
  | setLoading (b : Bool) : Write
  | setModalVisible (b : Bool) : Write
  | setIsEditing (b : Bool) : Write
  | setForm (f : LocationForm) : Write
  | setSaving (b : Bool) : Write
  | setDeleting (b : Bool) : Write

/-- The effect of one write on the state. -/
def Write.apply : Write → LocationsState → LocationsState
  | .setLocations v, s => { s with locations := v }
  | .setLoading b, s => { s with loading := b }
  | .setModalVisible b, s => { s with modalVisible := b }
  | .setIsEditing b, s => { s with isEditing := b }
  | .setForm f, s => { s with form := f }
  | .setSaving b, s => { s with saving := b }
  | .setDeleting b, s => { s with deleting := b }

/-- The request of `fetchLocations`. -/
def listRequest : Request :=
  { method := "GET", url := GET_PUBLIC_LOCATIONS_API, body := none }

/-- The part of `fetchLocations` up to its await. -/
def fetchLocationsStart : List (Effect Write) :=
  [.write (.setLoading true), .request listRequest]

/-- The blank form of `resetForm`. -/
def blankForm : LocationForm :=
  { Id := .null, Name := .str "", Description := .str "" }

/-- The helper `resetForm`. -/
def resetForm : List (Effect Write) :=
  [.write (.setForm blankForm), .write (.setIsEditing false)]

/-- The handler `openAddModal`. -/
def openAddModal : List (Effect Write) :=
  resetForm ++ [.write (.setModalVisible true)]

/-- The handler `openEditModal(loc)`. -/
def openEditModal (loc : JVal) : List (Effect Write) :=
  match loc.getProp "LocationId" with
  | .error e => [.throw e]
  | .ok id =>
    [.write (.setForm { Id := id, Name := (loc.getOpt "Name").or (.str ""),
                        Description := (loc.getOpt "Description").or (.str "") }),
     .write (.setIsEditing true), .write (.setModalVisible true)]

/-- The name input: `setForm(f => ({ ...f, Name: text }))`. -/
def changeName (text : String) (s : LocationsState) : List (Effect Write) :=
  [.write (.setForm { s.form with Name := .str text })]

/-- The description input: `setForm(f => ({ ...f, Description: text }))`. -/
def changeDescription (text : String) (s : LocationsState) : List (Effect Write) :=
  [.write (.setForm { s.form with Description := .str text })]

/-- The 'Cancel' button of the modal: `setModalVisible(false); resetForm()`. -/
def cancel : List (Effect Write) :=
  [.write (.setModalVisible false)] ++ resetForm

/-- The part of `handleSaveLocation` up to its await: the validation alert when the trimmed
name is empty, else `setSaving(true)` and the PUT (editing) or POST (adding). -/
def handleSaveLocation (s : LocationsState) : List (Effect Write) :=
  match trimIsEmpty s.form.Name with
  | .error e => [.throw e]
  | .ok true => [.alert { title := "Validation Error", message := "Name is required." }]
  | .ok false =>
    [.write (.setSaving true),
     .request (if s.isEditing then
        { method := "PUT", url := UPDATE_LOCATION_API s.form.Id,
          body := some (.obj [("LocationId", s.form.Id), ("Name", s.form.Name),
                              ("Description", s.form.Description)]) }
      else
        { method := "POST", url := CREATE_LOCATION_API,
          body := some (.obj [("Name", s.form.Name),
                              ("Description", s.form.Description)]) })]

/-- The part of `handleSaveLocation` from the response on; `isEditing` is the flag the handler
read. -/
def handleSaveLocationDone (isEditing : Bool) (o : Outcome) : List (Effect Write) :=
  match failureOfText
      (if isEditing then "Failed to update location" else "Failed to create location") o with
  | none =>
    [.alert { title := "Success",
              message := if isEditing then "Location updated." else "Location created." },
     .write (.setModalVisible false)]
      ++ resetForm ++ fetchLocationsStart ++ [.write (.setSaving false)]
  | some e =>
    [.alert { title := "Error", message := e.message }, .write (.setSaving false)]

/-- The handler `handleDeleteLocation(id)`: the confirmation dialog, nothing else. -/
def handleDeleteLocation : List (Effect Write) :=
  [.confirm "Delete Location" "Are you sure you want to delete this location?"]

/-- A button of the confirmation dialog of `handleDeleteLocation(id)`. -/
def handleDeleteLocationChoice (choice : DeleteChoice) (id : JVal) : List (Effect Write) :=
  match choice with
  | .cancel => []
  | .delete =>
    [.write (.setDeleting true),
     .request { method := "DELETE", url := UPDATE_LOCATION_API id, body := none }]

/-- The 'Delete' button of the dialog from the response on. -/
def handleDeleteLocationDone (o : Outcome) : List (Effect Write) :=
  match failureOfText "Failed to delete location" o with
  | none =>
    [.alert { title := "Success", message := "Location deleted." },
     .write (.setModalVisible false)]
      ++ resetForm ++ fetchLocationsStart ++ [.write (.setDeleting false)]
  | some e =>
    [.alert { title := "Error", message := e.message }, .write (.setDeleting false)]

/-- The things that happen to a mounted `LocationAdminScreen`. -/
inductive Event where
  | fetchStart : Event
  | fetchDone (o : Outcome) : Event
  | openAddModal : Event
  | openEditModal (loc : JVal) : Event
  | changeName (text : String) : Event
  | changeDescription (text : String) : Event
  | cancel : Event
  | handleSaveLocation : Event
  | handleSaveLocationDone (isEditing : Bool) (o : Outcome) : Event
  | handleDeleteLocation : Event
  | handleDeleteLocationChoice (choice : DeleteChoice) (id : JVal) : Event
  | handleDeleteLocationDone (o : Outcome) : Event

/-- The effects of a handler event (a completed list fetch is given by `fetchLocationsDone`). -/
def effects (s : LocationsState) : Event → List (Effect Write)
  | .fetchStart => fetchLocationsStart
  | .fetchDone _ => []
  | .openAddModal => openAddModal
  | .openEditModal loc => openEditModal loc
  | .changeName text => changeName text s
  | .changeDescription text => changeDescription text s
  | .cancel => cancel
  | .handleSaveLocation => handleSaveLocation s
  | .handleSaveLocationDone isEditing o => handleSaveLocationDone isEditing o
  | .handleDeleteLocation => handleDeleteLocation
  | .handleDeleteLocationChoice choice id => handleDeleteLocationChoice choice id
  | .handleDeleteLocationDone o => handleDeleteLocationDone o

/-- The state after an event. -/
def step (s : LocationsState) (ev : Event) : LocationsState :=
  match ev with
  | .fetchDone o => (fetchLocationsDone o s).1
  | _ => applyWrites Write.apply (effects s ev) s

/-- The event is the completion of a list fetch. -/
def Event.isFetchDone : Event → Bool
  | .fetchDone _ => true
  | _ => false

end Locations


/-! ## PartnersAdminScreen: the handlers -/

namespace Partners

/-- The URL constant `GET_ALL_API`. -/
def GET_ALL_API : String :=
  "https://ecotrails-dev-partners-func.azurewebsites.net/api/api/admin/partner-applications"

/-- The URL builders `GET_DETAILS_API(id)` and `UPDATE_DETAILS_API(id)` (the same URL). -/
def GET_DETAILS_API (id : JVal) : String :=
  GET_ALL_API ++ "/" ++ id.toStr

/-- The URL builder `UPDATE_STATUS_API(id)`. -/
def UPDATE_STATUS_API (id : JVal) : String :=
  GET_ALL_API ++ "/" ++ id.toStr ++ "/status"

/-- A state write of `PartnersAdminScreen`. -/
inductive Write where
  | setPartners (v : List JVal) : Write
  | setLoading (b : Bool) : Write
  | setViewPartner (v : JVal) : Write
  | setDetailsLoading (b : Bool) : Write
  | setEditPartner (v : JVal) : Write
  | setEditForm (f : PartnerForm) : Write
  | setEditSaving (b : Bool) : Write
  | setStatusUpdating (b : Bool) : Write

/-- The effect of one write on the state. -/
def Write.apply : Write → PartnersState → PartnersState
  | .setPartners v, s => { s with partners := v }
  | .setLoading b, s => { s with loading := b }
  | .setViewPartner v, s => { s with viewPartner := v }
  | .setDetailsLoading b, s => { s with detailsLoading := b }
  | .setEditPartner v, s => { s with editPartner := v }
  | .setEditForm f, s => { s with editForm := f }
  | .setEditSaving b, s => { s with editSaving := b }
  | .setStatusUpdating b, s => { s with statusUpdating := b }

/-- The request of `fetchAllPartners`. -/
def listRequest : Request :=
  { method := "GET", url := GET_ALL_API, body := none }

/-- The part of `fetchAllPartners` up to its await. -/
def fetchAllPartnersStart : List (Effect Write) :=
  [.write (.setLoading true), .request listRequest]

/-- The handler `openDetailsModal(item)`, which is `fetchPartnerDetails(item.Id)` up to its
await. -/
def openDetailsModal (item : JVal) : List (Effect Write) :=
  match item.getProp "Id" with
  | .error e => [.throw e]
  | .ok id =>
    [.write (.setDetailsLoading true),
     .request { method := "GET", url := GET_DETAILS_API id, body := none }]

/-- The handler `closeDetailsModal`: `setViewPartner(null)`. -/
def closeDetailsModal : List (Effect Write) :=
  [.write (.setViewPartner .null)]

/-- The handler `openEditModal`: nothing when no partner is viewed, else the form seeded from
the viewed partner and `setEditPartner(viewPartner)`. -/
def openEditModal (s : PartnersState) : List (Effect Write) :=
  if !s.viewPartner.truthy then []
  else
    [.write (.setEditForm {
        FullName := (s.viewPartner.getOpt "FullName").or (.str ""),
        EmailAddress := (s.viewPartner.getOpt "EmailAddress").or (.str ""),
        BusinessName := (s.viewPartner.getOpt "BusinessName").or (.str ""),
        TypeOfBusiness := (s.viewPartner.getOpt "TypeOfBusiness").or (.str ""),
        Location := (s.viewPartner.getOpt "Location").or (.str ""),
        BriefDescription := (s.viewPartner.getOpt "BriefDescription").or (.str ""),
        Status := (s.viewPartner.getOpt "Status").or (.str "") }),
     .write (.setEditPartner s.viewPartner)]

/-- The handler `closeEditModal`: `setEditPartner(null)`. -/
def closeEditModal : List (Effect Write) :=
  [.write (.setEditPartner .null)]

/-- The form after `({ ...prev, [key]: value })`, for the seven keys of the form (another
key would add a field that nothing reads). -/
def PartnerForm.set (f : PartnerForm) (key : String) (value : JVal) : PartnerForm :=
  if key = "FullName" then { f with FullName := value }
  else if key = "EmailAddress" then { f with EmailAddress := value }
  else if key = "BusinessName" then { f with BusinessName := value }
  else if key = "TypeOfBusiness" then { f with TypeOfBusiness := value }
  else if key = "Location" then { f with Location := value }
  else if key = "BriefDescription" then { f with BriefDescription := value }
  else if key = "Status" then { f with Status := value }
  else f

/-- The handler `handleEditChange(key, value)`. -/
def handleEditChange (key : String) (value : JVal) (s : PartnersState) : List (Effect Write) :=
  [.write (.setEditForm (PartnerForm.set s.editForm key value))]

/-- The part of `saveEditPartner` up to its await: nothing when no partner is edited; the
validation alert when the trimmed full name, or else the trimmed email address, is empty; else
`setEditSaving(true)` and the PUT. -/
def saveEditPartner (s : PartnersState) : List (Effect Write) :=
  if !s.editPartner.truthy then []
  else
    match trimIsEmpty s.editForm.FullName with
    | .error e => [.throw e]
    | .ok true => [.alert { title := "Validation Error", message := "Full Name is required." }]
    | .ok false =>
      match trimIsEmpty s.editForm.EmailAddress with
      | .error e => [.throw e]
      | .ok true =>
        [.alert { title := "Validation Error", message := "Email Address is required." }]
      | .ok false =>
        [.write (.setEditSaving true),
         .request { method := "PUT", url := GET_DETAILS_API (s.editPartner.getOpt "Id"),
                    body := some (.obj [("Id", s.editPartner.getOpt "Id"),
                      ("FullName", s.editForm.FullName),
                      ("EmailAddress", s.editForm.EmailAddress),
                      ("BusinessName", s.editForm.BusinessName),
                      ("TypeOfBusiness", s.editForm.TypeOfBusiness),
                      ("Location", s.editForm.Location),
                      ("BriefDescription", s.editForm.BriefDescription),
                      ("Status", s.editForm.Status),
                      ("SubmittedAt", s.editPartner.getOpt "SubmittedAt")]) }]

/-- The part of `saveEditPartner` from the response on. -/
def saveEditPartnerDone (o : Outcome) : List (Effect Write) :=
  match failureOfText "Failed to update application" o with
  | none =>
    [.alert { title := "Success", message := "Partner details updated." }]
      ++ closeEditModal ++ closeDetailsModal ++ fetchAllPartnersStart
      ++ [.write (.setEditSaving false)]
  | some e =>
    [.alert { title := "Error", message := strOr e.message "Failed to update details" },
     .write (.setEditSaving false)]

/-- The part of `updatePartnerStatus(id, newStatus)` up to its await. -/
def updatePartnerStatus (id newStatus : JVal) : List (Effect Write) :=
  [.write (.setStatusUpdating true),
   .request { method := "PUT", url := UPDATE_STATUS_API id,
              body := some (.obj [("Status", newStatus)]) }]

/-- The part of `updatePartnerStatus(id, newStatus)` from the response on. -/
def updatePartnerStatusDone (newStatus : JVal) (o : Outcome) : List (Effect Write) :=
  match o with
  | .rejected _ =>
    [.alert { title := "Error", message := "Network/server error." },
     .write (.setStatusUpdating false)]
  | .responded res =>
    if res.ok then
      [.alert { title := "Success", message := "Application " ++ newStatus.toStr ++ "!" },
       .write (.setViewPartner .null)]
        ++ fetchAllPartnersStart ++ [.write (.setStatusUpdating false)]
    else
      [.alert { title := "Error", message := strOr res.text "Failed to update status." },
       .write (.setStatusUpdating false)]

/-- The things that happen to a mounted `PartnersAdminScreen`. -/
inductive Event where
  | fetchStart : Event
  | fetchDone (o : Outcome) : Event
  | openDetailsModal (item : JVal) : Event
  | detailsDone (o : Outcome) : Event
  | closeDetailsModal : Event
  | openEditModal : Event
  | closeEditModal : Event
  | handleEditChange (key : String) (value : JVal) : Event
  | saveEditPartner : Event
  | saveEditPartnerDone (o : Outcome) : Event
  | updatePartnerStatus (id newStatus : JVal) : Event
  | updatePartnerStatusDone (newStatus : JVal) (o : Outcome) : Event

/-- The effects of a handler event (a completed list or detail fetch is given by
`fetchAllPartnersDone` and `fetchPartnerDetailsDone`). -/
def effects (s : PartnersState) : Event → List (Effect Write)
  | .fetchStart => fetchAllPartnersStart
  | .fetchDone _ => []
  | .openDetailsModal item => openDetailsModal item
  | .detailsDone _ => []
  | .closeDetailsModal => closeDetailsModal
  | .openEditModal => openEditModal s
  | .closeEditModal => closeEditModal
  | .handleEditChange key value => handleEditChange key value s
  | .saveEditPartner => saveEditPartner s
  | .saveEditPartnerDone o => saveEditPartnerDone o
  | .updatePartnerStatus id newStatus => updatePartnerStatus id newStatus
  | .updatePartnerStatusDone newStatus o => updatePartnerStatusDone newStatus o

/-- The state after an event. -/
def step (s : PartnersState) (ev : Event) : PartnersState :=
  match ev with
  | .fetchDone o => (fetchAllPartnersDone o s).1
  | .detailsDone o => (fetchPartnerDetailsDone o s).1
  | _ => applyWrites Write.apply (effects s ev) s

/-- The event is the completion of a list fetch. -/
def Event.isFetchDone : Event → Bool
  | .fetchDone _ => true
  | _ => false

end Partners

/-! ## ItineraryRequestsAdminScreen: the handlers -/

namespace Requests

/-- The URL constant `GET_ALL_ITINERARY_REQUESTS_API`. -/
def GET_ALL_ITINERARY_REQUESTS_API : String :=
  "https://ecotrails-dev-itineraries-func.azurewebsites.net/api/api/admin/itinerary-requests"

/-- The URL builder `GET_ITINERARY_REQUEST_DETAILS_API(id)`. -/
def GET_ITINERARY_REQUEST_DETAILS_API (id : JVal) : String :=
  GET_ALL_ITINERARY_REQUESTS_API ++ "/" ++ id.toStr ++ "?"

/-- The URL builder `UPDATE_ITINERARY_REQUEST_STATUS_API(id)`. -/
def UPDATE_ITINERARY_REQUEST_STATUS_API (id : JVal) : String :=
  GET_ALL_ITINERARY_REQUESTS_API ++ "/" ++ id.toStr ++ "/status?"

/-- A state write of `ItineraryRequestsAdminScreen`. -/
inductive Write where
  | setRequests (v : List JVal) : Write
  | setView (v : JVal) : Write
  | setLoading (b : Bool) : Write
  | setUpdating (b : Bool) : Write
  | setUpdateModalVisible (b : Bool) : Write
  | setUpdateStatus (v : JVal) : Write

/-- The effect of one write on the state. -/
def Write.apply : Write → RequestsState → RequestsState
  | .setRequests v, s => { s with requests := v }
  | .setView v, s => { s with view := v }
  | .setLoading b, s => { s with loading := b }
  | .setUpdating b, s => { s with updating := b }
  | .setUpdateModalVisible b, s => { s with updateModalVisible := b }
  | .setUpdateStatus v, s => { s with updateStatus := v }

/-- The request of `fetchRequests`. -/
def listRequest : Request :=
  { method := "GET", url := GET_ALL_ITINERARY_REQUESTS_API, body := none }

/-- The part of `fetchRequests` up to its await. -/
def fetchRequestsStart : List (Effect Write) :=
  [.write (.setLoading true), .request listRequest]

/-- The handler `handleViewDetails(id)`, which is `fetchRequestDetails(id)` up to its await. -/
def handleViewDetails (id : JVal) : List (Effect Write) :=
  [.write (.setLoading true),
   .request { method := "GET", url := GET_ITINERARY_REQUEST_DETAILS_API id, body := none }]

/-- The 'Close' button of the view modal: `setView(null)`. -/
def closeView : List (Effect Write) :=
  [.write (.setView .null)]

/-- The part of `handleMarkAsReviewed` up to its await: nothing when no request is viewed or an
update is in flight, else `setUpdating(true)` and the PUT of the status. -/
def handleMarkAsReviewed (s : RequestsState) : List (Effect Write) :=
  if !s.view.truthy || s.updating then []
  else
    [.write (.setUpdating true),
     .request { method := "PUT",
                url := UPDATE_ITINERARY_REQUEST_STATUS_API (s.view.getOpt "id"),
                body := some (.obj [("status", .str "Reviewed")]) }]

/-- The part of `handleMarkAsReviewed` from the response on; `view` is the record the handler
read. -/
def handleMarkAsReviewedDone (view : JVal) (o : Outcome) : List (Effect Write) :=
  match failureOfText "Failed to update status." o with
  | none =>
    [.alert { title := "Success",
              message := "Request " ++ (view.getOpt "id").toStr ++ " marked as Reviewed." },
     .write (.setView .null)]
      ++ fetchRequestsStart ++ [.write (.setUpdating false)]
  | some e =>
    [.alert { title := "Error", message := strOr e.message "Could not update status." },
     .write (.setUpdating false)]

/-- The handler `openUpdateModal`: nothing when no request is viewed, else
`setUpdateStatus(view.status || '')` and `setUpdateModalVisible(true)`. -/
def openUpdateModal (s : RequestsState) : List (Effect Write) :=
  if !s.view.truthy then []
  else
    [.write (.setUpdateStatus ((s.view.getOpt "status").or (.str ""))),
     .write (.setUpdateModalVisible true)]

/-- The handler `closeUpdateModal`: `setUpdateModalVisible(false)`. -/
def closeUpdateModal : List (Effect Write) :=
  [.write (.setUpdateModalVisible false)]

/-- The status input of the update modal: `setUpdateStatus(text)`. -/
def changeUpdateStatus (text : String) : List (Effect Write) :=
  [.write (.setUpdateStatus (.str text))]

/-- The ReferenceError raised by the name `UPDATE_ITINERARY_REQUEST_API`, which
`ItineraryRequestsAdminScreen.js` uses but neither declares nor imports (the wording is the
engine's). -/
def undeclaredUpdateApi : Thrown :=
  .referenceError "UPDATE_ITINERARY_REQUEST_API is not defined"

/-- The handler `handleSaveUpdate`: nothing when no request is viewed; else `setUpdating(true)`,
then evaluating the argument `UPDATE_ITINERARY_REQUEST_API(view.id)` of `fetch` throws, `catch`
alerts, and `setUpdating(false)` follows.  No request is issued. -/
def handleSaveUpdate (s : RequestsState) : List (Effect Write) :=
  if !s.view.truthy then []
  else
    [.write (.setUpdating true),
     .alert { title := "Error",
              message := strOr undeclaredUpdateApi.message "Failed to update request." },
     .write (.setUpdating false)]

/-- The things that happen to a mounted `ItineraryRequestsAdminScreen`. -/
inductive Event where
  | fetchStart : Event
  | fetchDone (o : Outcome) : Event
  | handleViewDetails (id : JVal) : Event
  | detailsDone (o : Outcome) : Event
  | closeView : Event
  | handleMarkAsReviewed : Event
  | handleMarkAsReviewedDone (view : JVal) (o : Outcome) : Event
  | openUpdateModal : Event
  | closeUpdateModal : Event
  | changeUpdateStatus (text : String) : Event
  | handleSaveUpdate : Event

/-- The effects of a handler event (a completed list or detail fetch is given by
`fetchRequestsDone` and `fetchRequestDetailsDone`). -/
def effects (s : RequestsState) : Event → List (Effect Write)
  | .fetchStart => fetchRequestsStart
  | .fetchDone _ => []
  | .handleViewDetails id => handleViewDetails id
  | .detailsDone _ => []
  | .closeView => closeView
  | .handleMarkAsReviewed => handleMarkAsReviewed s
  | .handleMarkAsReviewedDone view o => handleMarkAsReviewedDone view o
  | .openUpdateModal => openUpdateModal s
  | .closeUpdateModal => closeUpdateModal
  | .changeUpdateStatus text => changeUpdateStatus text
  | .handleSaveUpdate => handleSaveUpdate s

/-- The state after an event. -/
def step (s : RequestsState) (ev : Event) : RequestsState :=
  match ev with
  | .fetchDone o => (fetchRequestsDone o s).1
  | .detailsDone o => (fetchRequestDetailsDone o s).1
  | _ => applyWrites Write.apply (effects s ev) s

/-- The event is the completion of a list fetch. -/
def Event.isFetchDone : Event → Bool
  | .fetchDone _ => true
  | _ => false

end Requests


/-! ## BookingsAdminScreen: `saveEditBooking` as a sequence of effects -/

namespace Bookings

/-- The URL constant `API_BASE` of `BookingsAdminScreen.js`. -/
def API_BASE : String :=
  "https://ecotrails-dev-bookings-func.azurewebsites.net/api/api/admin/bookings"

/-- A state write of `BookingsAdminScreen`. -/
inductive Write where
  | setBookings (v : List JVal) : Write
  | setFilteredBookings (v : List JVal) : Write
  | setCurrentFilter (k : String) : Write
  | setView (v : JVal) : Write
  | setEditBooking (v : JVal) : Write
  | setLoading (b : Bool) : Write
  | setRefreshing (b : Bool) : Write
  | setError (e : Option String) : Write

/-- The effect of one write on the state. -/
def Write.apply : Write → BookingsState → BookingsState
  | .setBookings v, s => { s with bookings := v }
  | .setFilteredBookings v, s => { s with filteredBookings := v }
  | .setCurrentFilter k, s => { s with currentFilter := k }
  | .setView v, s => { s with view := v }
  | .setEditBooking v, s => { s with editBooking := v }
  | .setLoading b, s => { s with loading := b }
  | .setRefreshing b, s => { s with refreshing := b }
  | .setError e, s => { s with error := e }

/-- The request of `fetchBookings`. -/
def listRequest : Request :=
  { method := "GET", url := API_BASE ++ "?", body := none }

/-- The effects of `fetchBookings` up to its await. -/
def fetchBookingsStartEffects : List (Effect Write) :=
  [.write (.setLoading true), .write (.setError none), .request listRequest]

/-- The effects of `saveEditBooking` up to its await: none when the guard returns, else
`setLoading(true)` and the PUT of the status. -/
def saveEditBookingEffects (s : BookingsState) : List (Effect Write) :=
  if saveEditBookingSkips s then []
  else
    [.write (.setLoading true),
     .request { method := "PUT",
                url := API_BASE ++ "/" ++ (s.editBooking.getOpt "id").toStr ++ "/status?",
                body := some (.obj [("Status", s.editBooking.getOpt "newStatus")]) }]

/-- The effects of `saveEditBooking` from the response on, in program order. -/
def saveEditBookingDoneEffects (o : Outcome) : List (Effect Write) :=
  match saveEditBookingTry o with
  | none =>
    [.alert { title := "Success", message := "Booking status updated successfully!" },
     .write (.setEditBooking .null)]
      ++ fetchBookingsStartEffects ++ [.write (.setLoading false)]
  | some e =>
    [.alert { title := "Error", message := strOr e.message "Could not update booking status." },
     .write (.setLoading false)]

/-- The event is the completion of a list fetch. -/
def isFetchDone : BookingsEvent → Bool
  | .fetchDone _ _ => true
  | _ => false

end Bookings

/-! ## Words of the specification about drafts and forms -/

/-- A draft field that is empty or missing: `undefined`, `null` or the empty string. -/
def isEmptyOrMissing : JVal → Bool
  | .undefined => true
  | .null => true
  | .str s => s == ""
  | _ => false

/-- A text that is empty or consists only of white space. -/
def whitespaceOnly (s : String) : Bool :=
  s.data.all isJsWhitespace

/-- A sequence of events of the Partners screen, from a given state. -/
def Partners.run (s : PartnersState) : List Partners.Event → PartnersState
  | [] => s
  | ev :: rest => Partners.run (Partners.step s ev) rest

/-- A sequence of events of the ItineraryRequests screen, from a given state. -/
def Requests.run (s : RequestsState) : List Requests.Event → RequestsState
  | [] => s
  | ev :: rest => Requests.run (Requests.step s ev) rest


/-- An add draft as the 'Add New Itinerary' button creates it, with a duration typed in and no
name. -/
def namelessDraft : JVal := .obj [("status", .str "Draft"), ("durationDays", .str "3")]

/-- An edit draft whose name was cleared. -/
def clearedNameDraft : JVal :=
  .obj [("id", .num 5), ("name", .str ""), ("durationDays", .num 3), ("status", .str "Draft"),
        ("description", .undefined)]


/-- A partner application as the details endpoint returns it. -/
def viewedPartner : JVal :=
  .obj [("Id", .num 9), ("FullName", .str "Nimal Perera"),
        ("EmailAddress", .str "nimal@example.com"), ("Status", .str "Pending")]

/-- A partner form with a full name and a blank email address. -/
def blankEmailForm : PartnerForm :=
  { FullName := .str "Nimal Perera", EmailAddress := .str " ", BusinessName := .str "",
    TypeOfBusiness := .str "", Location := .str "", BriefDescription := .str "",
    Status := .str "Pending" }

/-- A response with status 204 and an empty body. -/
def noContentResponse : Response :=
  { status := 204, statusText := "No Content", text := "",
    parsed := .error "JSON Parse error: Unexpected end of input" }


/-- A successful response of the partner details endpoint. -/
def partnerDetailsResponse : Response :=
  { status := 200, statusText := "OK",
    text := "\x7b\"Id\":9,\"FullName\":\"Nimal Perera\",\"EmailAddress\":\"nimal@example.com\",\"Status\":\"Pending\"\x7d",
    parsed := .ok viewedPartner }

/-- A successful response of the itinerary request details endpoint. -/
def requestDetailsResponse : Response :=
  { status := 200, statusText := "OK", text := "\x7b\"id\":7,\"status\":\"Pending\"\x7d",
    parsed := .ok viewedRequest }

/-- A user record whose status is stored under the capitalised key. -/
def capitalStatusRecord : JVal := .obj [("id", .num 1), ("Status", .str "Active")]


/-! ## BookingsAdminScreen: the inline filter and the cancel button -/

/-- The list `initialFiltered` of `fetchBookings`: `data.filter(b => currentFilter === 'All' ?
true : (b.status || '').toLowerCase() === currentFilter.toLowerCase())`. -/
def initialFiltered (currentFilter : String) (data : List JVal) : Except Thrown (List JVal) :=
  filterE (fun b => if currentFilter = "All" then .ok true else statusMatches currentFilter b)
    data

/-- The effects of `cancelEdit`: `setEditBooking(null)`. -/
def Bookings.cancelEditEffects : List (Effect Bookings.Write) :=
  [.write (.setEditBooking .null)]

/-- A value that is not an array or an object: on such a value `===` compares by value. -/
def JVal.isPrimitive : JVal → Bool
  | .arr _ => false
  | .obj _ => false
  | _ => true

/-! ## AdminAnalyticsScreen -/

/-- The state of `AdminAnalyticsScreen`. -/
structure AnalyticsState where
  analytics : JVal
  loading : Bool
  error : String

/-- The initial values of the `useState` cells. -/
def AnalyticsState.initial : AnalyticsState :=
  { analytics := .null, loading := true, error := "" }

/-- The value passed to `setAnalytics`: `data[0] || {}` for an array, `data || {}` otherwise. -/
def analyticsValue (data : JVal) : JVal :=
  match data with
  | .arr [] => JVal.undefined.or (.obj [])
  | .arr (first :: _) => first.or (.obj [])
  | d => d.or (.obj [])

/-- The promise chain of the fetch effect up to the data: the parsed body, or the exception that
reaches `.catch`. -/
def fetchAnalyticsTry (o : Outcome) : Except Thrown JVal :=
  match o with
  | .rejected e => .error e
  | .responded res =>
    if !res.ok then .error (.error "Failed to fetch analytics") else res.json

/-- The fetch effect of `AdminAnalyticsScreen` from the response on. -/
def fetchAnalyticsDone (o : Outcome) (s : AnalyticsState) : AnalyticsState :=
  match fetchAnalyticsTry o with
  | .ok data => { s with analytics := analyticsValue data, loading := false }
  | .error _ => { s with error := "Unable to load analytics", loading := false }

/-! ## AdminDashboardScreen and the navigator of App -/

namespace Dashboard

/-- An effect of a dashboard handler: a navigation call or an alert. -/
inductive NavEffect where
  | navigate (name : String) : NavEffect
  | replace (name : String) : NavEffect
  | alert (a : Alert) : NavEffect
  deriving DecidableEq

/-- The alert of the `default` branch of `handleCardPress`. -/
def comingSoon (sectionName : JVal) : NavEffect :=
  .alert { title := "Coming Soon",
           message := "Section \"" ++ sectionName.toStr ++ "\" not configured yet." }

/-- The handler `handleCardPress(section)`: a `switch` over eight string labels. -/
def handleCardPress (sectionName : JVal) : List NavEffect :=
  match sectionName with
  | .str label =>
    if label = "Users" then [.navigate "UsersAdmin"]
    else if label = "Bookings" then [.navigate "BookingsAdmin"]
    else if label = "Partners" then [.navigate "PartnersAdmin"]
    else if label = "Requests" then [.navigate "ItineraryRequestsAdmin"]
    else if label = "Itineraries" then [.navigate "ItinerariesAdmin"]
    else if label = "Locations" then [.navigate "LocationAdmin"]
    else if label = "Feedback" then [.navigate "FeedbackManagement"]
    else if label = "Analytics" then [.navigate "AdminAnalytics"]
    else [comingSoon sectionName]
  | other => [comingSoon other]

/-- The handler `handleLogout`: `navigation.replace('Login')`. -/
def handleLogout : List NavEffect :=
  [.replace "Login"]

/-- The screen names a sequence of effects navigates to. -/
def targetsOf : List NavEffect → List String
  | [] => []
  | e :: rest =>
    match e with
    | .navigate name => name :: targetsOf rest
    | .replace name => name :: targetsOf rest
    | .alert _ => targetsOf rest

/-- The sections of the eight cards of the dashboard, in the order they are rendered. -/
def sections : List String :=
  ["Analytics", "Users", "Bookings", "Partners", "Requests", "Itineraries", "Locations",
   "Feedback"]

/-- The `name` of every `Stack.Screen` of the `Stack.Navigator` of `App.js`, in order. -/
def registeredScreens : List String :=
  ["Home", "Login", "Register", "ContactUs", "AboutUs", "TermsConditions", "Dashboard", "Map",
   "RecentBookings", "TripPlanner", "Booking", "RegisterBusiness", "ViewMyBusiness",
   "ItineraryScreen", "AdminLogin", "AdminDashboard", "AdminAnalytics", "BookingsAdmin",
   "ItineraryRequestsAdmin", "ItinerariesAdmin", "UsersAdmin", "PartnersAdmin", "LocationAdmin",
   "FeedbackManagement", "Feedback", "EcoPartnerPortal", "BusinessProfile", "Services",
   "Reviews", "Analytics", "Calendar", "PartnerSettings", "Notifications", "Bookings",
   "Marketplace", "ExploreLocations", "HotelFilter"]

end Dashboard

/-! ## AdminLoginScreen: `handleLogin` -/

namespace Login

/-- The URL constant `ADMIN_LOGIN_API`. -/
def ADMIN_LOGIN_API : String :=
  "https://ecotrails-dev-users-func20250717225342.azurewebsites.net/api/api/user/login?"

/-- An effect of `handleLogin`.  `offer` is the alert whose 'OK' button calls
`navigation.replace(target)`. -/
inductive LoginEffect where
  | alert (a : Alert) : LoginEffect
  | offer (title message target : String) : LoginEffect
  | setLoading (b : Bool) : LoginEffect
  | request (r : Request) : LoginEffect

/-- The requests of a sequence of login effects. -/
def requests : List LoginEffect → List Request
  | [] => []
  | e :: rest =>
    match e with
    | .request r => r :: requests rest
    | _ => requests rest

/-- The navigation targets a sequence of login effects offers. -/
def offers : List LoginEffect → List String
  | [] => []
  | e :: rest =>
    match e with
    | .offer _ _ target => target :: offers rest
    | _ => offers rest

/-- The method `hay.includes(needle)`. -/
def jsIncludes (hay needle : String) : Bool :=
  hay.data.tails.any (fun t => needle.data.isPrefixOf t)

/-- The alert of the `catch` block. -/
def networkAlert : LoginEffect :=
  .alert { title := "Login Failed", message := "Network or server error." }

/-- The part of `handleLogin` up to its await: the alert (title only) when the email or the
password is empty, else `setLoading(true)` and the POST. -/
def handleLogin (email password : String) : List LoginEffect :=
  if email = "" || password = "" then
    [.alert { title := "Please enter both email and password", message := "" }]
  else
    [.setLoading true,
     .request { method := "POST", url := ADMIN_LOGIN_API,
                body := some (.obj [("Email", .str email), ("PasswordHash", .str password)]) }]

/-- The test `response.ok && (json.success || json.message?.toLowerCase().includes('success'))`
of `handleLogin`: it throws when `json` is `null` or `message` is a value without
`toLowerCase`. -/
def accepted (res : Response) : Except Thrown Bool :=
  if !res.ok then .ok false
  else
    match (handleLoginJson res).getProp "success" with
    | .error e => .error e
    | .ok success =>
      if success.truthy then .ok true
      else
        match (handleLoginJson res).getOpt "message" with
        | .undefined => .ok false
        | .null => .ok false
        | .str m => .ok (jsIncludes (lowerString m) "success")
        | _ => .error (notAFunctionError "toLowerCase")

/-- The branch of `handleLogin` taken when the test holds: the role checks. -/
def roleBranch (json : JVal) : LoginEffect :=
  if !(json.getOpt "role").truthy then
    .alert { title := "Login Failed",
             message := "Role information missing from server response." }
  else if !((json.getOpt "role").strictEq (.str "Admin")) then
    .alert { title := "Access Denied", message := "You are not authorized as admin." }
  else .offer "Admin Login Successful" "Welcome Admin!" "AdminDashboard"

/-- The branch of `handleLogin` taken when the test fails: the alert with
`json.message || json.error || text || 'Unknown error occurred.'`; reading `message` of a `null`
body throws. -/
def failedBranch (res : Response) : LoginEffect :=
  match (handleLoginJson res).getProp "message" with
  | .error _ => networkAlert
  | .ok message =>
    .alert { title := "Login Failed",
             message := (((message.or ((handleLoginJson res).getOpt "error")).or
               (.str res.text)).or (.str "Unknown error occurred.")).toStr }

/-- The part of `handleLogin` from the response on. -/
def handleLoginDone (o : Outcome) : List LoginEffect :=
  match o with
  | .rejected _ => [networkAlert, .setLoading false]
  | .responded res =>
    match accepted res with
    | .error _ => [networkAlert, .setLoading false]
    | .ok true => [roleBranch (handleLoginJson res), .setLoading false]
    | .ok false => [failedBranch res, .setLoading false]

end Login


/-- A partner application whose status is the number 0 and whose business name is `null`. -/
def numericStatusPartner : JVal :=
  .obj [("Id", .num 9), ("FullName", .str "Nimal Perera"),
        ("EmailAddress", .str "nimal@example.com"), ("BusinessName", .null),
        ("Status", .num 0)]


namespace Login

/-- The whole of `handleLogin`, `o` being what its `fetch` gives: the part after the await runs
only when the handler got as far as the request. -/
def handleLoginRun (email password : String) (o : Outcome) : List LoginEffect :=
  if email = "" || password = "" then handleLogin email password
  else handleLogin email password ++ handleLoginDone o

end Login

/-- A login response that accepts an administrator. -/
def adminLoginResponse : Response :=
  { status := 200, statusText := "OK",
    text := "\x7b\"success\":true,\"role\":\"Admin\"\x7d",
    parsed := .ok (.obj [("success", .bool true), ("role", .str "Admin")]) }

/-- A success response whose body is text, not JSON. -/
def textLoginResponse : Response :=
  { status := 200, statusText := "OK", text := "Login successful",
    parsed := .error "Unexpected token L in JSON at position 0" }


/-- The test of the callback of `itineraries.find` in `handleEdit`, on an item whose properties
can be read: `item.id === id || item.Id === id`. -/
def Itineraries.matchesId (id item : JVal) : Bool :=
  (item.getOpt "id").strictEq id || (item.getOpt "Id").strictEq id

/-- An analytics response whose body is an array with one record. -/
def analyticsResponse : Response :=
  { status := 200, statusText := "OK", text := "[\x7b\"TotalBookings\":12\x7d]",
    parsed := .ok (.arr [.obj [("TotalBookings", .num 12)]]) }

/-- An analytics response whose body is the array `[0]`. -/
def zeroArrayResponse : Response :=
  { status := 200, statusText := "OK", text := "[0]", parsed := .ok (.arr [.num 0]) }

/-- An analytics response whose body is `false`. -/
def falseBodyResponse : Response :=
  { status := 200, statusText := "OK", text := "false", parsed := .ok (.bool false) }

/-- An itinerary whose fields are capitalised. -/
def capitalisedItinerary : JVal :=
  .obj [("Id", .num 4), ("Name", .str "Kandy Hills"), ("DurationDays", .num 2),
        ("Status", .str "Draft"), ("Description", .str "Two days in the hill country")]

/-- An itinerary whose fields are in lower case. -/
def lowerCaseItinerary : JVal :=
  .obj [("id", .num 5), ("name", .str "Ella Rock"), ("durationDays", .num 3),
        ("status", .str "Published"), ("description", .str "Three days around Ella")]


/-! ## Theorems -/

/-- A callback that never throws makes `filterE` the plain list filter. -/
theorem filterE_eq_filter (p : JVal → Except Thrown Bool) (q : JVal → Bool) (C : List JVal)
    (h : ∀ r ∈ C, p r = .ok (q r)) : filterE p C = .ok (C.filter q) := by
  induction C with
  | nil => rfl
  | cons x xs ih =>
    have hx : p x = .ok (q x) := h x (List.mem_cons_self x xs)
    have hxs : filterE p xs = .ok (xs.filter q) :=
      ih (fun r hr => h r (List.mem_cons_of_mem x hr))
    simp only [filterE, hx, hxs, List.filter_cons]

/-- On a readable record the comparison of the code is the comparison of the specification. -/
theorem statusMatches_of_readable (K : String) (r : JVal) (h : statusReadable r = true) :
    statusMatches K r = .ok (lowerString (statusText r) == lowerString K) := by
  cases r with
  | undefined => simp [statusReadable, JVal.getProp] at h
  | null => simp [statusReadable, JVal.getProp] at h
  | obj fields =>
    simp only [statusReadable, JVal.getProp] at h
    simp only [statusMatches, JVal.getProp, statusText]
    generalize lookupField "status" fields = v at h
    cases v with
    | str st =>
      by_cases hs : st = "" <;> simp [JVal.or, JVal.truthy, JVal.toLowerCase, hs]
    | num n =>
      have hn : n = 0 := by simpa [JVal.truthy] using h
      subst hn
      simp [JVal.or, JVal.truthy, JVal.toLowerCase]
    | bool b =>
      have hb : b = false := by simpa [JVal.truthy] using h
      subst hb
      simp [JVal.or, JVal.truthy, JVal.toLowerCase]
    | undefined => simp [JVal.or, JVal.truthy, JVal.toLowerCase]
    | null => simp [JVal.or, JVal.truthy, JVal.toLowerCase]
    | arr _ => simp [JVal.truthy] at h
    | obj _ => simp [JVal.truthy] at h
  | bool _ => simp [statusMatches, JVal.getProp, statusText, JVal.or, JVal.truthy, JVal.toLowerCase]
  | num _ => simp [statusMatches, JVal.getProp, statusText, JVal.or, JVal.truthy, JVal.toLowerCase]
  | str _ => simp [statusMatches, JVal.getProp, statusText, JVal.or, JVal.truthy, JVal.toLowerCase]
  | arr _ => simp [statusMatches, JVal.getProp, statusText, JVal.or, JVal.truthy, JVal.toLowerCase]

/-- C1, as the code has it: for every collection whose records are readable (not `null`, status a
string or falsy) and every key other than "All", the Users filter and the Bookings filter effect
both give exactly the records whose status, lower-cased, equals the key lower-cased, in the order
of the collection. -/
theorem filter_keeps_matching_status (C : List JVal) (K : String) (hK : K ≠ "All")
    (hC : ∀ r ∈ C, statusReadable r = true) :
    filteredUsers C K = .ok (applyFilterSpec C K) ∧
    filterEffectValue C K = .ok (applyFilterSpec C K) := by
  have hm : ∀ r ∈ C, statusMatches K r = .ok (lowerString (statusText r) == lowerString K) :=
    fun r hr => statusMatches_of_readable K r (hC r hr)
  constructor
  · unfold filteredUsers applyFilterSpec
    apply filterE_eq_filter
    intro r hr
    simp [hK, hm r hr]
  · unfold filterEffectValue
    cases C with
    | nil => rfl
    | cons x xs =>
      simp only [List.length_cons, gt_iff_lt, Nat.zero_lt_succ, if_true, hK, if_false]
      exact filterE_eq_filter _ _ _ hm

/-- The scenario of C1: one pending record, key "Confirmed", nothing is left. -/
theorem filter_keeps_matching_status_witness :
    "Confirmed" ≠ "All" ∧ statusReadable pendingBooking = true ∧
    filteredUsers [pendingBooking] "Confirmed" = .ok [] ∧
    filterEffectValue [pendingBooking] "Confirmed" = .ok [] :=
  ⟨by decide, rfl,
   filter_keeps_matching_status [pendingBooking] "Confirmed" (by decide)
     (by intro r hr; simp at hr; subst hr; rfl)⟩

/-- C1 fails as stated: a record whose status is the number 2 makes both filters throw a
TypeError instead of producing a list. -/
theorem filter_throws_on_numeric_status :
    filteredUsers [numericStatusRecord] "Active" = .error (notAFunctionError "toLowerCase") ∧
    filterEffectValue [numericStatusRecord] "Active" = .error (notAFunctionError "toLowerCase") ∧
    filteredUsers [numericStatusRecord] "Active"
      ≠ .ok (applyFilterSpec [numericStatusRecord] "Active") := by
  refine ⟨rfl, rfl, ?_⟩
  intro h
  cases h

/-- C2: with the key "All" both filters return the collection itself, the empty one included. -/
theorem filter_all_is_identity (C : List JVal) :
    filteredUsers C "All" = .ok C ∧ filterEffectValue C "All" = .ok C := by
  constructor
  · unfold filteredUsers
    have h := filterE_eq_filter
      (fun user => if "All" = "All" then .ok true else statusMatches "All" user)
      (fun _ => true) C (fun r _ => by simp)
    simpa using h
  · unfold filterEffectValue
    cases C with
    | nil => rfl
    | cons x xs => simp

/-- After the filter effect has run the filtered list is in sync. -/
theorem runFilterEffect_inSync (s t : BookingsState) (h : runFilterEffect s = .ok t) :
    filterInSync t := by
  unfold runFilterEffect at h
  split at h
  · cases h
  · next v hv =>
    cases h
    exact hv

/-- No handler other than a completed fetch and a filter change writes `bookings`,
`currentFilter` or `filteredBookings`. -/
theorem step_keeps_lists (s t : BookingsState) (ev : BookingsEvent)
    (hev : ev.writesFilterInputs = false) (h : s.step ev = .ok t) :
    t.bookings = s.bookings ∧ t.currentFilter = s.currentFilter ∧
    t.filteredBookings = s.filteredBookings := by
  cases ev with
  | fetchDone k o => cases hev
  | filterChange status => cases hev
  | fetchStart => cases h; exact ⟨rfl, rfl, rfl⟩
  | refresh => cases h; exact ⟨rfl, rfl, rfl⟩
  | viewStart => cases h; exact ⟨rfl, rfl, rfl⟩
  | viewDone o =>
    cases h
    unfold handleViewDone
    split <;> exact ⟨rfl, rfl, rfl⟩
  | closeView => cases h; exact ⟨rfl, rfl, rfl⟩
  | edit item =>
    simp only [BookingsState.step, handleEdit] at h
    split at h
    · cases h
    · cases h; exact ⟨rfl, rfl, rfl⟩
  | changeNewStatus text => cases h; exact ⟨rfl, rfl, rfl⟩
  | cancelEdit => cases h; exact ⟨rfl, rfl, rfl⟩
  | saveStart =>
    cases h
    unfold saveEditBookingStart
    split <;> exact ⟨rfl, rfl, rfl⟩
  | saveDone o =>
    cases h
    unfold saveEditBookingDone
    split <;> exact ⟨rfl, rfl, rfl⟩

/-- Every event keeps the filtered list in sync. -/
theorem step_inSync (s t : BookingsState) (ev : BookingsEvent) (hs : filterInSync s)
    (h : s.step ev = .ok t) : filterInSync t := by
  cases ev with
  | fetchStart => cases h; exact hs
  | refresh => cases h; exact hs
  | fetchDone k o => exact runFilterEffect_inSync _ _ h
  | filterChange status =>
    simp only [BookingsState.step] at h
    split at h
    · cases h; exact hs
    · exact runFilterEffect_inSync _ _ h
  | viewStart => cases h; exact hs
  | viewDone o =>
    cases h
    unfold handleViewDone
    split <;> exact hs
  | closeView => cases h; exact hs
  | edit item =>
    simp only [BookingsState.step, handleEdit] at h
    split at h
    · cases h
    · cases h; exact hs
  | changeNewStatus text => cases h; exact hs
  | cancelEdit => cases h; exact hs
  | saveStart =>
    cases h
    unfold saveEditBookingStart
    split <;> exact hs
  | saveDone o =>
    cases h
    unfold saveEditBookingDone
    split <;> exact hs

/-- Every run keeps the filtered list in sync. -/
theorem run_inSync (evs : List BookingsEvent) (s t : BookingsState) (hs : filterInSync s)
    (h : s.run evs = .ok t) : filterInSync t := by
  induction evs generalizing s with
  | nil => cases h; exact hs
  | cons ev rest ih =>
    simp only [BookingsState.run] at h
    split at h
    · cases h
    · next u hu => exact ih u (step_inSync s u ev hs hu) h

/-- C3: in every state the Bookings screen reaches from mounting, by fetch starts and completions
(successful or failed, with whatever filter key the fetch closure captured), filter changes and
every other handler of the screen, `filteredBookings` is the filter effect's value for the current
`bookings` and `currentFilter`. -/
theorem filteredBookings_in_sync (evs : List BookingsEvent) (t : BookingsState)
    (h : BookingsState.session evs = .ok t) :
    filterEffectValue t.bookings t.currentFilter = .ok t.filteredBookings := by
  unfold BookingsState.session at h
  split at h
  · cases h
  · next s hs => exact run_inSync evs s t (runFilterEffect_inSync _ _ hs) h


/-- A session in which the filter changes while a fetch started under "All" is in flight: the
fetch writes the unfiltered list, the effect then filters it. -/
theorem filteredBookings_in_sync_witness :
    BookingsState.session
        [.filterChange "Confirmed",
         .fetchDone "All" (.responded twoBookingsResponse)]
      = .ok { bookings := [pendingBooking, confirmedBooking],
              filteredBookings := [confirmedBooking], currentFilter := "Confirmed",
              view := .null, editBooking := .null, loading := false, refreshing := false,
              error := none } ∧
    filterEffectValue [pendingBooking, confirmedBooking] "Confirmed" = .ok [confirmedBooking] :=
  ⟨rfl,
   filteredBookings_in_sync
     [.filterChange "Confirmed",
      .fetchDone "All" (.responded twoBookingsResponse)]
     { bookings := [pendingBooking, confirmedBooking],
       filteredBookings := [confirmedBooking], currentFilter := "Confirmed",
       view := .null, editBooking := .null, loading := false, refreshing := false,
       error := none }
     rfl⟩

/-- The inline filter of `fetchBookings` does not throw under the key "All" or on readable
records. -/
theorem inlineFilter_ok (k : String) (A : List JVal)
    (h : k = "All" ∨ ∀ r ∈ A, statusReadable r = true) :
    ∃ f, filterE (fun b => if k = "All" then .ok true else statusMatches k b) A = .ok f := by
  rcases h with h | h
  · exact ⟨A.filter (fun _ => true), filterE_eq_filter _ _ A (fun r _ => by simp [h])⟩
  · by_cases hk : k = "All"
    · exact ⟨A.filter (fun _ => true), filterE_eq_filter _ _ A (fun r _ => by simp [hk])⟩
    · exact ⟨A.filter (fun r => lowerString (statusText r) == lowerString k),
        filterE_eq_filter _ _ A
          (fun r hr => by simp [hk, statusMatches_of_readable k r (h r hr)])⟩

/-- C4, as the code has it: when a list fetch succeeds with a JSON array `A`, the collection is
`A` afterwards, whatever it was before, in Users, Itineraries, ItineraryRequests, Partners,
Locations and Feedback; in Bookings too, provided the filter key captured by the fetch is "All" or
every record of `A` is readable. -/
theorem list_fetch_commits_array (res : Response) (A : List JVal) (hok : res.ok = true)
    (hA : res.parsed = .ok (.arr A)) :
    (∀ s : UsersState, (fetchUsersDone (.responded res) s).1.users = A) ∧
    (∀ s : ItinerariesState, (fetchItinerariesDone (.responded res) s).1.itineraries = A) ∧
    (∀ s : RequestsState, (fetchRequestsDone (.responded res) s).1.requests = A) ∧
    (∀ s : PartnersState, (fetchAllPartnersDone (.responded res) s).1.partners = A) ∧
    (∀ s : LocationsState, (fetchLocationsDone (.responded res) s).1.locations = .arr A) ∧
    (∀ s : FeedbackState, (fetchFeedbackDone (.responded res) s).1.feedbackList = A) ∧
    (∀ (k : String) (s : BookingsState), (k = "All" ∨ ∀ r ∈ A, statusReadable r = true) →
      (fetchBookingsDone k (.responded res) s).bookings = A) := by
  refine ⟨?_, ?_, ?_, ?_, ?_, ?_, ?_⟩
  · intro s
    simp [fetchUsersDone, fetchUsersTry, hok, Response.json, hA]
  · intro s
    simp [fetchItinerariesDone, fetchItinerariesTry, Response.json, hA]
  · intro s
    simp [fetchRequestsDone, fetchRequestsTry, hok, Response.json, hA]
  · intro s
    simp [fetchAllPartnersDone, fetchAllPartnersTry, hok, Response.json, hA]
  · intro s
    simp [fetchLocationsDone, fetchLocationsTry, hok, Response.json, hA]
  · intro s
    simp [fetchFeedbackDone, feedbackData, hA]
  · intro k s h
    obtain ⟨f, hf⟩ := inlineFilter_ok k A h
    simp [fetchBookingsDone, fetchBookingsTry, hok, Response.json, hA, hf]

/-- A successful fetch of two bookings, in every screen. -/
theorem list_fetch_commits_array_witness :
    twoBookingsResponse.ok = true ∧
    (fetchUsersDone (.responded twoBookingsResponse)
        { UsersState.initial with users := [numericStatusRecord] }).1.users
      = [pendingBooking, confirmedBooking] ∧
    (fetchBookingsDone "Pending"
        (.responded twoBookingsResponse)
        { BookingsState.initial with bookings := [numericStatusRecord] }).bookings
      = [pendingBooking, confirmedBooking] :=
  have h := list_fetch_commits_array twoBookingsResponse
    [pendingBooking, confirmedBooking] rfl rfl
  ⟨rfl, h.1 _, h.2.2.2.2.2.2 "Pending" _
    (Or.inr (by intro r hr; simp at hr; rcases hr with hr | hr <;> subst hr <;> rfl))⟩

/-- C4 fails as stated: in Bookings, with the key "Confirmed" captured, a successful array body
holding a record with a numeric status makes the inline filter throw; the catch block empties the
collection and stores the TypeError message. -/
theorem fetchBookings_drops_array_on_numeric_status :
    numericStatusResponse.ok = true ∧
    (fetchBookingsDone "Confirmed" (.responded numericStatusResponse)
        BookingsState.initial).bookings = [] ∧
    (fetchBookingsDone "Confirmed" (.responded numericStatusResponse)
        BookingsState.initial).error = some "toLowerCase is not a function" ∧
    (fetchBookingsDone "Confirmed" (.responded numericStatusResponse)
        BookingsState.initial).bookings ≠ [numericStatusRecord] := by
  refine ⟨rfl, rfl, rfl, ?_⟩
  intro h
  cases h

/-- C5, as the code has it: when a list fetch succeeds with a JSON object, the collection is
empty afterwards in Users, Itineraries, ItineraryRequests, Partners, Feedback and Bookings (the
filtered list too); in Locations it is the `locations` field of the object when that is truthy,
and empty otherwise.  No screen wraps the object in a one-element list. -/
theorem list_fetch_of_object (res : Response) (fields : List (String × JVal))
    (hok : res.ok = true) (hO : res.parsed = .ok (.obj fields)) :
    (∀ s : UsersState, (fetchUsersDone (.responded res) s).1.users = []) ∧
    (∀ s : ItinerariesState, (fetchItinerariesDone (.responded res) s).1.itineraries = []) ∧
    (∀ s : RequestsState, (fetchRequestsDone (.responded res) s).1.requests = []) ∧
    (∀ s : PartnersState, (fetchAllPartnersDone (.responded res) s).1.partners = []) ∧
    (∀ s : FeedbackState, (fetchFeedbackDone (.responded res) s).1.feedbackList = []) ∧
    (∀ (k : String) (s : BookingsState),
      (fetchBookingsDone k (.responded res) s).bookings = [] ∧
      (fetchBookingsDone k (.responded res) s).filteredBookings = []) ∧
    (∀ s : LocationsState, (fetchLocationsDone (.responded res) s).1.locations
      = (lookupField "locations" fields).or (.arr [])) := by
  refine ⟨?_, ?_, ?_, ?_, ?_, ?_, ?_⟩
  · intro s
    simp [fetchUsersDone, fetchUsersTry, hok, Response.json, hO]
  · intro s
    simp [fetchItinerariesDone, fetchItinerariesTry, Response.json, hO]
  · intro s
    simp [fetchRequestsDone, fetchRequestsTry, hok, Response.json, hO]
  · intro s
    simp [fetchAllPartnersDone, fetchAllPartnersTry, hok, Response.json, hO]
  · intro s
    simp [fetchFeedbackDone, feedbackData, hO]
  · intro k s
    simp [fetchBookingsDone, fetchBookingsTry, hok, Response.json, hO]
  · intro s
    simp [fetchLocationsDone, fetchLocationsTry, hok, Response.json, hO, JVal.getProp]

/-- A successful fetch whose body is an object with a `locations` array: Users ends up empty,
Locations takes the inner array. -/
theorem list_fetch_of_object_witness :
    wrappedLocationsResponse.ok = true ∧
    (fetchUsersDone (.responded wrappedLocationsResponse)
        { UsersState.initial with users := [pendingBooking] }).1.users = [] ∧
    (fetchLocationsDone (.responded wrappedLocationsResponse) LocationsState.initial).1.locations
      = .arr [.obj [("LocationId", .num 1), ("Name", .str "Ella")]] :=
  have h := list_fetch_of_object wrappedLocationsResponse
    [("locations", .arr [.obj [("LocationId", .num 1), ("Name", .str "Ella")]])] rfl rfl
  ⟨rfl, h.1 _, h.2.2.2.2.2.2 _⟩

/-- C5 fails as stated: a successful Users fetch whose body is one JSON object leaves the
collection empty, not the one-element list holding the object. -/
theorem fetchUsers_object_not_wrapped :
    singleObjectResponse.ok = true ∧
    (fetchUsersDone (.responded singleObjectResponse) UsersState.initial).1.users
      = [] ∧
    (fetchUsersDone (.responded singleObjectResponse) UsersState.initial).1.users
      ≠ [pendingBooking] := by
  refine ⟨rfl, rfl, ?_⟩
  intro h
  cases h


/-- C6, as the code has it: when the body of the feedback response is not valid JSON, the feedback
collection is empty afterwards and no alert is raised; the text of the body is dropped. -/
theorem fetchFeedback_of_text (res : Response) (m : String) (s : FeedbackState)
    (h : res.parsed = .error m) :
    (fetchFeedbackDone (.responded res) s).1.feedbackList = [] ∧
    (fetchFeedbackDone (.responded res) s).2 = [] := by
  simp [fetchFeedbackDone, feedbackData, h]

/-- The body "OK" leaves the feedback collection empty. -/
theorem fetchFeedback_of_text_witness :
    (fetchFeedbackDone (.responded (textResponse 200 "OK" "OK"))
        { FeedbackState.initial with feedbackList := [pendingBooking] }).1.feedbackList = [] ∧
    (fetchFeedbackDone (.responded (textResponse 200 "OK" "OK"))
        { FeedbackState.initial with feedbackList := [pendingBooking] }).2 = [] :=
  fetchFeedback_of_text (textResponse 200 "OK" "OK") _ _ rfl

/-- C6 fails as stated: for the body "OK" the feedback collection is empty, not the one-record
list holding a `message` field. -/
theorem fetchFeedback_text_not_wrapped :
    (fetchFeedbackDone (.responded (textResponse 200 "OK" "OK")) FeedbackState.initial).1.feedbackList
      = [] ∧
    (fetchFeedbackDone (.responded (textResponse 200 "OK" "OK")) FeedbackState.initial).1.feedbackList
      ≠ [.obj [("message", .str "OK")]] := by
  refine ⟨rfl, ?_⟩
  intro h
  cases h

/-- C7, as the code has it: when the body of the login response is not valid JSON, the parsed
response is the record with the two fields `message` and `raw`, both holding the raw body text. -/
theorem handleLogin_json_of_text (res : Response) (m : String) (h : res.parsed = .error m) :
    handleLoginJson res = .obj [("message", .str res.text), ("raw", .str res.text)] ∧
    (handleLoginJson res).getProp "message" = .ok (.str res.text) ∧
    (handleLoginJson res).getProp "raw" = .ok (.str res.text) := by
  simp [handleLoginJson, h, JVal.getProp, lookupField]

/-- The login body "Unauthorized". -/
theorem handleLogin_json_of_text_witness :
    handleLoginJson (textResponse 401 "Unauthorized" "Unauthorized")
      = .obj [("message", .str "Unauthorized"), ("raw", .str "Unauthorized")] ∧
    (handleLoginJson (textResponse 401 "Unauthorized" "Unauthorized")).getProp "message"
      = .ok (.str "Unauthorized") ∧
    (handleLoginJson (textResponse 401 "Unauthorized" "Unauthorized")).getProp "raw"
      = .ok (.str "Unauthorized") :=
  handleLogin_json_of_text (textResponse 401 "Unauthorized" "Unauthorized") _ rfl

/-- C7 fails as stated: for the body "Unauthorized" the parsed response also has the field `raw`,
so it is not the single-field record. -/
theorem handleLogin_json_has_raw_field :
    (handleLoginJson (textResponse 401 "Unauthorized" "Unauthorized")).getProp "raw"
      = .ok (.str "Unauthorized") ∧
    handleLoginJson (textResponse 401 "Unauthorized" "Unauthorized")
      ≠ .obj [("message", .str "Unauthorized")] := by
  refine ⟨rfl, ?_⟩
  intro h
  cases h


/-- The five list fetches that read `res.ok` treat a non-success status as an error, whatever the
body: Users alerts and keeps its collection; ItineraryRequests, Partners and Locations alert and
empty theirs; Bookings stores an error message and empties its. -/
theorem nonSuccess_is_error_where_checked (res : Response) (hok : res.ok = false) :
    (∀ s : UsersState, fetchUsersDone (.responded res) s
      = ({ s with loading := false }, [{ title := "Error", message := "Failed to fetch users" }])) ∧
    (∀ s : RequestsState, fetchRequestsDone (.responded res) s
      = ({ s with requests := [], loading := false },
         [{ title := "Error", message := "Could not load itinerary requests." }])) ∧
    (∀ s : PartnersState, fetchAllPartnersDone (.responded res) s
      = ({ s with partners := [], loading := false },
         [{ title := "Error", message := "Failed to load partner applications" }])) ∧
    (∀ s : LocationsState, fetchLocationsDone (.responded res) s
      = ({ s with locations := .arr [], loading := false },
         [{ title := "Error", message := strOr res.text "Failed to fetch locations" }])) ∧
    (∀ (k : String) (s : BookingsState),
      (fetchBookingsDone k (.responded res) s).bookings = [] ∧
      (fetchBookingsDone k (.responded res) s).filteredBookings = [] ∧
      (fetchBookingsDone k (.responded res) s).error ≠ none) := by
  refine ⟨?_, ?_, ?_, ?_, ?_⟩
  · intro s
    simp [fetchUsersDone, fetchUsersTry, hok]
  · intro s
    simp [fetchRequestsDone, fetchRequestsTry, hok]
  · intro s
    simp [fetchAllPartnersDone, fetchAllPartnersTry, hok]
  · intro s
    simp only [fetchLocationsDone, fetchLocationsTry, hok, Bool.not_false, if_true, Thrown.message]
    by_cases ht : res.text = "" <;> simp [strOr, ht]
  · intro k s
    simp [fetchBookingsDone, fetchBookingsTry, hok]

/-- C8 is violated by `fetchItineraries` and `fetchFeedback`, which never read `res.ok`: a
response with status 500 whose body is a JSON array is committed as the collection and no error
is raised. -/
theorem fetchItineraries_commits_error_body :
    errorArrayResponse.ok = false ∧
    fetchItinerariesDone (.responded errorArrayResponse)
        ItinerariesState.initial
      = ({ ItinerariesState.initial with itineraries := [pendingBooking] }, []) ∧
    fetchFeedbackDone (.responded errorArrayResponse)
        FeedbackState.initial
      = ({ FeedbackState.initial with feedbackList := [pendingBooking] }, []) :=
  ⟨rfl, rfl, rfl⟩

/-- A string that starts with a non-empty string is not empty. -/
theorem append_ne_empty (a b : String) (h : a ≠ "") : a ++ b ≠ "" := by
  intro hab
  apply h
  have hd := congrArg String.data hab
  rw [String.data_append] at hd
  have ha : a.data = [] := (List.append_eq_nil.mp hd).1
  exact String.ext ha

/-- The generic message of `fetchBookings` is not empty. -/
theorem genericFetchMessage_ne_empty (status : Nat) :
    "Failed to fetch bookings: " ++ toString status ≠ "" :=
  append_ne_empty _ _ (by decide)

/-- The expression `s || fallback` is not empty when the fallback is not. -/
theorem strOr_ne_empty (s fallback : String) (h : fallback ≠ "") : strOr s fallback ≠ "" := by
  unfold strOr
  split
  · exact h
  · assumption

/-- C9, as the code has it: after a non-success response `fetchBookings` stores the `message` of
a JSON body when that is a non-empty string; the status text when the body is not JSON and the
status text is not empty; the generic message with the status code when the body is JSON, not
`null`, with a missing or falsy `message`, or is not JSON with an empty status text.  In every
case the stored message is a non-empty string. -/
theorem fetchBookings_error_message (k : String) (res : Response) (s : BookingsState)
    (hok : res.ok = false) :
    (∀ v m, res.parsed = .ok v → v.getProp "message" = .ok (.str m) → m ≠ "" →
      (fetchBookingsDone k (.responded res) s).error = some m) ∧
    (∀ e, res.parsed = .error e → res.statusText ≠ "" →
      (fetchBookingsDone k (.responded res) s).error = some res.statusText) ∧
    (∀ v w, res.parsed = .ok v → v.getProp "message" = .ok w → w.truthy = false →
      (fetchBookingsDone k (.responded res) s).error
        = some ("Failed to fetch bookings: " ++ toString res.status)) ∧
    (∀ e, res.parsed = .error e → res.statusText = "" →
      (fetchBookingsDone k (.responded res) s).error
        = some ("Failed to fetch bookings: " ++ toString res.status)) ∧
    (∃ m, (fetchBookingsDone k (.responded res) s).error = some m ∧ m ≠ "") := by
  have hg := genericFetchMessage_ne_empty res.status
  refine ⟨?_, ?_, ?_, ?_, ?_⟩
  · intro v m hv hm hne
    simp [fetchBookingsDone, fetchBookingsTry, hok, errorFromBody, hv, hm, JVal.or, JVal.truthy,
      hne, JVal.toStr, Thrown.message, strOr]
  · intro e he hne
    simp [fetchBookingsDone, fetchBookingsTry, hok, errorFromBody, he, JVal.getProp, lookupField,
      JVal.or, JVal.truthy, hne, JVal.toStr, Thrown.message, strOr]
  · intro v w hv hw hf
    simp [fetchBookingsDone, fetchBookingsTry, hok, errorFromBody, hv, hw, JVal.or, hf,
      JVal.toStr, Thrown.message, strOr, hg]
  · intro e he hempty
    simp [fetchBookingsDone, fetchBookingsTry, hok, errorFromBody, he, JVal.getProp, lookupField,
      JVal.or, JVal.truthy, hempty, JVal.toStr, Thrown.message, strOr, hg]
  · refine ⟨strOr (errorFromBody res ("Failed to fetch bookings: " ++ toString res.status)).message
      "Failed to fetch bookings. Please try again.", ?_, strOr_ne_empty _ _ (by decide)⟩
    simp only [fetchBookingsDone, fetchBookingsTry, hok, Bool.not_false, if_true]


/-- One response for each case of C9. -/
theorem fetchBookings_error_message_witness :
    (fetchBookingsDone "All"
        (.responded notFoundResponse)
        BookingsState.initial).error = some "No bookings" ∧
    (fetchBookingsDone "All" (.responded (textResponse 503 "Service Unavailable" "down"))
        BookingsState.initial).error = some "Service Unavailable" ∧
    (fetchBookingsDone "All" (.responded emptyObjectErrorResponse)
        BookingsState.initial).error = some "Failed to fetch bookings: 500" ∧
    (fetchBookingsDone "All" (.responded (textResponse 500 "" "down"))
        BookingsState.initial).error = some "Failed to fetch bookings: 500" :=
  ⟨(fetchBookings_error_message "All"
      notFoundResponse BookingsState.initial rfl).1 _ _ rfl rfl (by decide),
   (fetchBookings_error_message "All" (textResponse 503 "Service Unavailable" "down")
      BookingsState.initial rfl).2.1 _ rfl (by decide),
   (fetchBookings_error_message "All" emptyObjectErrorResponse
      BookingsState.initial rfl).2.2.1 _ _ rfl rfl rfl,
   (fetchBookings_error_message "All" (textResponse 500 "" "down")
      BookingsState.initial rfl).2.2.2.1 _ rfl rfl⟩

/-- C9 fails as stated: a 500 response whose JSON body is `null` stores the message of the
TypeError raised by reading `message` of `null`, and one whose `message` is an empty array stores
the second generic message of the catch block; neither is the generic message with the status
code. -/
theorem fetchBookings_error_message_of_null_body :
    (fetchBookingsDone "All" (.responded nullBodyErrorResponse)
        BookingsState.initial).error
      = some "Cannot read property message of null or undefined" ∧
    (fetchBookingsDone "All" (.responded nullBodyErrorResponse)
        BookingsState.initial).error
      ≠ some "Failed to fetch bookings: 500" ∧
    (fetchBookingsDone "All"
        (.responded arrayMessageErrorResponse)
        BookingsState.initial).error
      = some "Failed to fetch bookings. Please try again." ∧
    (fetchBookingsDone "All"
        (.responded arrayMessageErrorResponse)
        BookingsState.initial).error
      ≠ some "Failed to fetch bookings: 500" := by
  refine ⟨rfl, ?_, rfl, ?_⟩
  · rw [show (fetchBookingsDone "All" (.responded nullBodyErrorResponse)
        BookingsState.initial).error
      = some "Cannot read property message of null or undefined" from rfl]
    decide
  · rw [show (fetchBookingsDone "All"
        (.responded arrayMessageErrorResponse)
        BookingsState.initial).error
      = some "Failed to fetch bookings. Please try again." from rfl]
    decide

/-- The three ways a load fails. -/
theorem Outcome.failed_cases (o : Outcome) (h : o.failed = true) :
    (∃ e, o = .rejected e) ∨
    (∃ res, o = .responded res ∧ res.ok = false) ∨
    (∃ res m, o = .responded res ∧ res.ok = true ∧ res.parsed = .error m) := by
  cases o with
  | rejected e => exact Or.inl ⟨e, rfl⟩
  | responded res =>
    right
    cases hok : res.ok with
    | false => exact Or.inl ⟨res, rfl, hok⟩
    | true =>
      right
      cases hp : res.parsed with
      | error m => exact ⟨res, m, rfl, hok, hp⟩
      | ok v => simp [Outcome.failed, hok, hp] at h

/-- A failed detail load makes the `try` block of `handleView` throw. -/
theorem handleViewTry_of_failed (o : Outcome) (h : o.failed = true) :
    ∃ e, handleViewTry o = .error e := by
  rcases Outcome.failed_cases o h with ⟨e, rfl⟩ | ⟨res, rfl, hok⟩ | ⟨res, m, rfl, hok, hp⟩
  · exact ⟨e, rfl⟩
  · exact ⟨errorFromBody res ("Failed to load details: " ++ toString res.status),
      by simp [handleViewTry, hok]⟩
  · exact ⟨.syntaxError m, by simp [handleViewTry, hok, Response.json, hp]⟩

/-- A failed detail load makes the `try` block of `fetchRequestDetails` throw. -/
theorem fetchRequestDetailsTry_of_failed (o : Outcome) (h : o.failed = true) :
    ∃ e, fetchRequestDetailsTry o = .error e := by
  rcases Outcome.failed_cases o h with ⟨e, rfl⟩ | ⟨res, rfl, hok⟩ | ⟨res, m, rfl, hok, hp⟩
  · exact ⟨e, rfl⟩
  · exact ⟨.error ("HTTP error! status: " ++ toString res.status),
      by simp [fetchRequestDetailsTry, hok]⟩
  · exact ⟨.syntaxError m, by simp [fetchRequestDetailsTry, hok, Response.json, hp]⟩

/-- A failed detail load makes the `try` block of `fetchPartnerDetails` throw. -/
theorem fetchPartnerDetailsTry_of_failed (o : Outcome) (h : o.failed = true) :
    ∃ e, fetchPartnerDetailsTry o = .error e := by
  rcases Outcome.failed_cases o h with ⟨e, rfl⟩ | ⟨res, rfl, hok⟩ | ⟨res, m, rfl, hok, hp⟩
  · exact ⟨e, rfl⟩
  · exact ⟨.error "Failed to fetch partner details", by simp [fetchPartnerDetailsTry, hok]⟩
  · exact ⟨.syntaxError m, by simp [fetchPartnerDetailsTry, hok, Response.json, hp]⟩

/-- C10, as the code has it: after a failed detail load (rejected request, non-success status or
unparsable body) Bookings `handleView` leaves the viewed record and the edit draft as they were;
ItineraryRequests `fetchRequestDetails` and Partners `fetchPartnerDetails` set the viewed record
to `null` and leave the update and edit modal state as it was.  In all three an alert is raised
and no record is opened, so from no modal none opens. -/
theorem detail_load_failure (o : Outcome) (h : o.failed = true) :
    (∀ s : BookingsState,
      (handleViewDone o s).1.view = s.view ∧
      (handleViewDone o s).1.editBooking = s.editBooking ∧
      (handleViewDone o s).2 ≠ []) ∧
    (∀ s : RequestsState,
      (fetchRequestDetailsDone o s).1.view = .null ∧
      (fetchRequestDetailsDone o s).1.updateModalVisible = s.updateModalVisible ∧
      (fetchRequestDetailsDone o s).1.updateStatus = s.updateStatus ∧
      (fetchRequestDetailsDone o s).2 ≠ []) ∧
    (∀ s : PartnersState,
      (fetchPartnerDetailsDone o s).1.viewPartner = .null ∧
      (fetchPartnerDetailsDone o s).1.editPartner = s.editPartner ∧
      (fetchPartnerDetailsDone o s).1.editForm = s.editForm ∧
      (fetchPartnerDetailsDone o s).2 ≠ []) := by
  obtain ⟨e1, h1⟩ := handleViewTry_of_failed o h
  obtain ⟨e2, h2⟩ := fetchRequestDetailsTry_of_failed o h
  obtain ⟨e3, h3⟩ := fetchPartnerDetailsTry_of_failed o h
  refine ⟨?_, ?_, ?_⟩
  · intro s
    simp [handleViewDone, h1]
  · intro s
    simp [fetchRequestDetailsDone, h2]
  · intro s
    simp [fetchPartnerDetailsDone, h3]

/-- A network failure while a request is being viewed, in the three screens. -/
theorem detail_load_failure_witness :
    networkFailure.failed = true ∧
    (handleViewDone networkFailure { BookingsState.initial with view := viewedRequest }).1.view
      = viewedRequest ∧
    (fetchRequestDetailsDone networkFailure
        { RequestsState.initial with view := viewedRequest }).1.view = .null ∧
    (fetchPartnerDetailsDone networkFailure
        { PartnersState.initial with viewPartner := viewedRequest }).1.viewPartner = .null :=
  have h := detail_load_failure networkFailure rfl
  ⟨rfl, (h.1 _).1, (h.2.1 _).1, (h.2.2 _).1⟩

/-- C10 fails as stated: a network failure of `fetchRequestDetails` (and of
`fetchPartnerDetails`) while a record is viewed clears the viewed record. -/
theorem detail_load_failure_clears_view :
    networkFailure.failed = true ∧
    (fetchRequestDetailsDone networkFailure
        { RequestsState.initial with view := viewedRequest }).1.view = .null ∧
    (fetchRequestDetailsDone networkFailure
        { RequestsState.initial with view := viewedRequest }).1.view ≠ viewedRequest ∧
    (fetchPartnerDetailsDone networkFailure
        { PartnersState.initial with viewPartner := viewedRequest }).1.viewPartner
      ≠ viewedRequest := by
  refine ⟨rfl, rfl, ?_, ?_⟩
  · intro h
    cases h
  · intro h
    cases h


/-- An empty or missing value is falsy. -/
theorem truthy_of_isEmptyOrMissing (v : JVal) (h : isEmptyOrMissing v = true) :
    v.truthy = false := by
  cases v with
  | undefined => rfl
  | null => rfl
  | str s =>
    have hs : s = "" := by simpa [isEmptyOrMissing] using h
    subst hs
    rfl
  | bool _ => simp [isEmptyOrMissing] at h
  | num _ => simp [isEmptyOrMissing] at h
  | arr _ => simp [isEmptyOrMissing] at h
  | obj _ => simp [isEmptyOrMissing] at h

/-- The guard of the two itinerary validations holds when a required field is empty or
missing. -/
theorem itineraryGuard_of_empty (d : JVal)
    (h : isEmptyOrMissing (d.getOpt "name") = true ∨
      isEmptyOrMissing (d.getOpt "durationDays") = true ∨
      isEmptyOrMissing (d.getOpt "status") = true) :
    (!(d.getOpt "name").truthy || !(d.getOpt "durationDays").truthy
      || !(d.getOpt "status").truthy) = true := by
  rcases h with h | h | h
  · simp [truthy_of_isEmptyOrMissing _ h]
  · simp [truthy_of_isEmptyOrMissing _ h]
  · simp [truthy_of_isEmptyOrMissing _ h]

/-- C11: when `name`, `durationDays` or `status` of the draft is empty or missing,
`handleAddNewItinerary` and `handleSaveEdit` issue no request and write no state cell (draft,
modal and collection stay as they were); the add handler raises the validation alert, and so
does the edit handler on every draft that is an object. -/
theorem itinerary_validation_blocks_request (number : JVal → JVal) (s : ItinerariesState) :
    (isEmptyOrMissing (s.add.getOpt "name") = true ∨
      isEmptyOrMissing (s.add.getOpt "durationDays") = true ∨
      isEmptyOrMissing (s.add.getOpt "status") = true →
        Itineraries.handleAddNewItinerary number s = [.alert Itineraries.validationAlert] ∧
        requestsOf (Itineraries.handleAddNewItinerary number s) = [] ∧
        applyWrites Itineraries.Write.apply (Itineraries.handleAddNewItinerary number s) s = s) ∧
    (isEmptyOrMissing (s.edit.getOpt "name") = true ∨
      isEmptyOrMissing (s.edit.getOpt "durationDays") = true ∨
      isEmptyOrMissing (s.edit.getOpt "status") = true →
        requestsOf (Itineraries.handleSaveEdit number s) = [] ∧
        applyWrites Itineraries.Write.apply (Itineraries.handleSaveEdit number s) s = s ∧
        (∀ draft, s.edit = .obj draft →
          Itineraries.handleSaveEdit number s = [.alert Itineraries.validationAlert])) := by
  constructor
  · intro h
    have hg := itineraryGuard_of_empty s.add h
    have ht : Itineraries.handleAddNewItinerary number s
        = [.alert Itineraries.validationAlert] := by
      unfold Itineraries.handleAddNewItinerary
      rw [if_pos hg]
    rw [ht]
    exact ⟨rfl, rfl, rfl⟩
  · intro h
    have hg := itineraryGuard_of_empty s.edit h
    cases hp : s.edit.getProp "name" with
    | error e =>
      have ht : Itineraries.handleSaveEdit number s = [.throw e] := by
        unfold Itineraries.handleSaveEdit
        rw [hp]
      rw [ht]
      exact ⟨rfl, rfl, fun draft hd => by rw [hd] at hp; cases hp⟩
    | ok v =>
      have ht : Itineraries.handleSaveEdit number s
          = [.alert Itineraries.validationAlert] := by
        unfold Itineraries.handleSaveEdit
        rw [hp]
        dsimp only
        rw [if_pos hg]
      rw [ht]
      exact ⟨rfl, rfl, fun _ _ => rfl⟩

/-- An add draft without a name and an edit draft with an empty name. -/
theorem itinerary_validation_blocks_request_witness :
    isEmptyOrMissing (namelessDraft.getOpt "name") = true ∧
    requestsOf (Itineraries.handleAddNewItinerary (fun v => v)
      { ItinerariesState.initial with add := namelessDraft }) = [] ∧
    applyWrites Itineraries.Write.apply
      (Itineraries.handleAddNewItinerary (fun v => v)
        { ItinerariesState.initial with add := namelessDraft })
      { ItinerariesState.initial with add := namelessDraft }
      = { ItinerariesState.initial with add := namelessDraft } ∧
    isEmptyOrMissing (clearedNameDraft.getOpt "name") = true ∧
    Itineraries.handleSaveEdit (fun v => v)
      { ItinerariesState.initial with edit := clearedNameDraft }
      = [.alert Itineraries.validationAlert] :=
  ⟨rfl,
   ((itinerary_validation_blocks_request (fun v => v)
      { ItinerariesState.initial with add := namelessDraft }).1 (Or.inl rfl)).2.1,
   ((itinerary_validation_blocks_request (fun v => v)
      { ItinerariesState.initial with add := namelessDraft }).1 (Or.inl rfl)).2.2,
   rfl,
   ((itinerary_validation_blocks_request (fun v => v)
      { ItinerariesState.initial with edit := clearedNameDraft }).2 (Or.inl rfl)).2.2 _ rfl⟩

/-- A text of white space only trims to the empty string. -/
theorem jsTrim_of_whitespaceOnly (n : String) (h : whitespaceOnly n = true) : jsTrim n = "" := by
  unfold whitespaceOnly at h
  have hd : n.data.dropWhile isJsWhitespace = [] := by
    rw [List.dropWhile_eq_nil_iff]
    intro x hx
    exact List.all_eq_true.mp h x hx
  unfold jsTrim
  rw [hd]
  rfl

/-- The validation test holds on a text of white space only. -/
theorem trimIsEmpty_of_whitespaceOnly (n : String) (h : whitespaceOnly n = true) :
    trimIsEmpty (.str n) = .ok true := by
  simp [trimIsEmpty, jsTrim_of_whitespaceOnly n h]

/-- C12: when the `Name` of the location form is empty or white space only,
`handleSaveLocation` raises the validation alert and does nothing else, whether the form is an
edit or an add: no request is issued and no state cell is written (form, modal visibility,
saving flag and collection stay as they were). -/
theorem location_validation_blocks_request (s : LocationsState) (n : String)
    (hn : s.form.Name = .str n) (hw : whitespaceOnly n = true) :
    Locations.handleSaveLocation s
      = [.alert { title := "Validation Error", message := "Name is required." }] ∧
    requestsOf (Locations.handleSaveLocation s) = [] ∧
    applyWrites Locations.Write.apply (Locations.handleSaveLocation s) s = s := by
  have ht : Locations.handleSaveLocation s
      = [.alert { title := "Validation Error", message := "Name is required." }] := by
    unfold Locations.handleSaveLocation
    rw [hn, trimIsEmpty_of_whitespaceOnly n hw]
  rw [ht]
  exact ⟨rfl, rfl, rfl⟩

/-- An edit form whose name is two spaces and a tab. -/
theorem location_validation_blocks_request_witness :
    whitespaceOnly "  \t" = true ∧
    requestsOf (Locations.handleSaveLocation
      { LocationsState.initial with
        modalVisible := true, isEditing := true,
        form := { Id := .num 4, Name := .str "  \t", Description := .str "Hill town" } }) = [] :=
  ⟨by decide,
   (location_validation_blocks_request
      { LocationsState.initial with
        modalVisible := true, isEditing := true,
        form := { Id := .num 4, Name := .str "  \t", Description := .str "Hill town" } }
      "  \t" rfl (by decide)).2.1⟩


/-- C13: `saveEditPartner` does nothing when no partner is being edited; and when the
`FullName` or the `EmailAddress` of the edit form is empty or white space only, it issues no
request and writes no state cell (form, both modals, saving flag and collection stay as they
were).  With a partner being edited and a blank full name it raises the 'Full Name' alert. -/
theorem partner_validation_blocks_request (s : PartnersState) :
    (s.editPartner.truthy = false → Partners.saveEditPartner s = []) ∧
    ((∃ f, s.editForm.FullName = .str f ∧ whitespaceOnly f = true) ∨
      (∃ e, s.editForm.EmailAddress = .str e ∧ whitespaceOnly e = true) →
        requestsOf (Partners.saveEditPartner s) = [] ∧
        applyWrites Partners.Write.apply (Partners.saveEditPartner s) s = s) ∧
    (s.editPartner.truthy = true →
      ∀ f, s.editForm.FullName = .str f → whitespaceOnly f = true →
        Partners.saveEditPartner s
          = [.alert { title := "Validation Error", message := "Full Name is required." }]) := by
  refine ⟨?_, ?_, ?_⟩
  · intro h
    simp [Partners.saveEditPartner, h]
  · intro h
    unfold Partners.saveEditPartner
    by_cases hp : s.editPartner.truthy = true
    · simp only [hp, Bool.not_true, Bool.false_eq_true, if_false]
      cases hf : trimIsEmpty s.editForm.FullName with
      | error e => exact ⟨rfl, rfl⟩
      | ok b =>
        cases b with
        | true => exact ⟨rfl, rfl⟩
        | false =>
          cases he : trimIsEmpty s.editForm.EmailAddress with
          | error e => exact ⟨rfl, rfl⟩
          | ok c =>
            cases c with
            | true => exact ⟨rfl, rfl⟩
            | false =>
              rcases h with ⟨f, hF, hw⟩ | ⟨e, hE, hw⟩
              · rw [hF, trimIsEmpty_of_whitespaceOnly f hw] at hf
                cases hf
              · rw [hE, trimIsEmpty_of_whitespaceOnly e hw] at he
                cases he
    · simp only [Bool.not_eq_true] at hp
      simp only [hp, Bool.not_false, if_true]
      exact ⟨rfl, rfl⟩
  · intro hp f hF hw
    unfold Partners.saveEditPartner
    simp only [hp, Bool.not_true, Bool.false_eq_true, if_false]
    rw [hF, trimIsEmpty_of_whitespaceOnly f hw]

/-- A form with a blank email address, and the handler with no partner being edited. -/
theorem partner_validation_blocks_request_witness :
    whitespaceOnly " " = true ∧
    requestsOf (Partners.saveEditPartner
      { PartnersState.initial with
        viewPartner := viewedPartner, editPartner := viewedPartner,
        editForm := blankEmailForm }) = [] ∧
    Partners.saveEditPartner PartnersState.initial = [] :=
  ⟨by decide,
   ((partner_validation_blocks_request
      { PartnersState.initial with
        viewPartner := viewedPartner, editPartner := viewedPartner,
        editForm := blankEmailForm }).2.1 (Or.inr ⟨" ", rfl, by decide⟩)).1,
   (partner_validation_blocks_request PartnersState.initial).1 rfl⟩


/-- The effect sequence of `saveEditBooking` gives the state and the alerts of
`saveEditBookingDone`. -/
theorem saveEditBookingDoneEffects_agrees (o : Outcome) (s : BookingsState) :
    applyWrites Bookings.Write.apply (Bookings.saveEditBookingDoneEffects o) s
      = (saveEditBookingDone o s).1 ∧
    alertsOf (Bookings.saveEditBookingDoneEffects o) = (saveEditBookingDone o s).2 := by
  unfold Bookings.saveEditBookingDoneEffects saveEditBookingDone
  cases saveEditBookingTry o with
  | none => exact ⟨rfl, rfl⟩
  | some e => exact ⟨rfl, rfl⟩

/-- A succeeded mutation is a response with a success status. -/
theorem Outcome.succeeded_cases (o : Outcome) (h : o.succeeded = true) :
    ∃ res, o = .responded res ∧ res.ok = true := by
  cases o with
  | rejected e => cases h
  | responded res => exact ⟨res, rfl, h⟩

/-- A failed mutation is a rejection or a response without a success status. -/
theorem Outcome.mutationFailed_cases (o : Outcome) (h : o.mutationFailed = true) :
    (∃ e, o = .rejected e) ∨ (∃ res, o = .responded res ∧ res.ok = false) := by
  cases o with
  | rejected e => exact Or.inl ⟨e, rfl⟩
  | responded res =>
    right
    refine ⟨res, rfl, ?_⟩
    simpa [Outcome.mutationFailed] using h

/-- C14, as the code has it: after a successful mutation, Bookings `saveEditBooking`,
Itineraries add and edit, Users `handleSave`, Locations save and delete, Partners
`saveEditPartner` and `updatePartnerStatus` and ItineraryRequests `handleMarkAsReviewed` issue
exactly one request, the list GET, and the writes that come before it have already cleared the
draft and closed the modal. -/
theorem modal_closed_before_refetch (o : Outcome) (h : o.succeeded = true) :
    (∀ s : BookingsState,
      requestsOf (Bookings.saveEditBookingDoneEffects o) = [Bookings.listRequest] ∧
      (applyWrites Bookings.Write.apply
        (beforeFirstRequest (Bookings.saveEditBookingDoneEffects o)) s).editBooking = .null) ∧
    (∀ s : ItinerariesState,
      requestsOf (Itineraries.handleAddNewItineraryDone o) = [Itineraries.listRequest] ∧
      (applyWrites Itineraries.Write.apply
        (beforeFirstRequest (Itineraries.handleAddNewItineraryDone o)) s).add = .null) ∧
    (∀ s : ItinerariesState,
      requestsOf (Itineraries.handleSaveEditDone o) = [Itineraries.listRequest] ∧
      (applyWrites Itineraries.Write.apply
        (beforeFirstRequest (Itineraries.handleSaveEditDone o)) s).edit = .null) ∧
    (∀ s : UsersState,
      requestsOf (Users.handleSaveDone o) = [Users.listRequest] ∧
      (applyWrites Users.Write.apply
        (beforeFirstRequest (Users.handleSaveDone o)) s).edit = .null) ∧
    (∀ (isEditing : Bool) (s : LocationsState),
      requestsOf (Locations.handleSaveLocationDone isEditing o) = [Locations.listRequest] ∧
      (applyWrites Locations.Write.apply
        (beforeFirstRequest (Locations.handleSaveLocationDone isEditing o)) s).modalVisible
          = false ∧
      (applyWrites Locations.Write.apply
        (beforeFirstRequest (Locations.handleSaveLocationDone isEditing o)) s).form
          = Locations.blankForm) ∧
    (∀ s : LocationsState,
      requestsOf (Locations.handleDeleteLocationDone o) = [Locations.listRequest] ∧
      (applyWrites Locations.Write.apply
        (beforeFirstRequest (Locations.handleDeleteLocationDone o)) s).modalVisible = false ∧
      (applyWrites Locations.Write.apply
        (beforeFirstRequest (Locations.handleDeleteLocationDone o)) s).form
          = Locations.blankForm) ∧
    (∀ s : PartnersState,
      requestsOf (Partners.saveEditPartnerDone o) = [Partners.listRequest] ∧
      (applyWrites Partners.Write.apply
        (beforeFirstRequest (Partners.saveEditPartnerDone o)) s).editPartner = .null ∧
      (applyWrites Partners.Write.apply
        (beforeFirstRequest (Partners.saveEditPartnerDone o)) s).viewPartner = .null) ∧
    (∀ (newStatus : JVal) (s : PartnersState),
      requestsOf (Partners.updatePartnerStatusDone newStatus o) = [Partners.listRequest] ∧
      (applyWrites Partners.Write.apply
        (beforeFirstRequest (Partners.updatePartnerStatusDone newStatus o)) s).viewPartner
          = .null) ∧
    (∀ (view : JVal) (s : RequestsState),
      requestsOf (Requests.handleMarkAsReviewedDone view o) = [Requests.listRequest] ∧
      (applyWrites Requests.Write.apply
        (beforeFirstRequest (Requests.handleMarkAsReviewedDone view o)) s).view = .null) := by
  obtain ⟨res, rfl, hok⟩ := Outcome.succeeded_cases o h
  have h1 : saveEditBookingTry (.responded res) = none := by
    simp [saveEditBookingTry, hok]
  have h2 : ∀ m, failureOf m (.responded res) = none := by
    intro m
    simp [failureOf, hok]
  have h3 : ∀ m, failureOfText m (.responded res) = none := by
    intro m
    simp [failureOfText, hok]
  refine ⟨?_, ?_, ?_, ?_, ?_, ?_, ?_, ?_, ?_⟩
  · intro s
    simp only [Bookings.saveEditBookingDoneEffects, h1]
    exact ⟨rfl, rfl⟩
  · intro s
    simp only [Itineraries.handleAddNewItineraryDone, h2]
    exact ⟨rfl, rfl⟩
  · intro s
    simp only [Itineraries.handleSaveEditDone, h2]
    exact ⟨rfl, rfl⟩
  · intro s
    simp only [Users.handleSaveDone, h2]
    exact ⟨rfl, rfl⟩
  · intro isEditing s
    simp only [Locations.handleSaveLocationDone, h3]
    exact ⟨rfl, rfl, rfl⟩
  · intro s
    simp only [Locations.handleDeleteLocationDone, h3]
    exact ⟨rfl, rfl, rfl⟩
  · intro s
    simp only [Partners.saveEditPartnerDone, h3]
    exact ⟨rfl, rfl, rfl⟩
  · intro newStatus s
    simp only [Partners.updatePartnerStatusDone, hok, if_true]
    exact ⟨rfl, rfl⟩
  · intro view s
    simp only [Requests.handleMarkAsReviewedDone, h3]
    exact ⟨rfl, rfl⟩

/-- A status update answered with 204, in Bookings and in Locations. -/
theorem modal_closed_before_refetch_witness :
    (Outcome.responded noContentResponse).succeeded = true ∧
    requestsOf (Bookings.saveEditBookingDoneEffects (.responded noContentResponse))
      = [Bookings.listRequest] ∧
    (applyWrites Bookings.Write.apply
      (beforeFirstRequest (Bookings.saveEditBookingDoneEffects (.responded noContentResponse)))
      { BookingsState.initial with editBooking := clearedNameDraft }).editBooking = .null ∧
    (applyWrites Locations.Write.apply
      (beforeFirstRequest (Locations.handleSaveLocationDone true (.responded noContentResponse)))
      { LocationsState.initial with modalVisible := true, isEditing := true }).modalVisible
        = false :=
  have h := modal_closed_before_refetch (.responded noContentResponse) rfl
  ⟨rfl, (h.1 BookingsState.initial).1, (h.1 _).2, (h.2.2.2.2.1 true _).2.1⟩

/-- C14 fails as stated for Itineraries delete: with the edit draft of itinerary 5 captured and
the DELETE of itinerary 5 answered with 204, the handler alerts, starts `fetchItineraries`
(loading flag, list GET) and only then clears the draft; when the list GET is issued the draft
is still set. -/
theorem itinerary_delete_refetches_before_closing :
    (Outcome.responded noContentResponse).succeeded = true ∧
    Itineraries.handleDeleteDone (.num 5) clearedNameDraft .null (.responded noContentResponse)
      = [.alert { title := "Success", message := "Itinerary deleted." },
         .write (.setLoading true), .request Itineraries.listRequest,
         .write (.setEdit .null)] ∧
    (applyWrites Itineraries.Write.apply
      (beforeFirstRequest (Itineraries.handleDeleteDone (.num 5) clearedNameDraft .null
        (.responded noContentResponse)))
      { ItinerariesState.initial with edit := clearedNameDraft }).edit = clearedNameDraft ∧
    (applyWrites Itineraries.Write.apply
      (beforeFirstRequest (Itineraries.handleDeleteDone (.num 5) clearedNameDraft .null
        (.responded noContentResponse)))
      { ItinerariesState.initial with edit := clearedNameDraft }).edit ≠ .null := by
  refine ⟨rfl, rfl, rfl, ?_⟩
  intro h
  cases h


/-- A failed mutation makes the `try` block of `saveEditBooking` throw. -/
theorem saveEditBookingTry_of_failed (o : Outcome) (h : o.mutationFailed = true) :
    ∃ e, saveEditBookingTry o = some e := by
  rcases Outcome.mutationFailed_cases o h with ⟨e, rfl⟩ | ⟨res, rfl, hok⟩
  · exact ⟨e, rfl⟩
  · exact ⟨errorFromBody res ("Status update failed: " ++ toString res.status),
      by simp [saveEditBookingTry, hok]⟩

/-- A failed mutation reaches the `catch` of a handler that throws a fixed message. -/
theorem failureOf_of_failed (m : String) (o : Outcome) (h : o.mutationFailed = true) :
    ∃ e, failureOf m o = some e := by
  rcases Outcome.mutationFailed_cases o h with ⟨e, rfl⟩ | ⟨res, rfl, hok⟩
  · exact ⟨e, rfl⟩
  · exact ⟨.error m, by simp [failureOf, hok]⟩

/-- A failed mutation reaches the `catch` of a handler that throws the response text. -/
theorem failureOfText_of_failed (m : String) (o : Outcome) (h : o.mutationFailed = true) :
    ∃ e, failureOfText m o = some e := by
  rcases Outcome.mutationFailed_cases o h with ⟨e, rfl⟩ | ⟨res, rfl, hok⟩
  · exact ⟨e, rfl⟩
  · exact ⟨.error (strOr res.text m), by simp [failureOfText, hok]⟩

/-- C15: after a failed mutation (rejected request or non-success status) in Bookings
`saveEditBooking`, Users `handleSave`, Itineraries add and edit, Locations
`handleSaveLocation` and Partners `saveEditPartner` and `updatePartnerStatus`, no request is
issued (so no list re-fetch), and the draft, the modal cells and the collection are what they
were before. -/
theorem failed_mutation_keeps_draft (o : Outcome) (h : o.mutationFailed = true) :
    (∀ s : BookingsState,
      requestsOf (Bookings.saveEditBookingDoneEffects o) = [] ∧
      (applyWrites Bookings.Write.apply (Bookings.saveEditBookingDoneEffects o) s).editBooking
        = s.editBooking ∧
      (applyWrites Bookings.Write.apply (Bookings.saveEditBookingDoneEffects o) s).view
        = s.view ∧
      (applyWrites Bookings.Write.apply (Bookings.saveEditBookingDoneEffects o) s).bookings
        = s.bookings ∧
      (applyWrites Bookings.Write.apply
        (Bookings.saveEditBookingDoneEffects o) s).filteredBookings = s.filteredBookings) ∧
    (∀ s : UsersState,
      requestsOf (Users.handleSaveDone o) = [] ∧
      applyWrites Users.Write.apply (Users.handleSaveDone o) s = s) ∧
    (∀ s : ItinerariesState,
      requestsOf (Itineraries.handleAddNewItineraryDone o) = [] ∧
      applyWrites Itineraries.Write.apply (Itineraries.handleAddNewItineraryDone o) s = s) ∧
    (∀ s : ItinerariesState,
      requestsOf (Itineraries.handleSaveEditDone o) = [] ∧
      applyWrites Itineraries.Write.apply (Itineraries.handleSaveEditDone o) s = s) ∧
    (∀ (isEditing : Bool) (s : LocationsState),
      requestsOf (Locations.handleSaveLocationDone isEditing o) = [] ∧
      applyWrites Locations.Write.apply (Locations.handleSaveLocationDone isEditing o) s
        = { s with saving := false }) ∧
    (∀ s : PartnersState,
      requestsOf (Partners.saveEditPartnerDone o) = [] ∧
      applyWrites Partners.Write.apply (Partners.saveEditPartnerDone o) s
        = { s with editSaving := false }) ∧
    (∀ (newStatus : JVal) (s : PartnersState),
      requestsOf (Partners.updatePartnerStatusDone newStatus o) = [] ∧
      applyWrites Partners.Write.apply (Partners.updatePartnerStatusDone newStatus o) s
        = { s with statusUpdating := false }) := by
  obtain ⟨e1, h1⟩ := saveEditBookingTry_of_failed o h
  have h2 := fun m => failureOf_of_failed m o h
  have h3 := fun m => failureOfText_of_failed m o h
  refine ⟨?_, ?_, ?_, ?_, ?_, ?_, ?_⟩
  · intro s
    simp only [Bookings.saveEditBookingDoneEffects, h1]
    exact ⟨rfl, rfl, rfl, rfl, rfl⟩
  · intro s
    obtain ⟨e, he⟩ := h2 "Update failed"
    simp only [Users.handleSaveDone, he]
    exact ⟨rfl, rfl⟩
  · intro s
    obtain ⟨e, he⟩ := h2 "Failed to create itinerary."
    simp only [Itineraries.handleAddNewItineraryDone, he]
    exact ⟨rfl, rfl⟩
  · intro s
    obtain ⟨e, he⟩ := h2 "Failed to save itinerary."
    simp only [Itineraries.handleSaveEditDone, he]
    exact ⟨rfl, rfl⟩
  · intro isEditing s
    obtain ⟨e, he⟩ := h3 (if isEditing then "Failed to update location"
      else "Failed to create location")
    simp only [Locations.handleSaveLocationDone, he]
    exact ⟨rfl, rfl⟩
  · intro s
    obtain ⟨e, he⟩ := h3 "Failed to update application"
    simp only [Partners.saveEditPartnerDone, he]
    exact ⟨rfl, rfl⟩
  · intro newStatus s
    rcases Outcome.mutationFailed_cases o h with ⟨e, rfl⟩ | ⟨res, rfl, hok⟩
    · exact ⟨rfl, rfl⟩
    · simp only [Partners.updatePartnerStatusDone, hok, Bool.false_eq_true, if_false]
      exact ⟨rfl, rfl⟩

/-- A save answered with status 500, in Bookings, Users and Partners. -/
theorem failed_mutation_keeps_draft_witness :
    (Outcome.responded emptyObjectErrorResponse).mutationFailed = true ∧
    (applyWrites Bookings.Write.apply
      (Bookings.saveEditBookingDoneEffects (.responded emptyObjectErrorResponse))
      { BookingsState.initial with editBooking := clearedNameDraft }).editBooking
        = clearedNameDraft ∧
    applyWrites Users.Write.apply (Users.handleSaveDone (.responded emptyObjectErrorResponse))
      { UsersState.initial with edit := clearedNameDraft }
        = { UsersState.initial with edit := clearedNameDraft } ∧
    requestsOf (Partners.saveEditPartnerDone (.responded emptyObjectErrorResponse)) = [] :=
  have h := failed_mutation_keeps_draft (.responded emptyObjectErrorResponse) rfl
  ⟨rfl, (h.1 _).2.1, (h.2.1 _).2, (h.2.2.2.2.2.1 PartnersState.initial).1⟩


/-- In the Users screen only the 'Delete' button of the dialog issues a DELETE. -/
theorem users_delete_only_from_dialog (s : UsersState) (ev : Users.Event) (r : Request)
    (hr : r ∈ requestsOf (Users.effects s ev)) (hm : r.method = "DELETE") :
    ∃ userId, ev = .handleDeleteChoice .delete userId := by
  cases ev with
  | handleDeleteChoice choice userId =>
    cases choice with
    | cancel => simp [Users.effects, Users.handleDeleteChoice, requestsOf] at hr
    | delete => exact ⟨userId, rfl⟩
  | fetchStart =>
    simp [Users.effects, Users.fetchUsersStart, requestsOf, Users.listRequest] at hr
    rw [hr] at hm
    simp at hm
  | fetchDone o => simp [Users.effects, requestsOf] at hr
  | setStatusFilter k => simp [Users.effects, requestsOf] at hr
  | handleView user => simp [Users.effects, Users.handleView, requestsOf] at hr
  | closeView => simp [Users.effects, Users.closeView, requestsOf] at hr
  | handleEdit userId =>
    simp only [Users.effects, Users.handleEdit] at hr
    split at hr <;> simp [requestsOf] at hr
  | changeEdit key value => simp [Users.effects, Users.changeEdit, requestsOf] at hr
  | handleCancel => simp [Users.effects, Users.handleCancel, requestsOf] at hr
  | handleSave =>
    simp only [Users.effects, Users.handleSave] at hr
    split at hr
    · simp [requestsOf] at hr
    · simp [requestsOf] at hr
      rw [hr] at hm
      simp at hm
  | handleSaveDone o =>
    simp only [Users.effects, Users.handleSaveDone] at hr
    split at hr
    · simp [requestsOf, Users.fetchUsersStart, Users.listRequest] at hr
      rw [hr] at hm
      simp at hm
    · simp [requestsOf] at hr
  | handleDelete => simp [Users.effects, Users.handleDelete, requestsOf] at hr
  | handleDeleteDone o =>
    simp only [Users.effects, Users.handleDeleteDone] at hr
    split at hr
    · simp [requestsOf, Users.fetchUsersStart, Users.listRequest] at hr
      rw [hr] at hm
      simp at hm
    · simp [requestsOf] at hr


/-- In the Itineraries screen only the 'Delete' button of the dialog issues a DELETE. -/
theorem itineraries_delete_only_from_dialog (number : JVal → JVal) (s : ItinerariesState)
    (ev : Itineraries.Event) (r : Request)
    (hr : r ∈ requestsOf (Itineraries.effects number s ev)) (hm : r.method = "DELETE") :
    ∃ id, ev = .handleDeleteChoice .delete id := by
  cases ev with
  | handleDeleteChoice choice id =>
    cases choice with
    | cancel => simp [Itineraries.effects, Itineraries.handleDeleteChoice, requestsOf] at hr
    | delete => exact ⟨id, rfl⟩
  | fetchStart =>
    simp [Itineraries.effects, Itineraries.fetchItinerariesStart, requestsOf,
      Itineraries.listRequest] at hr
    rw [hr] at hm
    simp at hm
  | fetchDone o => simp [Itineraries.effects, requestsOf] at hr
  | handleEdit id =>
    simp only [Itineraries.effects, Itineraries.handleEdit] at hr
    split at hr
    · simp [requestsOf] at hr
    · split at hr <;> simp [requestsOf] at hr
  | changeEdit key value => simp [Itineraries.effects, Itineraries.changeEdit, requestsOf] at hr
  | cancelEdit => simp [Itineraries.effects, Itineraries.cancelEdit, requestsOf] at hr
  | openAdd => simp [Itineraries.effects, Itineraries.openAdd, requestsOf] at hr
  | changeAdd key value => simp [Itineraries.effects, Itineraries.changeAdd, requestsOf] at hr
  | cancelAdd => simp [Itineraries.effects, Itineraries.cancelAdd, requestsOf] at hr
  | handleAddNewItinerary =>
    simp only [Itineraries.effects, Itineraries.handleAddNewItinerary] at hr
    split at hr
    · simp [requestsOf] at hr
    · simp [requestsOf] at hr
      rw [hr] at hm
      simp at hm
  | handleAddNewItineraryDone o =>
    simp only [Itineraries.effects, Itineraries.handleAddNewItineraryDone] at hr
    split at hr
    · simp [requestsOf, Itineraries.fetchItinerariesStart, Itineraries.listRequest] at hr
      rw [hr] at hm
      simp at hm
    · simp [requestsOf] at hr
  | handleSaveEdit =>
    simp only [Itineraries.effects, Itineraries.handleSaveEdit] at hr
    split at hr
    · simp [requestsOf] at hr
    · split at hr
      · simp [requestsOf] at hr
      · simp [requestsOf] at hr
        rw [hr] at hm
        simp at hm
  | handleSaveEditDone o =>
    simp only [Itineraries.effects, Itineraries.handleSaveEditDone] at hr
    split at hr
    · simp [requestsOf, Itineraries.fetchItinerariesStart, Itineraries.listRequest] at hr
      rw [hr] at hm
      simp at hm
    · simp [requestsOf] at hr
  | handleDelete id => simp [Itineraries.effects, Itineraries.handleDelete, requestsOf] at hr
  | handleDeleteDone id edit view o =>
    simp only [Itineraries.effects, Itineraries.handleDeleteDone] at hr
    split at hr
    · have hq : requestsOf
          ([.alert { title := "Success", message := "Itinerary deleted." }]
            ++ Itineraries.fetchItinerariesStart
            ++ (if (edit.getOpt "id").strictEq id then [.write (.setEdit .null)] else [])
            ++ (if (view.getOpt "id").strictEq id then [.write (.setView .null)] else []))
          = [Itineraries.listRequest] := by
        cases (edit.getOpt "id").strictEq id <;> cases (view.getOpt "id").strictEq id <;> rfl
      rw [hq] at hr
      simp [Itineraries.listRequest] at hr
      rw [hr] at hm
      simp at hm
    · simp [requestsOf] at hr

/-- In the Locations screen only the 'Delete' button of the dialog issues a DELETE. -/
theorem locations_delete_only_from_dialog (s : LocationsState) (ev : Locations.Event)
    (r : Request) (hr : r ∈ requestsOf (Locations.effects s ev)) (hm : r.method = "DELETE") :
    ∃ id, ev = .handleDeleteLocationChoice .delete id := by
  cases ev with
  | handleDeleteLocationChoice choice id =>
    cases choice with
    | cancel =>
      simp [Locations.effects, Locations.handleDeleteLocationChoice, requestsOf] at hr
    | delete => exact ⟨id, rfl⟩
  | fetchStart =>
    simp [Locations.effects, Locations.fetchLocationsStart, requestsOf,
      Locations.listRequest] at hr
    rw [hr] at hm
    simp at hm
  | fetchDone o => simp [Locations.effects, requestsOf] at hr
  | openAddModal =>
    simp [Locations.effects, Locations.openAddModal, Locations.resetForm, requestsOf] at hr
  | openEditModal loc =>
    simp only [Locations.effects, Locations.openEditModal] at hr
    split at hr <;> simp [requestsOf] at hr
  | changeName text => simp [Locations.effects, Locations.changeName, requestsOf] at hr
  | changeDescription text =>
    simp [Locations.effects, Locations.changeDescription, requestsOf] at hr
  | cancel => simp [Locations.effects, Locations.cancel, Locations.resetForm, requestsOf] at hr
  | handleSaveLocation =>
    simp only [Locations.effects, Locations.handleSaveLocation] at hr
    split at hr
    · simp [requestsOf] at hr
    · simp [requestsOf] at hr
    · simp only [requestsOf, List.mem_singleton] at hr
      rw [hr] at hm
      cases hE : s.isEditing <;> simp [hE] at hm
  | handleSaveLocationDone isEditing o =>
    simp only [Locations.effects, Locations.handleSaveLocationDone] at hr
    split at hr
    · simp [requestsOf, Locations.fetchLocationsStart, Locations.resetForm,
        Locations.listRequest] at hr
      rw [hr] at hm
      simp at hm
    · simp [requestsOf] at hr
  | handleDeleteLocation =>
    simp [Locations.effects, Locations.handleDeleteLocation, requestsOf] at hr
  | handleDeleteLocationDone o =>
    simp only [Locations.effects, Locations.handleDeleteLocationDone] at hr
    split at hr
    · simp [requestsOf, Locations.fetchLocationsStart, Locations.resetForm,
        Locations.listRequest] at hr
      rw [hr] at hm
      simp at hm
    · simp [requestsOf] at hr

/-- C16: in Users, Itineraries and Locations the delete handler raises the confirmation dialog
and does nothing else (no request, no state write); the 'Cancel' button issues no request and
writes nothing; the 'Delete' button issues the DELETE of the record; and no other handler of
these screens issues a DELETE. -/
theorem delete_needs_confirmation :
    (∀ s : UsersState,
      requestsOf Users.handleDelete = [] ∧
      applyWrites Users.Write.apply Users.handleDelete s = s) ∧
    (∀ (id : JVal) (s : ItinerariesState),
      requestsOf (Itineraries.handleDelete id) = [] ∧
      applyWrites Itineraries.Write.apply (Itineraries.handleDelete id) s = s) ∧
    (∀ s : LocationsState,
      requestsOf Locations.handleDeleteLocation = [] ∧
      applyWrites Locations.Write.apply Locations.handleDeleteLocation s = s) ∧
    (∀ (id : JVal) (s : UsersState),
      requestsOf (Users.handleDeleteChoice .cancel id) = [] ∧
      applyWrites Users.Write.apply (Users.handleDeleteChoice .cancel id) s = s) ∧
    (∀ (id : JVal) (s : ItinerariesState),
      requestsOf (Itineraries.handleDeleteChoice .cancel id) = [] ∧
      applyWrites Itineraries.Write.apply (Itineraries.handleDeleteChoice .cancel id) s = s) ∧
    (∀ (id : JVal) (s : LocationsState),
      requestsOf (Locations.handleDeleteLocationChoice .cancel id) = [] ∧
      applyWrites Locations.Write.apply (Locations.handleDeleteLocationChoice .cancel id) s
        = s) ∧
    (∀ id : JVal,
      requestsOf (Users.handleDeleteChoice .delete id)
        = [{ method := "DELETE", url := Users.UPDATE_USER_API id, body := none }] ∧
      requestsOf (Itineraries.handleDeleteChoice .delete id)
        = [{ method := "DELETE", url := Itineraries.itemUrl id, body := none }] ∧
      requestsOf (Locations.handleDeleteLocationChoice .delete id)
        = [{ method := "DELETE", url := Locations.UPDATE_LOCATION_API id, body := none }]) ∧
    (∀ (s : UsersState) (ev : Users.Event) (r : Request),
      r ∈ requestsOf (Users.effects s ev) → r.method = "DELETE" →
        ∃ id, ev = .handleDeleteChoice .delete id) ∧
    (∀ (number : JVal → JVal) (s : ItinerariesState) (ev : Itineraries.Event) (r : Request),
      r ∈ requestsOf (Itineraries.effects number s ev) → r.method = "DELETE" →
        ∃ id, ev = .handleDeleteChoice .delete id) ∧
    (∀ (s : LocationsState) (ev : Locations.Event) (r : Request),
      r ∈ requestsOf (Locations.effects s ev) → r.method = "DELETE" →
        ∃ id, ev = .handleDeleteLocationChoice .delete id) :=
  ⟨fun _ => ⟨rfl, rfl⟩, fun _ _ => ⟨rfl, rfl⟩, fun _ => ⟨rfl, rfl⟩,
   fun _ _ => ⟨rfl, rfl⟩, fun _ _ => ⟨rfl, rfl⟩, fun _ _ => ⟨rfl, rfl⟩,
   fun _ => ⟨rfl, rfl, rfl⟩,
   users_delete_only_from_dialog, itineraries_delete_only_from_dialog,
   locations_delete_only_from_dialog⟩

/-- Deleting user 7: the handler alone, 'Cancel', and 'Delete', with an edit draft open. -/
theorem delete_needs_confirmation_witness :
    requestsOf Users.handleDelete = [] ∧
    applyWrites Users.Write.apply (Users.handleDeleteChoice .cancel (.num 7))
      { UsersState.initial with users := [pendingBooking], edit := clearedNameDraft }
        = { UsersState.initial with users := [pendingBooking], edit := clearedNameDraft } ∧
    requestsOf (Users.handleDeleteChoice .delete (.num 7))
      = [{ method := "DELETE",
           url := "https://ecotrails-dev-users-func20250717225342.azurewebsites.net/api/api/admin/users/7",
           body := none }] :=
  ⟨(delete_needs_confirmation.1 UsersState.initial).1,
   (delete_needs_confirmation.2.2.2.1 (.num 7) _).2,
   (delete_needs_confirmation.2.2.2.2.2.2.1 (.num 7)).1⟩


/-- C17, as the code has it: every operation that opens a modal writes the cells of that modal
only and leaves the other modal cells of its screen as they were, open or closed.  Partners
`openEditModal` and ItineraryRequests `openUpdateModal` act while a record is viewed and leave
the view modal open under the modal they open. -/
theorem opening_a_modal_keeps_the_others :
    (∀ (o : Outcome) (s : BookingsState), (handleViewDone o s).1.editBooking = s.editBooking) ∧
    (∀ (item : JVal) (s t : BookingsState), handleEdit item s = .ok t → t.view = s.view) ∧
    (∀ (user : JVal) (s : UsersState),
      (applyWrites Users.Write.apply (Users.handleView user) s).edit = s.edit) ∧
    (∀ (userId : JVal) (s : UsersState),
      (applyWrites Users.Write.apply (Users.handleEdit userId s) s).view = s.view) ∧
    (∀ (id : JVal) (s : ItinerariesState),
      (applyWrites Itineraries.Write.apply (Itineraries.handleEdit id s) s).add = s.add ∧
      (applyWrites Itineraries.Write.apply (Itineraries.handleEdit id s) s).view = s.view) ∧
    (∀ s : ItinerariesState,
      (applyWrites Itineraries.Write.apply Itineraries.openAdd s).edit = s.edit ∧
      (applyWrites Itineraries.Write.apply Itineraries.openAdd s).view = s.view) ∧
    (∀ (o : Outcome) (s : PartnersState),
      (fetchPartnerDetailsDone o s).1.editPartner = s.editPartner) ∧
    (∀ s : PartnersState,
      (applyWrites Partners.Write.apply (Partners.openEditModal s) s).viewPartner
        = s.viewPartner ∧
      (s.viewPartner.truthy = true →
        (applyWrites Partners.Write.apply (Partners.openEditModal s) s).editPartner
          = s.viewPartner)) ∧
    (∀ (o : Outcome) (s : RequestsState),
      (fetchRequestDetailsDone o s).1.updateModalVisible = s.updateModalVisible) ∧
    (∀ s : RequestsState,
      (applyWrites Requests.Write.apply (Requests.openUpdateModal s) s).view = s.view ∧
      (s.view.truthy = true →
        (applyWrites Requests.Write.apply (Requests.openUpdateModal s) s).updateModalVisible
          = true)) := by
  refine ⟨?_, ?_, ?_, ?_, ?_, ?_, ?_, ?_, ?_, ?_⟩
  · intro o s
    unfold handleViewDone
    split <;> rfl
  · intro item s t h
    unfold handleEdit at h
    split at h
    · cases h
    · cases h
      rfl
  · intro user s
    rfl
  · intro userId s
    unfold Users.handleEdit
    split <;> rfl
  · intro id s
    unfold Itineraries.handleEdit
    split
    · exact ⟨rfl, rfl⟩
    · split <;> exact ⟨rfl, rfl⟩
  · intro s
    exact ⟨rfl, rfl⟩
  · intro o s
    unfold fetchPartnerDetailsDone
    split <;> rfl
  · intro s
    unfold Partners.openEditModal
    constructor
    · split <;> rfl
    · intro h
      simp only [h, Bool.not_true, Bool.false_eq_true, if_false]
      rfl
  · intro o s
    unfold fetchRequestDetailsDone
    split <;> rfl
  · intro s
    unfold Requests.openUpdateModal
    constructor
    · split <;> rfl
    · intro h
      simp only [h, Bool.not_true, Bool.false_eq_true, if_false]
      rfl

/-- Pressing 'Edit' while partner 9 is viewed: the edit modal opens on the same record and the
view modal stays. -/
theorem opening_a_modal_keeps_the_others_witness :
    viewedPartner.truthy = true ∧
    (applyWrites Partners.Write.apply
      (Partners.openEditModal { PartnersState.initial with viewPartner := viewedPartner })
      { PartnersState.initial with viewPartner := viewedPartner }).viewPartner
        = viewedPartner ∧
    (applyWrites Partners.Write.apply
      (Partners.openEditModal { PartnersState.initial with viewPartner := viewedPartner })
      { PartnersState.initial with viewPartner := viewedPartner }).editPartner
        = viewedPartner :=
  ⟨rfl,
   (opening_a_modal_keeps_the_others.2.2.2.2.2.2.2.1
      { PartnersState.initial with viewPartner := viewedPartner }).1,
   (opening_a_modal_keeps_the_others.2.2.2.2.2.2.2.1
      { PartnersState.initial with viewPartner := viewedPartner }).2 rfl⟩

/-- C17 fails as stated: from the initial state of the Partners screen, loading the details of
partner 9 and pressing 'Edit' reaches a state with the view modal and the edit modal both
active; in ItineraryRequests, loading the details of request 7 and pressing 'Update' reaches a
state with the view modal and the update modal both active. -/
theorem two_modals_active :
    (Partners.run PartnersState.initial
      [.detailsDone (.responded partnerDetailsResponse), .openEditModal]).viewPartner.truthy
        = true ∧
    (Partners.run PartnersState.initial
      [.detailsDone (.responded partnerDetailsResponse), .openEditModal]).editPartner.truthy
        = true ∧
    (Requests.run RequestsState.initial
      [.detailsDone (.responded requestDetailsResponse), .openUpdateModal]).view.truthy
        = true ∧
    (Requests.run RequestsState.initial
      [.detailsDone (.responded requestDetailsResponse), .openUpdateModal]).updateModalVisible
        = true :=
  ⟨rfl, rfl, rfl, rfl⟩


/-- The filter effect leaves `bookings` as it is. -/
theorem runFilterEffect_bookings (s t : BookingsState) (h : runFilterEffect s = .ok t) :
    t.bookings = s.bookings := by
  unfold runFilterEffect at h
  split at h
  · cases h
  · cases h
    rfl

/-- No handler of the Bookings screen other than a completed list fetch writes `bookings`. -/
theorem Bookings.step_keeps_bookings (s t : BookingsState) (ev : BookingsEvent)
    (hev : Bookings.isFetchDone ev = false) (h : s.step ev = .ok t) :
    t.bookings = s.bookings := by
  cases ev with
  | fetchDone k o => cases hev
  | filterChange status =>
    simp only [BookingsState.step] at h
    split at h
    · cases h
      rfl
    · exact runFilterEffect_bookings (handleFilterChange status s) t h
  | fetchStart => exact (step_keeps_lists s t .fetchStart rfl h).1
  | refresh => exact (step_keeps_lists s t .refresh rfl h).1
  | viewStart => exact (step_keeps_lists s t .viewStart rfl h).1
  | viewDone o => exact (step_keeps_lists s t (.viewDone o) rfl h).1
  | closeView => exact (step_keeps_lists s t .closeView rfl h).1
  | edit item => exact (step_keeps_lists s t (.edit item) rfl h).1
  | changeNewStatus text => exact (step_keeps_lists s t (.changeNewStatus text) rfl h).1
  | cancelEdit => exact (step_keeps_lists s t .cancelEdit rfl h).1
  | saveStart => exact (step_keeps_lists s t .saveStart rfl h).1
  | saveDone o => exact (step_keeps_lists s t (.saveDone o) rfl h).1

/-- No handler of the Users screen other than a completed list fetch writes `users`. -/
theorem Users.step_keeps_users (s : UsersState) (ev : Users.Event)
    (hev : ev.isFetchDone = false) : (Users.step s ev).users = s.users := by
  cases ev with
  | fetchDone o => cases hev
  | handleEdit userId =>
    simp only [Users.step, Users.effects, Users.handleEdit]
    split <;> rfl
  | handleSave =>
    simp only [Users.step, Users.effects, Users.handleSave]
    split <;> rfl
  | handleSaveDone o =>
    simp only [Users.step, Users.effects, Users.handleSaveDone]
    split <;> rfl
  | handleDeleteDone o =>
    simp only [Users.step, Users.effects, Users.handleDeleteDone]
    split <;> rfl
  | handleDeleteChoice choice userId => cases choice <;> rfl
  | fetchStart => rfl
  | setStatusFilter k => rfl
  | handleView user => rfl
  | closeView => rfl
  | changeEdit key value => rfl
  | handleCancel => rfl
  | handleDelete => rfl

/-- No handler of the Itineraries screen other than a completed list fetch writes
`itineraries`. -/
theorem Itineraries.step_keeps_itineraries (number : JVal → JVal) (s : ItinerariesState)
    (ev : Itineraries.Event) (hev : ev.isFetchDone = false) :
    (Itineraries.step number s ev).itineraries = s.itineraries := by
  cases ev with
  | fetchDone o => cases hev
  | handleEdit id =>
    simp only [Itineraries.step, Itineraries.effects, Itineraries.handleEdit]
    split
    · rfl
    · split <;> rfl
  | handleAddNewItinerary =>
    simp only [Itineraries.step, Itineraries.effects, Itineraries.handleAddNewItinerary]
    split <;> rfl
  | handleAddNewItineraryDone o =>
    simp only [Itineraries.step, Itineraries.effects, Itineraries.handleAddNewItineraryDone]
    split <;> rfl
  | handleSaveEdit =>
    simp only [Itineraries.step, Itineraries.effects, Itineraries.handleSaveEdit]
    split
    · rfl
    · split <;> rfl
  | handleSaveEditDone o =>
    simp only [Itineraries.step, Itineraries.effects, Itineraries.handleSaveEditDone]
    split <;> rfl
  | handleDeleteChoice choice id => cases choice <;> rfl
  | handleDeleteDone id edit view o =>
    simp only [Itineraries.step, Itineraries.effects, Itineraries.handleDeleteDone]
    split
    · cases (edit.getOpt "id").strictEq id <;> cases (view.getOpt "id").strictEq id <;> rfl
    · rfl
  | fetchStart => rfl
  | changeEdit key value => rfl
  | cancelEdit => rfl
  | openAdd => rfl
  | changeAdd key value => rfl
  | cancelAdd => rfl
  | handleDelete id => rfl

/-- No handler of the Locations screen other than a completed list fetch writes `locations`. -/
theorem Locations.step_keeps_locations (s : LocationsState) (ev : Locations.Event)
    (hev : ev.isFetchDone = false) : (Locations.step s ev).locations = s.locations := by
  cases ev with
  | fetchDone o => cases hev
  | openEditModal loc =>
    simp only [Locations.step, Locations.effects, Locations.openEditModal]
    split <;> rfl
  | handleSaveLocation =>
    simp only [Locations.step, Locations.effects, Locations.handleSaveLocation]
    split <;> rfl
  | handleSaveLocationDone isEditing o =>
    simp only [Locations.step, Locations.effects, Locations.handleSaveLocationDone]
    split <;> rfl
  | handleDeleteLocationChoice choice id => cases choice <;> rfl
  | handleDeleteLocationDone o =>
    simp only [Locations.step, Locations.effects, Locations.handleDeleteLocationDone]
    split <;> rfl
  | fetchStart => rfl
  | openAddModal => rfl
  | changeName text => rfl
  | changeDescription text => rfl
  | cancel => rfl
  | handleDeleteLocation => rfl

/-- No handler of the Partners screen other than a completed list fetch writes `partners`. -/
theorem Partners.step_keeps_partners (s : PartnersState) (ev : Partners.Event)
    (hev : ev.isFetchDone = false) : (Partners.step s ev).partners = s.partners := by
  cases ev with
  | fetchDone o => cases hev
  | detailsDone o =>
    simp only [Partners.step, fetchPartnerDetailsDone]
    split <;> rfl
  | openDetailsModal item =>
    simp only [Partners.step, Partners.effects, Partners.openDetailsModal]
    split <;> rfl
  | openEditModal =>
    simp only [Partners.step, Partners.effects, Partners.openEditModal]
    split <;> rfl
  | saveEditPartner =>
    simp only [Partners.step, Partners.effects, Partners.saveEditPartner]
    split
    · rfl
    · split
      · rfl
      · rfl
      · split <;> rfl
  | saveEditPartnerDone o =>
    simp only [Partners.step, Partners.effects, Partners.saveEditPartnerDone]
    split <;> rfl
  | updatePartnerStatusDone newStatus o =>
    simp only [Partners.step, Partners.effects, Partners.updatePartnerStatusDone]
    split
    · rfl
    · split <;> rfl
  | fetchStart => rfl
  | closeDetailsModal => rfl
  | closeEditModal => rfl
  | handleEditChange key value => rfl
  | updatePartnerStatus id newStatus => rfl

/-- No handler of the ItineraryRequests screen other than a completed list fetch writes
`requests`. -/
theorem Requests.step_keeps_requests (s : RequestsState) (ev : Requests.Event)
    (hev : ev.isFetchDone = false) : (Requests.step s ev).requests = s.requests := by
  cases ev with
  | fetchDone o => cases hev
  | detailsDone o =>
    simp only [Requests.step, fetchRequestDetailsDone]
    split <;> rfl
  | handleMarkAsReviewed =>
    simp only [Requests.step, Requests.effects, Requests.handleMarkAsReviewed]
    split <;> rfl
  | handleMarkAsReviewedDone view o =>
    simp only [Requests.step, Requests.effects, Requests.handleMarkAsReviewedDone]
    split <;> rfl
  | openUpdateModal =>
    simp only [Requests.step, Requests.effects, Requests.openUpdateModal]
    split <;> rfl
  | handleSaveUpdate =>
    simp only [Requests.step, Requests.effects, Requests.handleSaveUpdate]
    split <;> rfl
  | fetchStart => rfl
  | handleViewDetails id => rfl
  | closeView => rfl
  | closeUpdateModal => rfl
  | changeUpdateStatus text => rfl

/-- C18: in each of the six screens with a collection, every event other than the completion of
a list fetch leaves the collection as it was: opening a draft, changing a draft field,
cancelling, the view and delete handlers, and every mutation handler before and after its
response. -/
theorem collection_changes_only_on_fetch :
    (∀ (s t : BookingsState) (ev : BookingsEvent),
      Bookings.isFetchDone ev = false → s.step ev = .ok t → t.bookings = s.bookings) ∧
    (∀ (s : UsersState) (ev : Users.Event),
      ev.isFetchDone = false → (Users.step s ev).users = s.users) ∧
    (∀ (number : JVal → JVal) (s : ItinerariesState) (ev : Itineraries.Event),
      ev.isFetchDone = false → (Itineraries.step number s ev).itineraries = s.itineraries) ∧
    (∀ (s : LocationsState) (ev : Locations.Event),
      ev.isFetchDone = false → (Locations.step s ev).locations = s.locations) ∧
    (∀ (s : PartnersState) (ev : Partners.Event),
      ev.isFetchDone = false → (Partners.step s ev).partners = s.partners) ∧
    (∀ (s : RequestsState) (ev : Requests.Event),
      ev.isFetchDone = false → (Requests.step s ev).requests = s.requests) :=
  ⟨Bookings.step_keeps_bookings, Users.step_keeps_users, Itineraries.step_keeps_itineraries,
   Locations.step_keeps_locations, Partners.step_keeps_partners, Requests.step_keeps_requests⟩


/-- An edit of a user draft and a successful save leave the `users` collection as it was. -/
theorem collection_changes_only_on_fetch_witness :
    (Users.step { UsersState.initial with users := [pendingBooking], edit := pendingBooking }
      (.changeEdit "status" (.str "Inactive"))).users = [pendingBooking] ∧
    (Users.step { UsersState.initial with users := [pendingBooking], edit := pendingBooking }
      (.handleSaveDone (.responded noContentResponse))).users = [pendingBooking] :=
  ⟨collection_changes_only_on_fetch.2.1
      { UsersState.initial with users := [pendingBooking], edit := pendingBooking }
      (.changeEdit "status" (.str "Inactive")) rfl,
   collection_changes_only_on_fetch.2.1
      { UsersState.initial with users := [pendingBooking], edit := pendingBooking }
      (.handleSaveDone (.responded noContentResponse)) rfl⟩

/-- Lower-casing keeps a non-empty text non-empty. -/
theorem lowerString_ne_empty (K : String) (h : K ≠ "") : lowerString K ≠ "" := by
  intro hl
  apply h
  have hd := congrArg String.data hl
  simp only [lowerString] at hd
  have hk : K.data = [] := List.map_eq_nil_iff.mp hd
  exact String.ext hk

/-- C19, as the code has it: the Users and Bookings filters read the status under the key
`status` only.  A record without that key counts as having the empty status, whatever it
carries under `Status`: for every key other than "All" and the empty key it is dropped.  A
record carrying a string under `status` that equals the key ignoring case is retained. -/
theorem filter_reads_lowercase_status_only (fields : List (String × JVal)) (K : String)
    (hK : K ≠ "All") :
    (K ≠ "" → lookupField "status" fields = .undefined →
      filteredUsers [.obj fields] K = .ok [] ∧
      filterEffectValue [.obj fields] K = .ok []) ∧
    (∀ v, lookupField "status" fields = .str v → lowerString v = lowerString K →
      filteredUsers [.obj fields] K = .ok [.obj fields] ∧
      filterEffectValue [.obj fields] K = .ok [.obj fields]) := by
  constructor
  · intro hne hs
    have hl : ("" == lowerString K) = false := by
      have := lowerString_ne_empty K hne
      simp only [beq_eq_false_iff_ne, ne_eq]
      exact fun h => this h.symm
    have hm : statusMatches K (.obj fields) = .ok false := by
      simp only [statusMatches, JVal.getProp, hs, JVal.or, JVal.truthy, Bool.false_eq_true,
        if_false, JVal.toLowerCase]
      have hle : lowerString "" = "" := rfl
      rw [hle, hl]
    constructor
    · simp [filteredUsers, filterE, hK, hm]
    · simp [filterEffectValue, filterE, hK, hm]
  · intro v hs hv
    have hm : statusMatches K (.obj fields) = .ok true := by
      by_cases hve : v = ""
      · subst hve
        simp only [statusMatches, JVal.getProp, hs, JVal.or, JVal.truthy, bne_self_eq_false,
          Bool.false_eq_true, if_false, JVal.toLowerCase]
        rw [hv]
        simp
      · simp only [statusMatches, JVal.getProp, hs, JVal.or, JVal.truthy, JVal.toLowerCase]
        simp [hve, hv]
    constructor
    · simp [filteredUsers, filterE, hK, hm]
    · simp [filterEffectValue, filterE, hK, hm]

/-- A user whose status "Active" is stored under `Status`, filtered with the key "Active", and
one whose status "Pending" is stored under `status`, filtered with the key "pending". -/
theorem filter_reads_lowercase_status_only_witness :
    "Active" ≠ "All" ∧ "Active" ≠ "" ∧
    filteredUsers [capitalStatusRecord] "Active" = .ok [] ∧
    filterEffectValue [capitalStatusRecord] "Active" = .ok [] ∧
    filteredUsers [pendingBooking] "pending" = .ok [pendingBooking] :=
  ⟨by decide, by decide,
   ((filter_reads_lowercase_status_only [("id", .num 1), ("Status", .str "Active")] "Active"
      (by decide)).1 (by decide) rfl).1,
   ((filter_reads_lowercase_status_only [("id", .num 1), ("Status", .str "Active")] "Active"
      (by decide)).1 (by decide) rfl).2,
   ((filter_reads_lowercase_status_only [("id", .num 1), ("status", .str "Pending")] "pending"
      (by decide)).2 "Pending" rfl rfl).1⟩

/-- C19 fails as stated: a user record carrying "Active" under `Status` is dropped by both
filters under the key "Active". -/
theorem filter_drops_capital_Status :
    filteredUsers [capitalStatusRecord] "Active" = .ok [] ∧
    filterEffectValue [capitalStatusRecord] "Active" = .ok [] ∧
    filteredUsers [capitalStatusRecord] "Active" ≠ .ok [capitalStatusRecord] ∧
    filterEffectValue [capitalStatusRecord] "Active" ≠ .ok [capitalStatusRecord] := by
  refine ⟨rfl, rfl, ?_, ?_⟩
  · intro h
    cases h
  · intro h
    cases h

/-- C20: whatever the outcome of a list fetch (rejection, any response, any body), when the
fetch handler completes `loading` is false in Bookings, Users, Itineraries, ItineraryRequests,
Partners, Locations and Feedback, and `refreshing` is false in Bookings and Feedback, the two
screens that have the flag. -/
theorem loading_false_after_fetch (o : Outcome) :
    (∀ (k : String) (s : BookingsState),
      (fetchBookingsDone k o s).loading = false ∧
      (fetchBookingsDone k o s).refreshing = false) ∧
    (∀ s : UsersState, (fetchUsersDone o s).1.loading = false) ∧
    (∀ s : ItinerariesState, (fetchItinerariesDone o s).1.loading = false) ∧
    (∀ s : RequestsState, (fetchRequestsDone o s).1.loading = false) ∧
    (∀ s : PartnersState, (fetchAllPartnersDone o s).1.loading = false) ∧
    (∀ s : LocationsState, (fetchLocationsDone o s).1.loading = false) ∧
    (∀ s : FeedbackState,
      (fetchFeedbackDone o s).1.loading = false ∧
      (fetchFeedbackDone o s).1.refreshing = false) := by
  refine ⟨?_, ?_, ?_, ?_, ?_, ?_, ?_⟩
  · intro k s
    unfold fetchBookingsDone
    split <;> exact ⟨rfl, rfl⟩
  · intro s
    unfold fetchUsersDone
    split <;> rfl
  · intro s
    unfold fetchItinerariesDone
    split <;> rfl
  · intro s
    unfold fetchRequestsDone
    split <;> rfl
  · intro s
    unfold fetchAllPartnersDone
    split <;> rfl
  · intro s
    unfold fetchLocationsDone
    split <;> rfl
  · intro s
    unfold fetchFeedbackDone
    split <;> exact ⟨rfl, rfl⟩


/-- The effect sequences of `fetchBookings` and `saveEditBooking` up to their awaits give the
states of `fetchBookingsStart` and `saveEditBookingStart`. -/
theorem bookingsStartEffects_agree (s : BookingsState) :
    applyWrites Bookings.Write.apply Bookings.fetchBookingsStartEffects s
      = fetchBookingsStart s ∧
    applyWrites Bookings.Write.apply (Bookings.saveEditBookingEffects s) s
      = saveEditBookingStart s := by
  constructor
  · rfl
  · unfold Bookings.saveEditBookingEffects saveEditBookingStart
    split <;> rfl


/-- C21, as the code has it: after a confirmed delete succeeds, Locations has closed its modal
and reset the form; Itineraries has cleared the edit draft when the draft captured by the handler
carries the deleted id and has left it as it was otherwise, and the same for the viewed record;
Users has left the viewed record and the edit draft as they were.  (The id is a number or a
string.) -/
theorem modal_state_after_delete (o : Outcome) (h : o.succeeded = true) :
    (∀ s : LocationsState,
      (applyWrites Locations.Write.apply (Locations.handleDeleteLocationDone o) s).modalVisible
        = false ∧
      (applyWrites Locations.Write.apply (Locations.handleDeleteLocationDone o) s).form
        = Locations.blankForm ∧
      (applyWrites Locations.Write.apply (Locations.handleDeleteLocationDone o) s).isEditing
        = false) ∧
    (∀ (id edit view : JVal) (s : ItinerariesState), id.isPrimitive = true →
      (applyWrites Itineraries.Write.apply
        (Itineraries.handleDeleteDone id edit view o) s).edit
          = (if (edit.getOpt "id").strictEq id then .null else s.edit) ∧
      (applyWrites Itineraries.Write.apply
        (Itineraries.handleDeleteDone id edit view o) s).view
          = (if (view.getOpt "id").strictEq id then .null else s.view) ∧
      (applyWrites Itineraries.Write.apply
        (Itineraries.handleDeleteDone id edit view o) s).add = s.add) ∧
    (∀ s : UsersState,
      (applyWrites Users.Write.apply (Users.handleDeleteDone o) s).view = s.view ∧
      (applyWrites Users.Write.apply (Users.handleDeleteDone o) s).edit = s.edit) := by
  obtain ⟨res, rfl, hok⟩ := Outcome.succeeded_cases o h
  have h2 : ∀ m, failureOf m (.responded res) = none := by
    intro m
    simp [failureOf, hok]
  have h3 : ∀ m, failureOfText m (.responded res) = none := by
    intro m
    simp [failureOfText, hok]
  refine ⟨?_, ?_, ?_⟩
  · intro s
    simp only [Locations.handleDeleteLocationDone, h3]
    exact ⟨rfl, rfl, rfl⟩
  · intro id edit view s _
    simp only [Itineraries.handleDeleteDone, h2]
    cases (edit.getOpt "id").strictEq id <;> cases (view.getOpt "id").strictEq id <;>
      exact ⟨rfl, rfl, rfl⟩
  · intro s
    simp only [Users.handleDeleteDone, h2]
    exact ⟨rfl, rfl⟩

/-- Deleting itinerary 5 while its edit draft is captured clears the draft; deleting itinerary
6 leaves it. -/
theorem modal_state_after_delete_witness :
    (Outcome.responded noContentResponse).succeeded = true ∧
    (applyWrites Itineraries.Write.apply
      (Itineraries.handleDeleteDone (.num 5) clearedNameDraft .null
        (.responded noContentResponse))
      { ItinerariesState.initial with edit := clearedNameDraft }).edit = .null ∧
    (applyWrites Itineraries.Write.apply
      (Itineraries.handleDeleteDone (.num 6) clearedNameDraft .null
        (.responded noContentResponse))
      { ItinerariesState.initial with edit := clearedNameDraft }).edit = clearedNameDraft :=
  have h := modal_state_after_delete (.responded noContentResponse) rfl
  ⟨rfl,
   (h.2.1 (.num 5) clearedNameDraft .null
      { ItinerariesState.initial with edit := clearedNameDraft } rfl).1,
   (h.2.1 (.num 6) clearedNameDraft .null
      { ItinerariesState.initial with edit := clearedNameDraft } rfl).1⟩

/-- C21 fails as stated: in Users, a delete answered with 204 while an edit draft and a viewed
record are set leaves both set; in Itineraries, deleting itinerary 6 leaves the edit draft of
itinerary 5 set. -/
theorem modals_stay_after_delete :
    (Outcome.responded noContentResponse).succeeded = true ∧
    (applyWrites Users.Write.apply (Users.handleDeleteDone (.responded noContentResponse))
      { UsersState.initial with view := pendingBooking, edit := clearedNameDraft }).edit
        = clearedNameDraft ∧
    (applyWrites Users.Write.apply (Users.handleDeleteDone (.responded noContentResponse))
      { UsersState.initial with view := pendingBooking, edit := clearedNameDraft }).edit.truthy
        = true ∧
    (applyWrites Users.Write.apply (Users.handleDeleteDone (.responded noContentResponse))
      { UsersState.initial with view := pendingBooking, edit := clearedNameDraft }).view.truthy
        = true ∧
    (applyWrites Itineraries.Write.apply
      (Itineraries.handleDeleteDone (.num 6) clearedNameDraft .null
        (.responded noContentResponse))
      { ItinerariesState.initial with edit := clearedNameDraft }).edit.truthy = true :=
  ⟨rfl, rfl, rfl, rfl, rfl⟩


/-- The effect sequence of `cancelEdit` gives the state of `cancelEdit`. -/
theorem cancelEditEffects_agrees (s : BookingsState) :
    applyWrites Bookings.Write.apply Bookings.cancelEditEffects s = cancelEdit s := rfl

/-- C22, as the code has it: every cancel issues no request, leaves the collection as it was and
closes the modal it belongs to.  Bookings, Users and Itineraries set the draft to `null`;
Locations hides the modal and resets the form.  Partners `closeEditModal` clears the edited
record only: the viewed record (the details modal under the edit modal) and the form values
stay.  ItineraryRequests `closeUpdateModal` hides the update modal only: the viewed record and
the status text stay. -/
theorem cancel_closes_its_modal :
    (∀ s : BookingsState,
      requestsOf Bookings.cancelEditEffects = [] ∧
      (cancelEdit s).editBooking = .null ∧ (cancelEdit s).bookings = s.bookings ∧
      (cancelEdit s).view = s.view) ∧
    (∀ s : UsersState,
      requestsOf Users.handleCancel = [] ∧
      (applyWrites Users.Write.apply Users.handleCancel s).edit = .null ∧
      (applyWrites Users.Write.apply Users.handleCancel s).users = s.users ∧
      (applyWrites Users.Write.apply Users.handleCancel s).view = s.view) ∧
    (∀ s : ItinerariesState,
      requestsOf Itineraries.cancelEdit = [] ∧ requestsOf Itineraries.cancelAdd = [] ∧
      (applyWrites Itineraries.Write.apply Itineraries.cancelEdit s).edit = .null ∧
      (applyWrites Itineraries.Write.apply Itineraries.cancelAdd s).add = .null ∧
      (applyWrites Itineraries.Write.apply Itineraries.cancelEdit s).itineraries
        = s.itineraries ∧
      (applyWrites Itineraries.Write.apply Itineraries.cancelAdd s).itineraries
        = s.itineraries) ∧
    (∀ s : LocationsState,
      requestsOf Locations.cancel = [] ∧
      (applyWrites Locations.Write.apply Locations.cancel s).modalVisible = false ∧
      (applyWrites Locations.Write.apply Locations.cancel s).form = Locations.blankForm ∧
      (applyWrites Locations.Write.apply Locations.cancel s).isEditing = false ∧
      (applyWrites Locations.Write.apply Locations.cancel s).locations = s.locations) ∧
    (∀ s : PartnersState,
      requestsOf Partners.closeEditModal = [] ∧
      (applyWrites Partners.Write.apply Partners.closeEditModal s).editPartner = .null ∧
      (applyWrites Partners.Write.apply Partners.closeEditModal s).viewPartner
        = s.viewPartner ∧
      (applyWrites Partners.Write.apply Partners.closeEditModal s).editForm = s.editForm ∧
      (applyWrites Partners.Write.apply Partners.closeEditModal s).partners = s.partners) ∧
    (∀ s : RequestsState,
      requestsOf Requests.closeUpdateModal = [] ∧
      (applyWrites Requests.Write.apply Requests.closeUpdateModal s).updateModalVisible
        = false ∧
      (applyWrites Requests.Write.apply Requests.closeUpdateModal s).view = s.view ∧
      (applyWrites Requests.Write.apply Requests.closeUpdateModal s).updateStatus
        = s.updateStatus ∧
      (applyWrites Requests.Write.apply Requests.closeUpdateModal s).requests = s.requests) :=
  ⟨fun _ => ⟨rfl, rfl, rfl, rfl⟩, fun _ => ⟨rfl, rfl, rfl, rfl⟩,
   fun _ => ⟨rfl, rfl, rfl, rfl, rfl, rfl⟩, fun _ => ⟨rfl, rfl, rfl, rfl, rfl⟩,
   fun _ => ⟨rfl, rfl, rfl, rfl, rfl⟩, fun _ => ⟨rfl, rfl, rfl, rfl, rfl⟩⟩

/-- C22 fails as stated: cancelling the edit of partner 9, opened from its details, leaves the
details modal active and keeps the values typed in the form; cancelling the update of request 7
leaves the view modal active and keeps the status text. -/
theorem cancel_leaves_view_and_form :
    (applyWrites Partners.Write.apply Partners.closeEditModal
      { PartnersState.initial with
        viewPartner := viewedPartner, editPartner := viewedPartner,
        editForm := blankEmailForm }).viewPartner.truthy = true ∧
    (applyWrites Partners.Write.apply Partners.closeEditModal
      { PartnersState.initial with
        viewPartner := viewedPartner, editPartner := viewedPartner,
        editForm := blankEmailForm }).editForm.EmailAddress.toStr = " " ∧
    (applyWrites Partners.Write.apply Partners.closeEditModal
      { PartnersState.initial with
        viewPartner := viewedPartner, editPartner := viewedPartner,
        editForm := blankEmailForm }).editForm.FullName.toStr
          ≠ PartnersState.initial.editForm.FullName.toStr ∧
    (applyWrites Requests.Write.apply Requests.closeUpdateModal
      { RequestsState.initial with
        view := viewedRequest, updateModalVisible := true,
        updateStatus := .str "Approved" }).view.truthy = true ∧
    (applyWrites Requests.Write.apply Requests.closeUpdateModal
      { RequestsState.initial with
        view := viewedRequest, updateModalVisible := true,
        updateStatus := .str "Approved" }).updateStatus.toStr = "Approved" := by
  refine ⟨rfl, rfl, ?_, rfl, rfl⟩
  decide


/-- C23, as the code has it: when no record is viewed `openEditModal` does nothing; when a record
is viewed it leaves the viewed record, makes it the edited record, and sets each of the seven
form fields to the field of the viewed record when that is truthy and to the empty string
otherwise (missing, `null`, empty string, `0`, `false`). -/
theorem openEditModal_seeds_form (s : PartnersState) :
    (s.viewPartner.truthy = false → Partners.openEditModal s = []) ∧
    (s.viewPartner.truthy = true →
      (applyWrites Partners.Write.apply (Partners.openEditModal s) s).editPartner
        = s.viewPartner ∧
      (applyWrites Partners.Write.apply (Partners.openEditModal s) s).viewPartner
        = s.viewPartner ∧
      (applyWrites Partners.Write.apply (Partners.openEditModal s) s).editForm.FullName
        = (if (s.viewPartner.getOpt "FullName").truthy then s.viewPartner.getOpt "FullName"
           else .str "") ∧
      (applyWrites Partners.Write.apply (Partners.openEditModal s) s).editForm.EmailAddress
        = (if (s.viewPartner.getOpt "EmailAddress").truthy
           then s.viewPartner.getOpt "EmailAddress" else .str "") ∧
      (applyWrites Partners.Write.apply (Partners.openEditModal s) s).editForm.BusinessName
        = (if (s.viewPartner.getOpt "BusinessName").truthy
           then s.viewPartner.getOpt "BusinessName" else .str "") ∧
      (applyWrites Partners.Write.apply (Partners.openEditModal s) s).editForm.TypeOfBusiness
        = (if (s.viewPartner.getOpt "TypeOfBusiness").truthy
           then s.viewPartner.getOpt "TypeOfBusiness" else .str "") ∧
      (applyWrites Partners.Write.apply (Partners.openEditModal s) s).editForm.Location
        = (if (s.viewPartner.getOpt "Location").truthy then s.viewPartner.getOpt "Location"
           else .str "") ∧
      (applyWrites Partners.Write.apply (Partners.openEditModal s) s).editForm.BriefDescription
        = (if (s.viewPartner.getOpt "BriefDescription").truthy
           then s.viewPartner.getOpt "BriefDescription" else .str "") ∧
      (applyWrites Partners.Write.apply (Partners.openEditModal s) s).editForm.Status
        = (if (s.viewPartner.getOpt "Status").truthy then s.viewPartner.getOpt "Status"
           else .str "")) := by
  constructor
  · intro h
    simp [Partners.openEditModal, h]
  · intro h
    have ht : Partners.openEditModal s
        = [.write (.setEditForm {
            FullName := (s.viewPartner.getOpt "FullName").or (.str ""),
            EmailAddress := (s.viewPartner.getOpt "EmailAddress").or (.str ""),
            BusinessName := (s.viewPartner.getOpt "BusinessName").or (.str ""),
            TypeOfBusiness := (s.viewPartner.getOpt "TypeOfBusiness").or (.str ""),
            Location := (s.viewPartner.getOpt "Location").or (.str ""),
            BriefDescription := (s.viewPartner.getOpt "BriefDescription").or (.str ""),
            Status := (s.viewPartner.getOpt "Status").or (.str "") }),
           .write (.setEditPartner s.viewPartner)] := by
      simp [Partners.openEditModal, h]
    rw [ht]
    exact ⟨rfl, rfl, rfl, rfl, rfl, rfl, rfl, rfl, rfl⟩

/-- Pressing 'Edit' on partner 9: the full name is copied, the missing location becomes the
empty string. -/
theorem openEditModal_seeds_form_witness :
    viewedPartner.truthy = true ∧
    (applyWrites Partners.Write.apply
      (Partners.openEditModal { PartnersState.initial with viewPartner := viewedPartner })
      { PartnersState.initial with viewPartner := viewedPartner }).editPartner
        = viewedPartner ∧
    (applyWrites Partners.Write.apply
      (Partners.openEditModal { PartnersState.initial with viewPartner := viewedPartner })
      { PartnersState.initial with viewPartner := viewedPartner }).editForm.FullName
        = .str "Nimal Perera" ∧
    (applyWrites Partners.Write.apply
      (Partners.openEditModal { PartnersState.initial with viewPartner := viewedPartner })
      { PartnersState.initial with viewPartner := viewedPartner }).editForm.Location
        = .str "" :=
  have h := (openEditModal_seeds_form
    { PartnersState.initial with viewPartner := viewedPartner }).2 rfl
  ⟨rfl, h.1, h.2.2.1, h.2.2.2.2.2.2.1⟩

/-- C23 fails as stated: for a viewed partner whose `Status` is the number 0 the form field is
the empty string, not the field of the record. -/
theorem openEditModal_drops_zero_status :
    numericStatusPartner.getOpt "Status" = .num 0 ∧
    (applyWrites Partners.Write.apply
      (Partners.openEditModal { PartnersState.initial with viewPartner := numericStatusPartner })
      { PartnersState.initial with viewPartner := numericStatusPartner }).editForm.Status
        = .str "" ∧
    (applyWrites Partners.Write.apply
      (Partners.openEditModal { PartnersState.initial with viewPartner := numericStatusPartner })
      { PartnersState.initial with viewPartner := numericStatusPartner }).editForm.Status
        ≠ numericStatusPartner.getOpt "Status" := by
  refine ⟨rfl, rfl, ?_⟩
  intro h
  cases h


/-- C24 fails on the code: `handleSaveUpdate` names the undeclared `UPDATE_ITINERARY_REQUEST_API`,
so in every state it issues no request at all; with request 7 viewed and the status edited to
'Approved' it raises `updating`, alerts the reference error and lowers `updating`, and the update
modal stays open with the record still viewed. -/
theorem handleSaveUpdate_issues_no_request :
    (∀ s : RequestsState, requestsOf (Requests.handleSaveUpdate s) = []) ∧
    (∀ s : RequestsState,
      (applyWrites Requests.Write.apply (Requests.handleSaveUpdate s) s).updateModalVisible
        = s.updateModalVisible ∧
      (applyWrites Requests.Write.apply (Requests.handleSaveUpdate s) s).view = s.view) ∧
    Requests.handleSaveUpdate
        { RequestsState.initial with
            view := viewedRequest, updateModalVisible := true, updateStatus := .str "Approved" }
      = [.write (.setUpdating true),
         .alert { title := "Error", message := "UPDATE_ITINERARY_REQUEST_API is not defined" },
         .write (.setUpdating false)] ∧
    (applyWrites Requests.Write.apply
      (Requests.handleSaveUpdate
        { RequestsState.initial with
            view := viewedRequest, updateModalVisible := true, updateStatus := .str "Approved" })
      { RequestsState.initial with
          view := viewedRequest, updateModalVisible := true,
          updateStatus := .str "Approved" }).updateModalVisible = true ∧
    (applyWrites Requests.Write.apply
      (Requests.handleSaveUpdate
        { RequestsState.initial with
            view := viewedRequest, updateModalVisible := true, updateStatus := .str "Approved" })
      { RequestsState.initial with
          view := viewedRequest, updateModalVisible := true,
          updateStatus := .str "Approved" }).view = viewedRequest := by
  refine ⟨?_, ?_, rfl, rfl, rfl⟩
  · intro s
    unfold Requests.handleSaveUpdate
    split <;> rfl
  · intro s
    unfold Requests.handleSaveUpdate
    split <;> exact ⟨rfl, rfl⟩


/-- C25: each of the eight dashboard sections navigates to one screen, the eight screens are
pairwise distinct and registered in the navigator of `App`; any other section name navigates
nowhere; and `handleLogout` replaces the screen by 'Login', which is registered too. -/
theorem dashboard_navigation_registered :
    Dashboard.handleCardPress (.str "Analytics") = [.navigate "AdminAnalytics"] ∧
    Dashboard.handleCardPress (.str "Users") = [.navigate "UsersAdmin"] ∧
    Dashboard.handleCardPress (.str "Bookings") = [.navigate "BookingsAdmin"] ∧
    Dashboard.handleCardPress (.str "Partners") = [.navigate "PartnersAdmin"] ∧
    Dashboard.handleCardPress (.str "Requests") = [.navigate "ItineraryRequestsAdmin"] ∧
    Dashboard.handleCardPress (.str "Itineraries") = [.navigate "ItinerariesAdmin"] ∧
    Dashboard.handleCardPress (.str "Locations") = [.navigate "LocationAdmin"] ∧
    Dashboard.handleCardPress (.str "Feedback") = [.navigate "FeedbackManagement"] ∧
    (Dashboard.sections.map
      (fun name => Dashboard.targetsOf (Dashboard.handleCardPress (.str name)))).flatten.Nodup ∧
    (∀ name ∈ Dashboard.sections,
      ∃ target, Dashboard.targetsOf (Dashboard.handleCardPress (.str name)) = [target] ∧
        target ∈ Dashboard.registeredScreens) ∧
    (∀ v : JVal, (∀ name ∈ Dashboard.sections, v ≠ .str name) →
      Dashboard.targetsOf (Dashboard.handleCardPress v) = []) ∧
    Dashboard.handleLogout = [.replace "Login"] ∧
    Dashboard.targetsOf Dashboard.handleLogout = ["Login"] ∧
    "Login" ∈ Dashboard.registeredScreens := by
  refine ⟨rfl, rfl, rfl, rfl, rfl, rfl, rfl, rfl, by decide, ?_, ?_, rfl, rfl, by decide⟩
  · intro name hn
    simp only [Dashboard.sections, List.mem_cons, List.mem_singleton, List.not_mem_nil,
      or_false] at hn
    rcases hn with h | h | h | h | h | h | h | h <;> subst h <;>
      exact ⟨_, rfl, by decide⟩
  intro v hv
  cases v with
  | str label =>
    have h1 : label ≠ "Analytics" := fun h => hv "Analytics" (by decide) (by rw [h])
    have h2 : label ≠ "Users" := fun h => hv "Users" (by decide) (by rw [h])
    have h3 : label ≠ "Bookings" := fun h => hv "Bookings" (by decide) (by rw [h])
    have h4 : label ≠ "Partners" := fun h => hv "Partners" (by decide) (by rw [h])
    have h5 : label ≠ "Requests" := fun h => hv "Requests" (by decide) (by rw [h])
    have h6 : label ≠ "Itineraries" := fun h => hv "Itineraries" (by decide) (by rw [h])
    have h7 : label ≠ "Locations" := fun h => hv "Locations" (by decide) (by rw [h])
    have h8 : label ≠ "Feedback" := fun h => hv "Feedback" (by decide) (by rw [h])
    simp [Dashboard.handleCardPress, h1, h2, h3, h4, h5, h6, h7, h8, Dashboard.targetsOf,
      Dashboard.comingSoon]
  | undefined => rfl
  | null => rfl
  | bool b => rfl
  | num n => rfl
  | arr items => rfl
  | obj fields => rfl

/-- Pressing a card named 'Settings', which is none of the eight sections, navigates nowhere. -/
theorem dashboard_navigation_registered_witness :
    Dashboard.targetsOf (Dashboard.handleCardPress (.str "Settings")) = [] :=
  dashboard_navigation_registered.2.2.2.2.2.2.2.2.2.2.1 (.str "Settings") (by
    intro name hn h
    simp [Dashboard.sections] at hn
    rcases hn with h1 | h1 | h1 | h1 | h1 | h1 | h1 | h1 <;> subst h1 <;>
      exact absurd (JVal.str.inj h) (by decide))


/-- A callback that always answers `true` makes `filterE` keep the whole list. -/
theorem filterE_true (A : List JVal) :
    filterE (fun _ => (.ok true : Except Thrown Bool)) A = .ok A := by
  induction A with
  | nil => rfl
  | cons x xs ih => simp only [filterE, ih, if_true]

/-- The inline filter of `fetchBookings` computes what the filter effect computes. -/
theorem initialFiltered_eq_filterEffectValue (A : List JVal) (K : String) :
    initialFiltered K A = filterEffectValue A K := by
  cases A with
  | nil => rfl
  | cons x xs =>
    have hlen : (x :: xs).length > 0 := Nat.succ_pos _
    unfold initialFiltered filterEffectValue
    rw [if_pos hlen]
    by_cases hK : K = "All"
    · simp only [hK, if_true]
      exact filterE_true (x :: xs)
    · simp only [hK, if_false]

/-- C26: for every fetched array `A` and filter key `K` the list computed inline in
`fetchBookings` is the list computed by the filter effect from `bookings = A` and
`currentFilter = K`, an exception of the callback included; both are empty on the empty array;
the inline list is the one a successful fetch of `A` writes, and the effect list is the one the
effect writes. -/
theorem inline_filter_agrees_with_effect (A : List JVal) (K : String) :
    initialFiltered K A = filterEffectValue A K ∧
    (initialFiltered K [] = .ok [] ∧ filterEffectValue [] K = .ok []) ∧
    (∀ res : Response, res.ok = true → res.parsed = .ok (.arr A) →
      fetchBookingsTry K (.responded res)
        = Except.map (fun f => (A, f)) (initialFiltered K A)) ∧
    (∀ s : BookingsState, s.bookings = A → s.currentFilter = K →
      runFilterEffect s
        = Except.map (fun f => { s with filteredBookings := f }) (filterEffectValue A K)) := by
  refine ⟨initialFiltered_eq_filterEffectValue A K, ⟨rfl, rfl⟩, ?_, ?_⟩
  · intro res hok hA
    simp only [fetchBookingsTry, hok, Response.json, hA, initialFiltered]
    cases filterE (fun b => if K = "All" then .ok true else statusMatches K b) A <;> rfl
  · intro s hA hK
    subst hA hK
    unfold runFilterEffect
    cases filterEffectValue s.bookings s.currentFilter <;> rfl

/-- The two bookings of the sample response under the key 'Pending': the fetch writes the list
the effect computes, which holds the pending booking only. -/
theorem inline_filter_agrees_with_effect_witness :
    twoBookingsResponse.ok = true ∧
    fetchBookingsTry "Pending" (.responded twoBookingsResponse)
      = Except.map (fun f => ([pendingBooking, confirmedBooking], f))
          (initialFiltered "Pending" [pendingBooking, confirmedBooking]) ∧
    filterEffectValue [pendingBooking, confirmedBooking] "Pending" = .ok [pendingBooking] :=
  ⟨rfl,
   (inline_filter_agrees_with_effect [pendingBooking, confirmedBooking] "Pending").2.2.1
     twoBookingsResponse rfl rfl,
   rfl⟩


/-- The method `includes` holds exactly when the needle is a contiguous part of the string. -/
theorem jsIncludes_iff (hay needle : String) :
    Login.jsIncludes hay needle = true ↔ needle.data <:+: hay.data := by
  unfold Login.jsIncludes
  rw [List.any_eq_true]
  constructor
  · rintro ⟨t, ht, hp⟩
    rw [List.mem_tails] at ht
    rw [List.isPrefixOf_iff_prefix] at hp
    exact List.infix_iff_prefix_suffix.mpr ⟨t, hp, ht⟩
  · intro h
    obtain ⟨t, hp, ht⟩ := List.infix_iff_prefix_suffix.mp h
    exact ⟨t, (List.mem_tails _ _).mpr ht, List.isPrefixOf_iff_prefix.mpr hp⟩

/-- When the test of `handleLogin` holds, the status is a success and the body has a truthy
`success` or a `message` that contains 'success' once lower-cased. -/
theorem accepted_true (res : Response) (h : Login.accepted res = .ok true) :
    res.ok = true ∧
    (((handleLoginJson res).getOpt "success").truthy = true ∨
      ∃ m, (handleLoginJson res).getOpt "message" = .str m ∧
        "success".data <:+: (lowerString m).data) := by
  unfold Login.accepted at h
  by_cases hok : res.ok = true
  · refine ⟨hok, ?_⟩
    simp only [hok, Bool.not_true, Bool.false_eq_true, if_false] at h
    by_cases hs : ((handleLoginJson res).getOpt "success").truthy = true
    · exact Or.inl hs
    · right
      have hprop : ∀ e, (handleLoginJson res).getProp "success" ≠ .error e ∧
          ((handleLoginJson res).getProp "success"
            = .ok ((handleLoginJson res).getOpt "success")) := by
        intro e
        cases hj : handleLoginJson res <;>
          simp [hj, JVal.getProp, JVal.getOpt] at h ⊢
      rw [(hprop (.error "")).2] at h
      simp only [hs, if_false] at h
      cases hm : (handleLoginJson res).getOpt "message" with
      | str m =>
        rw [hm] at h
        simp only at h
        exact ⟨m, rfl, (jsIncludes_iff _ _).mp (by simpa using h)⟩
      | undefined => rw [hm] at h; simp at h
      | null => rw [hm] at h; simp at h
      | bool b => rw [hm] at h; simp at h
      | num n => rw [hm] at h; simp at h
      | arr items => rw [hm] at h; simp at h
      | obj fields => rw [hm] at h; simp at h
  · simp [hok] at h

/-- Strict equality with the string 'Admin' holds for that string only. -/
theorem strictEq_str (v : JVal) (t : String) (h : v.strictEq (.str t) = true) : v = .str t := by
  cases v <;> simp [JVal.strictEq] at h
  rw [h]

/-- The branch after the test offers navigation only for the role 'Admin'. -/
theorem offers_roleBranch (json : JVal) (rest : List Login.LoginEffect) (t : String)
    (hr : Login.offers rest = []) (h : t ∈ Login.offers (Login.roleBranch json :: rest)) :
    t = "AdminDashboard" ∧ json.getOpt "role" = .str "Admin" := by
  unfold Login.roleBranch at h
  by_cases h1 : (json.getOpt "role").truthy = true
  · by_cases h2 : (json.getOpt "role").strictEq (.str "Admin") = true
    · simp [h1, h2, Login.offers, hr] at h
      exact ⟨h, strictEq_str _ _ h2⟩
    · simp [h1, h2, Login.offers, hr] at h
  · simp [h1, Login.offers, hr] at h

/-- The branch taken when the test fails offers no navigation. -/
theorem offers_failedBranch (res : Response) :
    Login.offers [Login.failedBranch res, .setLoading false] = [] := by
  unfold Login.failedBranch
  split <;> rfl

/-- What the part of `handleLogin` after the response offers, and when. -/
theorem offers_handleLoginDone (o : Outcome) (t : String)
    (h : t ∈ Login.offers (Login.handleLoginDone o)) :
    t = "AdminDashboard" ∧
    ∃ res json, o = .responded res ∧ res.ok = true ∧ res.parsed = .ok json ∧
      ((json.getOpt "success").truthy = true ∨
        ∃ m, json.getOpt "message" = .str m ∧ "success".data <:+: (lowerString m).data) ∧
      json.getOpt "role" = .str "Admin" := by
  cases o with
  | rejected e => simp [Login.handleLoginDone, Login.networkAlert, Login.offers] at h
  | responded res =>
    unfold Login.handleLoginDone at h
    simp only at h
    cases ha : Login.accepted res with
    | error e => rw [ha] at h; simp [Login.networkAlert, Login.offers] at h
    | ok b =>
      rw [ha] at h
      cases b with
      | false => simp only [offers_failedBranch] at h; cases h
      | true =>
        simp only at h
        obtain ⟨ht, hrole⟩ :=
          offers_roleBranch (handleLoginJson res) [.setLoading false] t rfl h
        obtain ⟨hok, hacc⟩ := accepted_true res ha
        refine ⟨ht, res, handleLoginJson res, rfl, hok, ?_, hacc, hrole⟩
        cases hp : res.parsed with
        | ok v => simp [handleLoginJson, hp]
        | error m =>
          simp [handleLoginJson, hp, JVal.getOpt, lookupField] at hrole

/-- C27: whatever the email, the password and the outcome of the request, `handleLogin` offers
navigation only to 'AdminDashboard' and only when both credentials are non-empty, the response
has a success status, its body parses to a value with a truthy `success` or a `message` that
contains 'success' once lower-cased, and the body's `role` is the string 'Admin'; a response
whose body does not parse offers nothing; and with an empty email or password no request is
issued and nothing is offered. -/
theorem login_offers_dashboard_only_for_admin (email password : String) (o : Outcome) :
    (∀ t ∈ Login.offers (Login.handleLoginRun email password o),
      t = "AdminDashboard" ∧ email ≠ "" ∧ password ≠ "" ∧
      ∃ res json, o = .responded res ∧ res.ok = true ∧ res.parsed = .ok json ∧
        ((json.getOpt "success").truthy = true ∨
          ∃ m, json.getOpt "message" = .str m ∧ "success".data <:+: (lowerString m).data) ∧
        json.getOpt "role" = .str "Admin") ∧
    (∀ (res : Response) (m : String), o = .responded res → res.parsed = .error m →
      Login.offers (Login.handleLoginRun email password o) = []) ∧
    ((email = "" ∨ password = "") →
      Login.requests (Login.handleLoginRun email password o) = [] ∧
      Login.offers (Login.handleLoginRun email password o) = [] ∧
      Login.requests (Login.handleLogin email password) = []) := by
  have hmain : ∀ t ∈ Login.offers (Login.handleLoginRun email password o),
      t = "AdminDashboard" ∧ email ≠ "" ∧ password ≠ "" ∧
      ∃ res json, o = .responded res ∧ res.ok = true ∧ res.parsed = .ok json ∧
        ((json.getOpt "success").truthy = true ∨
          ∃ m, json.getOpt "message" = .str m ∧ "success".data <:+: (lowerString m).data) ∧
        json.getOpt "role" = .str "Admin" := by
    intro t ht
    by_cases he : email = ""
    · simp [Login.handleLoginRun, Login.handleLogin, he, Login.offers] at ht
    · by_cases hp : password = ""
      · simp [Login.handleLoginRun, Login.handleLogin, hp, Login.offers] at ht
      · have hrun : Login.offers (Login.handleLoginRun email password o)
            = Login.offers (Login.handleLoginDone o) := by
          simp [Login.handleLoginRun, Login.handleLogin, he, hp, Login.offers]
        rw [hrun] at ht
        obtain ⟨h1, h2⟩ := offers_handleLoginDone o t ht
        exact ⟨h1, he, hp, h2⟩
  refine ⟨hmain, ?_, ?_⟩
  · intro res m ho hm
    cases hoff : Login.offers (Login.handleLoginRun email password o) with
    | nil => rfl
    | cons t rest =>
      obtain ⟨_, _, _, res2, json, ho2, _, hp2, _⟩ :=
        hmain t (by rw [hoff]; exact List.mem_cons_self t rest)
      rw [ho] at ho2
      cases ho2
      rw [hm] at hp2
      cases hp2
  · intro h
    have hg : (email = "" || password = "") = true := by
      rcases h with h | h <;> simp [h]
    simp [Login.handleLoginRun, Login.handleLogin, hg, Login.requests, Login.offers]

/-- An administrator signing in with both credentials is offered the dashboard, and the
response that offers it is a success with `success: true` and `role: 'Admin'`. -/
theorem login_offers_dashboard_only_for_admin_witness :
    "AdminDashboard" ∈ Login.offers
      (Login.handleLoginRun "admin@ecotrails.lk" "secret" (.responded adminLoginResponse)) ∧
    ("AdminDashboard" = "AdminDashboard" ∧ "admin@ecotrails.lk" ≠ "" ∧ "secret" ≠ "" ∧
      ∃ res json, Outcome.responded adminLoginResponse = .responded res ∧ res.ok = true ∧
        res.parsed = .ok json ∧
        ((json.getOpt "success").truthy = true ∨
          ∃ m, json.getOpt "message" = .str m ∧ "success".data <:+: (lowerString m).data) ∧
        json.getOpt "role" = .str "Admin") ∧
    Login.offers
      (Login.handleLoginRun "admin@ecotrails.lk" "secret" (.responded textLoginResponse)) = [] ∧
    Login.requests (Login.handleLoginRun "" "secret" (.responded adminLoginResponse)) = [] :=
  ⟨List.mem_singleton.mpr rfl,
   (login_offers_dashboard_only_for_admin "admin@ecotrails.lk" "secret"
      (.responded adminLoginResponse)).1 "AdminDashboard" (List.mem_singleton.mpr rfl),
   (login_offers_dashboard_only_for_admin "admin@ecotrails.lk" "secret"
      (.responded textLoginResponse)).2.1 textLoginResponse _ rfl rfl,
   ((login_offers_dashboard_only_for_admin "" "secret"
      (.responded adminLoginResponse)).2.2 (Or.inl rfl)).1⟩


/-- C28: `handleMarkAsReviewed` does nothing, writes and requests alike, while an update is in
flight or when no request is viewed (`view` is `null`, or falsy); with a request viewed and no
update in flight it raises `updating` and issues one PUT to the status endpoint of the viewed
id with the body `{status: 'Reviewed'}`; the part after the response issues no request but the
GET of the list, and `updating` is false when it is done, whatever the outcome. -/
theorem markAsReviewed_guard_and_put (s : RequestsState) (o : Outcome) :
    ((s.updating = true ∨ s.view = .null ∨ s.view.truthy = false) →
      Requests.handleMarkAsReviewed s = [] ∧
      requestsOf (Requests.handleMarkAsReviewed s) = [] ∧
      applyWrites Requests.Write.apply (Requests.handleMarkAsReviewed s) s = s) ∧
    (s.updating = false → s.view.truthy = true →
      Requests.handleMarkAsReviewed s
        = [.write (.setUpdating true),
           .request { method := "PUT",
                      url := Requests.UPDATE_ITINERARY_REQUEST_STATUS_API (s.view.getOpt "id"),
                      body := some (.obj [("status", .str "Reviewed")]) }] ∧
      requestsOf (Requests.handleMarkAsReviewed s)
        = [{ method := "PUT",
             url := Requests.UPDATE_ITINERARY_REQUEST_STATUS_API (s.view.getOpt "id"),
             body := some (.obj [("status", .str "Reviewed")]) }] ∧
      (∀ r ∈ requestsOf (Requests.handleMarkAsReviewedDone s.view o),
        r = Requests.listRequest) ∧
      (applyWrites Requests.Write.apply
        (Requests.handleMarkAsReviewed s ++ Requests.handleMarkAsReviewedDone s.view o)
        s).updating = false) := by
  constructor
  · intro h
    have hg : (!s.view.truthy || s.updating) = true := by
      rcases h with h | h | h
      · simp [h]
      · simp [h, JVal.truthy]
      · simp [h]
    have ht : Requests.handleMarkAsReviewed s = [] := by
      unfold Requests.handleMarkAsReviewed
      rw [if_pos hg]
    rw [ht]
    exact ⟨rfl, rfl, rfl⟩
  · intro hu hv
    have hg : ¬ ((!s.view.truthy || s.updating) = true) := by simp [hu, hv]
    have ht : Requests.handleMarkAsReviewed s
        = [.write (.setUpdating true),
           .request { method := "PUT",
                      url := Requests.UPDATE_ITINERARY_REQUEST_STATUS_API (s.view.getOpt "id"),
                      body := some (.obj [("status", .str "Reviewed")]) }] := by
      unfold Requests.handleMarkAsReviewed
      rw [if_neg hg]
    rw [ht]
    refine ⟨rfl, rfl, ?_, ?_⟩
    · intro r hr
      unfold Requests.handleMarkAsReviewedDone at hr
      split at hr
      · simp [requestsOf, Requests.fetchRequestsStart] at hr
        exact hr
      · simp [requestsOf] at hr
    · unfold Requests.handleMarkAsReviewedDone
      split <;> rfl

/-- With request 7 viewed the PUT goes to its status endpoint and `updating` is false after a
network failure; while an update is in flight nothing happens. -/
theorem markAsReviewed_guard_and_put_witness :
    requestsOf (Requests.handleMarkAsReviewed { RequestsState.initial with view := viewedRequest })
      = [{ method := "PUT",
           url := Requests.UPDATE_ITINERARY_REQUEST_STATUS_API (viewedRequest.getOpt "id"),
           body := some (.obj [("status", .str "Reviewed")]) }] ∧
    Requests.UPDATE_ITINERARY_REQUEST_STATUS_API (viewedRequest.getOpt "id")
      = "https://ecotrails-dev-itineraries-func.azurewebsites.net/api/api/admin/itinerary-requests/7/status?" ∧
    (applyWrites Requests.Write.apply
      (Requests.handleMarkAsReviewed { RequestsState.initial with view := viewedRequest }
        ++ Requests.handleMarkAsReviewedDone viewedRequest networkFailure)
      { RequestsState.initial with view := viewedRequest }).updating = false ∧
    Requests.handleMarkAsReviewed
      { RequestsState.initial with view := viewedRequest, updating := true } = [] :=
  ⟨((markAsReviewed_guard_and_put { RequestsState.initial with view := viewedRequest }
      networkFailure).2 rfl rfl).2.1,
   by decide,
   ((markAsReviewed_guard_and_put { RequestsState.initial with view := viewedRequest }
      networkFailure).2 rfl rfl).2.2.2,
   ((markAsReviewed_guard_and_put
      { RequestsState.initial with view := viewedRequest, updating := true }
      networkFailure).1 (Or.inl rfl)).1⟩


/-- The value of `a || {}` is truthy. -/
theorem or_obj_truthy (a : JVal) : (a.or (.obj [])).truthy = true := by
  unfold JVal.or
  split
  · assumption
  · rfl

/-- C29, as the code has it: after a successful analytics fetch the analytics state is truthy,
so neither `null` nor `undefined`: for an array body it is the first element when that is
truthy and the empty object otherwise (empty array, or a first element that is `null`, `0`,
`false` or the empty string); for a non-array body it is the body when that is truthy and the
empty object otherwise; `loading` is false and `error` is untouched.  On any failure analytics
keeps its value, `error` is 'Unable to load analytics' and `loading` is false. -/
theorem analytics_after_fetch (o : Outcome) (s : AnalyticsState) :
    (∀ (res : Response) (data : JVal), o = .responded res → res.ok = true →
      res.parsed = .ok data →
      (fetchAnalyticsDone o s).analytics.truthy = true ∧
      (fetchAnalyticsDone o s).analytics ≠ .null ∧
      (fetchAnalyticsDone o s).analytics ≠ .undefined ∧
      (fetchAnalyticsDone o s).loading = false ∧
      (fetchAnalyticsDone o s).error = s.error ∧
      (∀ first rest, data = .arr (first :: rest) →
        (fetchAnalyticsDone o s).analytics = (if first.truthy then first else .obj [])) ∧
      (data = .arr [] → (fetchAnalyticsDone o s).analytics = .obj []) ∧
      ((∀ items, data ≠ .arr items) →
        (fetchAnalyticsDone o s).analytics = (if data.truthy then data else .obj []))) ∧
    (o.failed = true →
      (fetchAnalyticsDone o s).analytics = s.analytics ∧
      (fetchAnalyticsDone o s).error = "Unable to load analytics" ∧
      (fetchAnalyticsDone o s).loading = false) := by
  constructor
  · intro res data ho hok hp
    subst ho
    have htry : fetchAnalyticsTry (.responded res) = .ok data := by
      simp [fetchAnalyticsTry, hok, Response.json, hp]
    have hdone : fetchAnalyticsDone (.responded res) s
        = { s with analytics := analyticsValue data, loading := false } := by
      simp only [fetchAnalyticsDone, htry]
    rw [hdone]
    have htruthy : (analyticsValue data).truthy = true := by
      unfold analyticsValue
      split
      · rfl
      · exact or_obj_truthy _
      · exact or_obj_truthy _
    refine ⟨htruthy, ?_, ?_, rfl, rfl, ?_, ?_, ?_⟩
    · intro h
      simp only at h
      rw [h] at htruthy
      cases htruthy
    · intro h
      simp only at h
      rw [h] at htruthy
      cases htruthy
    · intro first rest hd
      subst hd
      rfl
    · intro hd
      subst hd
      rfl
    · intro hd
      simp only
      cases data with
      | arr items => exact absurd rfl (hd items)
      | undefined => rfl
      | null => rfl
      | bool b => rfl
      | num n => rfl
      | str t => rfl
      | obj fields => rfl
  · intro hf
    have htry : ∃ e, fetchAnalyticsTry o = .error e := by
      rcases Outcome.failed_cases o hf with ⟨e, rfl⟩ | ⟨res, rfl, hok⟩ | ⟨res, m, rfl, hok, hp⟩
      · exact ⟨e, rfl⟩
      · exact ⟨.error "Failed to fetch analytics", by simp [fetchAnalyticsTry, hok]⟩
      · exact ⟨.syntaxError m, by simp [fetchAnalyticsTry, hok, Response.json, hp]⟩
    obtain ⟨e, he⟩ := htry
    have hdone : fetchAnalyticsDone o s
        = { s with error := "Unable to load analytics", loading := false } := by
      unfold fetchAnalyticsDone
      rw [he]
    rw [hdone]
    exact ⟨rfl, rfl, rfl⟩

/-- A body that wraps one record in an array gives that record; a network failure on the
initial state leaves analytics `null` and sets the error. -/
theorem analytics_after_fetch_witness :
    (fetchAnalyticsDone (.responded analyticsResponse) AnalyticsState.initial).analytics
      = .obj [("TotalBookings", .num 12)] ∧
    (fetchAnalyticsDone networkFailure AnalyticsState.initial).analytics = .null ∧
    (fetchAnalyticsDone networkFailure AnalyticsState.initial).error
      = "Unable to load analytics" ∧
    (fetchAnalyticsDone networkFailure AnalyticsState.initial).loading = false :=
  ⟨((analytics_after_fetch (.responded analyticsResponse) AnalyticsState.initial).1
      analyticsResponse _ rfl rfl rfl).2.2.2.2.2.1 _ _ rfl,
   (analytics_after_fetch networkFailure AnalyticsState.initial).2 rfl⟩

/-- C29 fails as stated: for the body `[0]` the array is not empty and its first element is not
`null`, yet analytics is the empty object and not that element; for the body `false`, which is
neither an array nor `null`, analytics is the empty object and not the body. -/
theorem analytics_drops_falsy_body :
    zeroArrayResponse.ok = true ∧ zeroArrayResponse.parsed = .ok (.arr [.num 0]) ∧
    (fetchAnalyticsDone (.responded zeroArrayResponse) AnalyticsState.initial).analytics
      = .obj [] ∧
    (fetchAnalyticsDone (.responded zeroArrayResponse) AnalyticsState.initial).analytics
      ≠ .num 0 ∧
    falseBodyResponse.ok = true ∧ falseBodyResponse.parsed = .ok (.bool false) ∧
    (fetchAnalyticsDone (.responded falseBodyResponse) AnalyticsState.initial).analytics
      = .obj [] ∧
    (fetchAnalyticsDone (.responded falseBodyResponse) AnalyticsState.initial).analytics
      ≠ .bool false := by
  refine ⟨rfl, rfl, rfl, ?_, rfl, rfl, rfl, ?_⟩
  · intro h
    cases h
  · intro h
    cases h


/-- Reading a property of a truthy value does not throw. -/
theorem getProp_of_truthy (v : JVal) (key : String) (h : v.truthy = true) :
    v.getProp key = .ok (v.getOpt key) := by
  cases v <;> first | rfl | (simp [JVal.truthy] at h)

/-- On a collection of records `itineraries.find` of `handleEdit` is the first item that matches,
`undefined` when none does. -/
theorem findItinerary_eq_find (id : JVal) (L : List JVal) (h : ∀ it ∈ L, it.truthy = true) :
    Itineraries.findItinerary id L
      = .ok ((L.find? (Itineraries.matchesId id)).getD .undefined) := by
  induction L with
  | nil => rfl
  | cons x xs ih =>
    have hx := getProp_of_truthy x "id" (h x (List.mem_cons_self x xs))
    have hxs := ih (fun it hit => h it (List.mem_cons_of_mem x hit))
    unfold Itineraries.findItinerary at hxs ⊢
    cases hm : Itineraries.matchesId id x with
    | true =>
      have hm2 := hm
      unfold Itineraries.matchesId at hm2
      simp only [findE, hx, hm2, List.find?, hm, Option.getD]
    | false =>
      have hm2 := hm
      unfold Itineraries.matchesId at hm2
      simp only [findE, hx, hm2, List.find?, hm]
      exact hxs

/-- C30, as the code has it: for every id (a number, string, boolean, `null` or `undefined`) and
every collection whose entries are all truthy, as records are, `handleEdit` does nothing when no
itinerary has `id` or `Id` strictly equal to the id; otherwise its one effect sets the edit draft to the fields id, name, durationDays, status and
description of the first match in collection order, each the lower-case field when that is
truthy and the capitalised field otherwise, and the collection, the viewed record, the add
draft and the loading flag stay as they were. -/
theorem handleEdit_first_match (id : JVal) (s : ItinerariesState)
    (_hid : id.isPrimitive = true) (hitems : ∀ it ∈ s.itineraries, it.truthy = true) :
    ((∀ it ∈ s.itineraries, Itineraries.matchesId id it = false) →
      Itineraries.handleEdit id s = [] ∧
      applyWrites Itineraries.Write.apply (Itineraries.handleEdit id s) s = s) ∧
    (∀ it, s.itineraries.find? (Itineraries.matchesId id) = some it →
      Itineraries.handleEdit id s
        = [.write (.setEdit (.obj [
            ("id", if (it.getOpt "id").truthy then it.getOpt "id" else it.getOpt "Id"),
            ("name", if (it.getOpt "name").truthy then it.getOpt "name" else it.getOpt "Name"),
            ("durationDays", if (it.getOpt "durationDays").truthy then it.getOpt "durationDays"
              else it.getOpt "DurationDays"),
            ("status", if (it.getOpt "status").truthy then it.getOpt "status"
              else it.getOpt "Status"),
            ("description", if (it.getOpt "description").truthy then it.getOpt "description"
              else it.getOpt "Description")]))] ∧
      (applyWrites Itineraries.Write.apply (Itineraries.handleEdit id s) s).edit
        = .obj [
            ("id", if (it.getOpt "id").truthy then it.getOpt "id" else it.getOpt "Id"),
            ("name", if (it.getOpt "name").truthy then it.getOpt "name" else it.getOpt "Name"),
            ("durationDays", if (it.getOpt "durationDays").truthy then it.getOpt "durationDays"
              else it.getOpt "DurationDays"),
            ("status", if (it.getOpt "status").truthy then it.getOpt "status"
              else it.getOpt "Status"),
            ("description", if (it.getOpt "description").truthy then it.getOpt "description"
              else it.getOpt "Description")] ∧
      (applyWrites Itineraries.Write.apply (Itineraries.handleEdit id s) s).itineraries
        = s.itineraries ∧
      (applyWrites Itineraries.Write.apply (Itineraries.handleEdit id s) s).view = s.view ∧
      (applyWrites Itineraries.Write.apply (Itineraries.handleEdit id s) s).add = s.add ∧
      (applyWrites Itineraries.Write.apply (Itineraries.handleEdit id s) s).loading
        = s.loading) := by
  have hfind := findItinerary_eq_find id s.itineraries hitems
  constructor
  · intro hnone
    have hn : s.itineraries.find? (Itineraries.matchesId id) = none := by
      rw [List.find?_eq_none]
      intro x hx
      simp [hnone x hx]
    rw [hn] at hfind
    have ht : Itineraries.handleEdit id s = [] := by
      unfold Itineraries.handleEdit
      rw [hfind]
      rfl
    rw [ht]
    exact ⟨rfl, rfl⟩
  · intro it hsome
    rw [hsome] at hfind
    have hmem : it ∈ s.itineraries := List.mem_of_find?_eq_some hsome
    have htruthy : it.truthy = true := hitems it hmem
    have ht : Itineraries.handleEdit id s
        = [.write (.setEdit (.obj [
            ("id", if (it.getOpt "id").truthy then it.getOpt "id" else it.getOpt "Id"),
            ("name", if (it.getOpt "name").truthy then it.getOpt "name" else it.getOpt "Name"),
            ("durationDays", if (it.getOpt "durationDays").truthy then it.getOpt "durationDays"
              else it.getOpt "DurationDays"),
            ("status", if (it.getOpt "status").truthy then it.getOpt "status"
              else it.getOpt "Status"),
            ("description", if (it.getOpt "description").truthy then it.getOpt "description"
              else it.getOpt "Description")]))] := by
      unfold Itineraries.handleEdit
      rw [hfind]
      simp only [Option.getD, htruthy, Bool.not_true, Bool.false_eq_true, if_false]
      rfl
    rw [ht]
    exact ⟨rfl, rfl, rfl, rfl, rfl, rfl⟩

/-- With a capitalised itinerary 4 and a lower-case itinerary 5 in the collection, editing 4
fills the draft from the capitalised fields, and editing 6 does nothing. -/
theorem handleEdit_first_match_witness :
    (applyWrites Itineraries.Write.apply
      (Itineraries.handleEdit (.num 4)
        { ItinerariesState.initial with
            itineraries := [capitalisedItinerary, lowerCaseItinerary] })
      { ItinerariesState.initial with
          itineraries := [capitalisedItinerary, lowerCaseItinerary] }).edit
      = .obj [("id", .num 4), ("name", .str "Kandy Hills"), ("durationDays", .num 2),
              ("status", .str "Draft"),
              ("description", .str "Two days in the hill country")] ∧
    Itineraries.handleEdit (.num 6)
      { ItinerariesState.initial with
          itineraries := [capitalisedItinerary, lowerCaseItinerary] } = [] :=
  have hitems : ∀ it ∈ [capitalisedItinerary, lowerCaseItinerary], it.truthy = true := by
    intro it hit
    simp only [List.mem_cons, List.mem_singleton, List.not_mem_nil, or_false] at hit
    rcases hit with h | h <;> subst h <;> rfl
  ⟨((handleEdit_first_match (.num 4)
      { ItinerariesState.initial with
          itineraries := [capitalisedItinerary, lowerCaseItinerary] } rfl hitems).2
      capitalisedItinerary rfl).2.1,
   ((handleEdit_first_match (.num 6)
      { ItinerariesState.initial with
          itineraries := [capitalisedItinerary, lowerCaseItinerary] } rfl hitems).1
      (by
        intro it hit
        simp only [List.mem_cons, List.mem_singleton, List.not_mem_nil, or_false] at hit
        rcases hit with h | h <;> subst h <;> rfl)).1⟩


/-- C30 fails as stated on a collection with an entry that is not a record.  In `[0, {name: 'X'}]`
with the id `undefined` both entries match (neither has an `id`), `find` gives the first, `0`,
and `if (!itinerary) return` sets no draft although an itinerary matches.  In `[null, {id: 5, ...}]`
with the id 5 the second entry matches, but reading `item.id` of `null` throws before it is
reached and no draft is set. -/
theorem handleEdit_stops_at_entry_that_is_no_record :
    Itineraries.matchesId .undefined (.num 0) = true ∧
    Itineraries.matchesId .undefined (.obj [("name", .str "X")]) = true ∧
    Itineraries.handleEdit .undefined
      { ItinerariesState.initial with
          itineraries := [.num 0, .obj [("name", .str "X")]] } = [] ∧
    (applyWrites Itineraries.Write.apply
      (Itineraries.handleEdit .undefined
        { ItinerariesState.initial with
            itineraries := [.num 0, .obj [("name", .str "X")]] })
      { ItinerariesState.initial with
          itineraries := [.num 0, .obj [("name", .str "X")]] }).edit = .null ∧
    Itineraries.matchesId (.num 5) lowerCaseItinerary = true ∧
    Itineraries.handleEdit (.num 5)
      { ItinerariesState.initial with itineraries := [.null, lowerCaseItinerary] }
        = [.throw (nullPropertyError "id")] ∧
    (applyWrites Itineraries.Write.apply
      (Itineraries.handleEdit (.num 5)
        { ItinerariesState.initial with itineraries := [.null, lowerCaseItinerary] })
      { ItinerariesState.initial with
          itineraries := [.null, lowerCaseItinerary] }).edit = .null :=
  ⟨rfl, rfl, rfl, rfl, rfl, rfl, rfl⟩


end EcoTrails
